import Mathlib

/-
Verification of the HVAC controller core (src/Arduino/HVAC.cpp) against its
natural-language specification.  The controller is a single-threaded,
tick-driven state machine; we embed its state as one record and each public
operation as a pure state transformer.  Machine-integer notes:
  - temperatures are int16_t in C; we use Int and apply an explicit wrap to
    the int16 range (toInt16) at the assignments where C truncates;
  - timers are uint16_t counters that the firmware keeps far from the wrap
    boundary (the explicit saturation of m_fanOnTimer is modelled); we use
    Nat for them;
  - C integer division truncates toward zero, which is Int.tdiv.
Enumerator values (Mode_Off .. Mode_Auto, Heat_HP .. Heat_Auto) come from the
header, which is not in the repository snapshot; the values below are fixed
by the .cpp itself (getState logs modes as 1, 2, 3; setMode masks with 3;
setHeatMode reduces mod 3; nonzero heat mode means gas).
-/

set_option maxHeartbeats 1000000

set_option maxRecDepth 100000

/-- Wrap an integer to the int16_t range, as a C assignment to int16_t does. -/
def toInt16 (x : Int) : Int := (x + 32768) % 65536 - 32768

/-- Arduino constrain macro: (amt < low) ? low : ((amt > high) ? high : amt). -/
def constrain (amt low high : Int) : Int :=
  if amt < low then low else if amt > high then high else amt

def Mode_Off : Int := 0

def Mode_Cool : Int := 1

def Mode_Heat : Int := 2

def Mode_Auto : Int := 3

def Heat_HP : Int := 0

def Heat_NG : Int := 1

def Heat_Auto : Int := 2

/-- FF_DELAY: internal furnace fan post-run delay (seconds). -/
def FF_DELAY : Nat := 120

/-- Notification values surfaced by the controller. -/
inductive Note where
  | Note_None
  | Note_CycleLimit
  | Note_Filter
  deriving DecidableEq

/-- The whole controller state: the EEConfig structure m_EE, the transient
members of class HVAC, the static counter nSecs of filterInc, and the four
output pins (HIGH = true).  Pin P_REV starts HIGH (heat orientation). -/
structure HVACState where
  cycleMin : Nat
  cycleMax : Nat
  idleMin : Nat
  cycleThresh : Int
  coolTemp0 : Int
  coolTemp1 : Int
  heatTemp0 : Int
  heatTemp1 : Int
  eHeatThresh : Int
  fanPostDelay0 : Nat
  fanPostDelay1 : Nat
  overrideTime : Nat
  filterMinutes : Nat
  Mode : Int
  heatMode : Int
  m_outTemp : Int
  m_inTemp : Int
  m_rh : Int
  m_bFanRunning : Bool
  m_outMin0 : Int
  m_outMin1 : Int
  m_outMax0 : Int
  m_outMax1 : Int
  m_bFanMode : Bool
  m_AutoMode : Int
  m_setMode : Int
  m_setHeat : Int
  m_AutoHeat : Int
  m_bRunning : Bool
  m_bStart : Bool
  m_bStop : Bool
  m_bRecheck : Bool
  m_bEnabled : Bool
  m_runTotal : Nat
  m_fanOnTimer : Nat
  m_cycleTimer : Nat
  m_fanPostTimer : Nat
  m_overrideTimer : Nat
  m_ovrTemp : Int
  m_remoteTimer : Nat
  m_remoteTimeout : Nat
  m_furnaceFan : Nat
  m_notif : Note
  m_idleTimer : Nat
  m_targetTemp : Int
  nSecs : Nat
  pFan : Bool
  pCool : Bool
  pRev : Bool
  pHeat : Bool
  deriving DecidableEq

/-- fanPostDelay indexed by digitalRead(P_REV), as in the source. -/
def fanPostDelayAt (s : HVACState) (rev : Bool) : Nat :=
  if rev then s.fanPostDelay1 else s.fanPostDelay0

/-- HVAC::fanSwitch. -/
def fanSwitch (s : HVACState) (bOn : Bool) : HVACState :=
  if bOn = s.m_bFanRunning then s
  else
    let s := { s with pFan := bOn, m_bFanRunning := bOn }
    if bOn then { s with m_fanOnTimer := 0 } else s

/-- HVAC::filterInc (nSecs is the static local counter). -/
def filterInc (s : HVACState) : HVACState :=
  let s := { s with nSecs := s.nSecs + 1 }
  if s.nSecs ≥ 60 then
    { s with filterMinutes := s.filterMinutes + 1, nSecs := s.nSecs - 60 }
  else s

/-- HVAC::disable: failsafe, shut everything off. -/
def disable (s : HVACState) : HVACState :=
  let s := { s with pHeat := false, pCool := false }
  let s := fanSwitch s false
  { s with m_bRunning := false, m_bEnabled := false }

/-- Reversing valve sync at the top of HVAC::calcTargetTemp (lines 342 to
344): while idle, point the heat pump at the requested mode. -/
def calcRevSync (s : HVACState) (mode : Int) : HVACState :=
  if ¬ s.m_bRunning then
    if s.pRev ≠ decide (mode = Mode_Heat) then
      { s with pRev := decide (mode = Mode_Heat) }
    else s
  else s

/-- The Mode_Cool interpolation of HVAC::calcTargetTemp (lines 346 to 363):
linear interpolation over the outdoor band, truncated to int16 at the
assignment, then constrained to the cool setpoint band.  The division by
(H - L) has no zero guard; Int.tdiv gives 0 on a zero divisor where the C
code has undefined behavior (see targetDivisor). -/
def coolTarget (s : HVACState) : Int :=
  let L0 := s.m_outMin1
  let H0 := s.m_outMax1
  let L1 := if s.m_outMax0 ≠ -50 then min s.m_outMin0 L0 else L0
  let H1 := if s.m_outMax0 ≠ -50 then max s.m_outMax0 H0 else H0
  let L := L1 * 10
  let H := H1 * 10
  constrain (toInt16 (Int.tdiv ((s.m_outTemp - L) * (s.coolTemp1 - s.coolTemp0)) (H - L) + s.coolTemp0))
    s.coolTemp0 s.coolTemp1

/-- The Mode_Heat interpolation of HVAC::calcTargetTemp (lines 364 to 367). -/
def heatTarget (s : HVACState) : Int :=
  let L0 := s.m_outMin1
  let H0 := s.m_outMax1
  let L1 := if s.m_outMax0 ≠ -50 then min s.m_outMin0 L0 else L0
  let H1 := if s.m_outMax0 ≠ -50 then max s.m_outMax0 H0 else H0
  let L := L1 * 10
  let H := H1 * 10
  constrain (toInt16 (Int.tdiv ((s.m_outTemp - L) * (s.heatTemp1 - s.heatTemp0)) (H - L) + s.heatTemp0))
    s.heatTemp0 s.heatTemp1

/-- HVAC::calcTargetTemp: valve sync, interpolation by mode, then the
override delta is added (outside the switch, for every mode). -/
def calcTargetTemp (s : HVACState) (mode : Int) : HVACState :=
  let s := calcRevSync s mode
  let s :=
    if mode = Mode_Cool then { s with m_targetTemp := coolTarget s }
    else if mode = Mode_Heat then { s with m_targetTemp := heatTarget s }
    else s
  { s with m_targetTemp := toInt16 (s.m_targetTemp + s.m_ovrTemp) }

/-- The divisor of the interpolation in HVAC::calcTargetTemp, computed
exactly as there (lines 346 to 356 of the source). -/
def targetDivisor (s : HVACState) : Int :=
  let L0 := s.m_outMin1
  let H0 := s.m_outMax1
  let L1 := if s.m_outMax0 ≠ -50 then min s.m_outMin0 L0 else L0
  let H1 := if s.m_outMax0 ≠ -50 then max s.m_outMax0 H0 else H0
  H1 * 10 - L1 * 10

/-- HVAC::preCalcCycle: returns the updated state and the bool bRet. -/
def preCalcCycle (s : HVACState) (mode : Int) : HVACState × Bool :=
  if mode = Mode_Cool then
    let s := calcTargetTemp s Mode_Cool
    (s, s.m_inTemp ≥ s.m_targetTemp)
  else if mode = Mode_Heat then
    let s := calcTargetTemp s Mode_Heat
    (s, s.m_inTemp ≤ s.m_targetTemp)
  else if mode = Mode_Auto then
    if s.m_inTemp ≥ s.coolTemp0 then
      let s := calcTargetTemp s Mode_Cool
      let s := { s with m_AutoMode := Mode_Cool }
      (s, s.m_inTemp ≥ s.m_targetTemp)
    else if s.m_inTemp ≤ s.heatTemp1 then
      let s := { s with m_AutoMode := Mode_Heat }
      let s := calcTargetTemp s Mode_Heat
      let s :=
        if s.heatMode = Heat_Auto then
          if s.m_inTemp < s.m_outTemp - s.eHeatThresh * 10 then
            { s with m_AutoHeat := Heat_NG }
          else
            { s with m_AutoHeat := Heat_HP }
        else s
      (s, s.m_inTemp ≤ s.m_targetTemp)
    else (s, false)
  else (s, false)

/-- The switch statement of HVAC::tempCheck while running (lines 274 to 284):
request a stop at the mode dependent boundary. -/
def tcStopCheck (s : HVACState) (mode : Int) : HVACState :=
  if mode = Mode_Cool then
    if s.m_inTemp ≤ s.m_targetTemp - s.cycleThresh then { s with m_bStop := true }
    else s
  else if mode = Mode_Heat then
    if s.m_inTemp > s.m_targetTemp + s.cycleThresh then { s with m_bStop := true }
    else s
  else s

/-- HVAC::tempCheck.  The argument sec0 is whether second() == 0 this tick. -/
def tempCheck (s : HVACState) (sec0 : Bool) : HVACState :=
  if s.m_inTemp = 0 ∨ s.m_bEnabled = false then s
  else if s.Mode = Mode_Off then s
  else if s.m_bRunning then
    if s.m_cycleTimer < s.cycleMin then s
    else
      let mode := if s.Mode = Mode_Auto then s.m_AutoMode else s.Mode
      let s1 :=
        if sec0 ∨ s.m_bRecheck then
          (preCalcCycle { s with m_bRecheck := false } s.Mode).1
        else s
      tcStopCheck s1 mode
  else
    if s.m_idleTimer < s.idleMin then s
    else if sec0 ∨ s.m_bRecheck then
      let p := preCalcCycle { s with m_bRecheck := false } s.Mode
      { p.1 with m_bStart := p.2 }
    else s

/-- Counter block at the top of HVAC::service (lines 114 to 122). -/
def svcCounters (s : HVACState) : HVACState :=
  if s.m_bFanRunning ∨ s.m_bRunning ∨ s.m_furnaceFan ≠ 0 then
    let s := filterInc s
    let s := if s.m_fanOnTimer < 65535 then { s with m_fanOnTimer := s.m_fanOnTimer + 1 } else s
    if s.m_furnaceFan ≠ 0 then { s with m_furnaceFan := s.m_furnaceFan - 1 } else s
  else s

/-- Fan continuation delay block of HVAC::service (lines 124 to 129). -/
def svcFanPost (s : HVACState) : HVACState :=
  if s.m_fanPostTimer ≠ 0 then
    let s := { s with m_fanPostTimer := s.m_fanPostTimer - 1 }
    if s.m_fanPostTimer = 0 then
      if ¬ s.m_bRunning ∧ s.m_bFanMode = false then fanSwitch s false else s
    else s
  else s

/-- Remote temperature override timer decrement (lines 131 to 132). -/
def svcRemote (s : HVACState) : HVACState :=
  if s.m_remoteTimer ≠ 0 then { s with m_remoteTimer := s.m_remoteTimer - 1 } else s

/-- User temp override timer block of HVAC::service (lines 134 to 141). -/
def svcOverride (s : HVACState) : HVACState :=
  if s.m_overrideTimer ≠ 0 then
    let s := { s with m_overrideTimer := s.m_overrideTimer - 1 }
    if s.m_overrideTimer = 0 then calcTargetTemp { s with m_ovrTemp := 0 } s.Mode
    else s
  else s

/-- Requested HVAC mode change block of HVAC::service (lines 159 to 169). -/
def svcModeChange (s : HVACState) : HVACState :=
  if s.m_setMode ≠ s.Mode ∨ s.m_setHeat ≠ s.heatMode then
    let s := if s.m_bRunning then { s with m_bStop := true } else s
    if s.m_idleTimer ≥ 5 then
      let s := { s with heatMode := s.m_setHeat, Mode := s.m_setMode }
      calcTargetTemp s s.Mode
    else s
  else s

/-- Start signal block of HVAC::service (lines 174 to 208).  The delay(3000)
settle waits have no state effect at this granularity. -/
def svcStart (s : HVACState) : HVACState :=
  let hm := if s.heatMode = Heat_Auto then s.m_AutoHeat else s.heatMode
  let mode := if s.Mode = Mode_Auto then s.m_AutoMode else s.Mode
  if s.m_bStart ∧ ¬ s.m_bRunning then
    let s := { s with m_bStart := false }
    let s :=
      if mode = Mode_Cool then
        let s := fanSwitch s true
        let s := if s.pRev ≠ false then { s with pRev := false } else s
        { s with pCool := true }
      else if mode = Mode_Heat then
        if hm ≠ 0 then { s with pHeat := true }
        else
          let s := fanSwitch s true
          let s := if s.pRev ≠ true then { s with pRev := true } else s
          { s with pCool := true }
      else s
    { s with m_bRunning := true, m_cycleTimer := 0 }
  else s

/-- Stop signal block of HVAC::service (lines 210 to 231). -/
def svcStop (s : HVACState) : HVACState :=
  let hm := if s.heatMode = Heat_Auto then s.m_AutoHeat else s.heatMode
  let mode := if s.Mode = Mode_Auto then s.m_AutoMode else s.Mode
  if s.m_bStop ∧ s.m_bRunning then
    let s := { s with m_bStop := false, pCool := false, pHeat := false }
    let s :=
      if s.m_bFanRunning ∧ s.m_bFanMode = false then
        if fanPostDelayAt s s.pRev ≠ 0 then
          { s with m_fanPostTimer := fanPostDelayAt s s.pRev }
        else fanSwitch s false
      else s
    let s := if mode = Mode_Heat ∧ hm ≠ 0 then { s with m_furnaceFan := FF_DELAY } else s
    { s with m_bRunning := false, m_idleTimer := 0 }
  else s

/-- Tail of HVAC::service after the cycle timer block: mode change, start,
stop, then tempCheck. -/
def serviceRest (s : HVACState) (sec0 : Bool) : HVACState :=
  tempCheck (svcStop (svcStart (svcModeChange s))) sec0

/-- The four timer blocks at the top of HVAC::service (lines 114 to 141). -/
def svcTimers (s : HVACState) : HVACState :=
  svcOverride (svcRemote (svcFanPost (svcCounters s)))

/-- HVAC::service, called once per second; sec0 is whether second() == 0. -/
def service (s0 : HVACState) (sec0 : Bool) : HVACState :=
  let s := svcTimers s0
  if s.m_bRunning then
    let s := { s with m_runTotal := s.m_runTotal + 1, m_cycleTimer := s.m_cycleTimer + 1 }
    if s.m_cycleTimer < 20 then s
    else
      let s :=
        if s.m_cycleTimer ≥ s.cycleMax then
          { s with m_bStop := true, m_notif := Note.Note_CycleLimit }
        else s
      serviceRest s sec0
  else
    serviceRest { s with m_idleTimer := s.m_idleTimer + 1 } sec0

/-- HVAC::setMode.  On an int8, mode & 3 equals mode mod 4 (emod). -/
def setMode (s : HVACState) (mode : Int) : HVACState :=
  let s := { s with m_setMode := Int.emod mode 4 }
  if ¬ s.m_bRunning then
    if s.m_idleTimer < s.idleMin - 30 then { s with m_idleTimer := s.idleMin - 10 }
    else s
  else s

/-- HVAC::setHeatMode (uint8 argument, reduced mod 3). -/
def setHeatMode (s : HVACState) (mode : Nat) : HVACState :=
  { s with m_setHeat := ((mode % 3 : Nat) : Int) }

/-- HVAC::enable. -/
def enable (s : HVACState) : HVACState :=
  { s with m_bEnabled := true, m_bRecheck := true }

/-- HVAC::setFan. -/
def setFan (s : HVACState) (bon : Bool) : HVACState :=
  if bon = s.m_bFanMode then s
  else
    let s := { s with m_bFanMode := bon }
    if ¬ s.m_bRunning then fanSwitch s bon else s

/-- The Mode_Cool case of HVAC::setTemp (lines 493 to 512).  Out of range
values fall out of the switch via break, leaving the state unchanged. -/
def setTempCool (s : HVACState) (Temp : Int) (hl : Bool) : HVACState :=
  if Temp < 650 ∨ Temp > 880 then s
  else
    let s := if hl then { s with coolTemp1 := Temp } else { s with coolTemp0 := Temp }
    let s :=
      if hl then { s with coolTemp0 := min s.coolTemp1 s.coolTemp0 }
      else { s with coolTemp1 := max s.coolTemp0 s.coolTemp1 }
    let save := s.heatTemp1 - s.heatTemp0
    let s := { s with heatTemp1 := min (s.coolTemp0 - 20) s.heatTemp1 }
    let s := { s with heatTemp0 := s.heatTemp1 - save }
    if s.Mode = Mode_Cool then calcTargetTemp s s.Mode else s

/-- The Mode_Heat case of HVAC::setTemp (lines 513 to 532). -/
def setTempHeat (s : HVACState) (Temp : Int) (hl : Bool) : HVACState :=
  if Temp < 630 ∨ Temp > 860 then s
  else
    let s := if hl then { s with heatTemp1 := Temp } else { s with heatTemp0 := Temp }
    let s :=
      if hl then { s with heatTemp0 := min s.heatTemp1 s.heatTemp0 }
      else { s with heatTemp1 := max s.heatTemp0 s.heatTemp1 }
    let save := s.coolTemp1 - s.coolTemp0
    let s := { s with coolTemp0 := max (s.heatTemp1 - 20) s.coolTemp0 }
    let s := { s with coolTemp1 := s.coolTemp0 + save }
    if s.Mode = Mode_Heat then calcTargetTemp s s.Mode else s

/-- HVAC::setTemp.  The int8 local save is modelled exactly as the
subtraction, which the claim inputs keep within int8 range. -/
def setTemp (s : HVACState) (mode0 : Int) (Temp : Int) (hl : Bool) : HVACState :=
  let mode := if mode0 = Mode_Auto then s.m_AutoMode else mode0
  if mode = Mode_Cool then setTempCool s Temp hl
  else if mode = Mode_Heat then setTempHeat s Temp hl
  else s

/-- HVAC::updateIndoorTemp. -/
def updateIndoorTemp (s : HVACState) (Temp rh : Int) : HVACState :=
  let s := if s.m_remoteTimer = 0 then { s with m_inTemp := Temp } else s
  { s with m_rh := rh }

/-- HVAC::updateOutdoorTemp. -/
def updateOutdoorTemp (s : HVACState) (outTemp : Int) : HVACState :=
  { s with m_outTemp := outTemp }

/-- HVAC::updatePeaks. -/
def updatePeaks (s : HVACState) (mn mx : Int) : HVACState :=
  let s :=
    if s.m_outMax0 ≠ -50 then
      { s with m_outMax0 := s.m_outMax1, m_outMin0 := s.m_outMin1 }
    else
      { s with m_outMin0 := mn, m_outMax0 := mx }
  { s with m_outMin1 := mn, m_outMax1 := mx }

/-- HVAC::resetFilter. -/
def resetFilter (s : HVACState) : HVACState :=
  let s := { s with filterMinutes := 0 }
  if s.m_notif = Note.Note_Filter then { s with m_notif := Note.Note_None } else s

/-- HVAC::resetTotal. -/
def resetTotal (s : HVACState) : HVACState :=
  { s with m_runTotal := 0 }

/-- State after the HVAC constructor.  The constructor does not initialize
m_EE.Mode, m_EE.heatMode, m_outMin[0], m_outMin[1] or m_targetTemp (Mode and
heatMode live in EEPROM and are loaded by an external collaborator), so those
are parameters; everything else is the literal constructor value.  Both
m_outMax entries are set to the -50 sentinel; P_REV is driven HIGH. -/
def initState (mode heatM oMin0 oMin1 tgt : Int) : HVACState where
  cycleMin := 60
  cycleMax := 900
  idleMin := 300
  cycleThresh := 17
  coolTemp0 := 790
  coolTemp1 := 820
  heatTemp0 := 700
  heatTemp1 := 740
  eHeatThresh := 30
  fanPostDelay0 := 60
  fanPostDelay1 := 120
  overrideTime := 600
  filterMinutes := 0
  Mode := mode
  heatMode := heatM
  m_outTemp := 0
  m_inTemp := 0
  m_rh := 0
  m_bFanRunning := false
  m_outMin0 := oMin0
  m_outMin1 := oMin1
  m_outMax0 := -50
  m_outMax1 := -50
  m_bFanMode := false
  m_AutoMode := 0
  m_setMode := 0
  m_setHeat := 0
  m_AutoHeat := 0
  m_bRunning := false
  m_bStart := false
  m_bStop := false
  m_bRecheck := false
  m_bEnabled := false
  m_runTotal := 0
  m_fanOnTimer := 0
  m_cycleTimer := 0
  m_fanPostTimer := 0
  m_overrideTimer := 0
  m_ovrTemp := 0
  m_remoteTimer := 0
  m_remoteTimeout := 300
  m_furnaceFan := 0
  m_notif := Note.Note_None
  m_idleTimer := 180
  m_targetTemp := tgt
  nSecs := 0
  pFan := false
  pCool := false
  pRev := true
  pHeat := false

/-- The public events of the controller: one service tick (with the value of
second() == 0 as input) and every extern setter, including each case of the
HVAC::setVar command dispatcher with its clamp from the source. -/
inductive Ev where
  | tick (sec0 : Bool)
  | evSetFan (b : Bool)
  | evSetMode (m : Int)
  | evSetHeatMode (m : Nat)
  | evSetTemp (mode t : Int) (hl : Bool)
  | evEnable
  | evDisable
  | evUpdIndoor (t rh : Int)
  | evUpdOutdoor (t : Int)
  | evUpdPeaks (mn mx : Int)
  | varFanPostDelay (v : Int)
  | varCycleMin (v : Int)
  | varCycleMax (v : Int)
  | varIdleMin (v : Int)
  | varCycleThresh (v : Int)
  | varSetTemp (mode t : Int) (hl : Bool)
  | varEHeatThresh (v : Int)
  | varOverride (v : Int)
  | varOverrideTime (v : Int)
  | varRemoteTemp (v : Int)
  | varRemoteTime (v : Int)
  | evResetFilter
  | evResetTotal
  deriving DecidableEq

/-- Apply one public event; setVar cases carry the constrain clamps of
HVAC::setVar (lines 673 to 757). -/
def applyEv (s : HVACState) : Ev → HVACState
  | Ev.tick sec0 => service s sec0
  | Ev.evSetFan b => setFan s b
  | Ev.evSetMode m => setMode s m
  | Ev.evSetHeatMode m => setHeatMode s m
  | Ev.evSetTemp m t hl => setTemp s m t hl
  | Ev.evEnable => enable s
  | Ev.evDisable => disable s
  | Ev.evUpdIndoor t rh => updateIndoorTemp s t rh
  | Ev.evUpdOutdoor t => updateOutdoorTemp s t
  | Ev.evUpdPeaks mn mx => updatePeaks s mn mx
  | Ev.varFanPostDelay v =>
      if s.pRev then { s with fanPostDelay1 := (constrain v 0 300).toNat }
      else { s with fanPostDelay0 := (constrain v 0 300).toNat }
  | Ev.varCycleMin v => { s with cycleMin := (constrain v 60 1200).toNat }
  | Ev.varCycleMax v => { s with cycleMax := (constrain v 120 3600).toNat }
  | Ev.varIdleMin v => { s with idleMin := (constrain v 60 1800).toNat }
  | Ev.varCycleThresh v => { s with cycleThresh := constrain v 5 50 }
  | Ev.varSetTemp m t hl => { setTemp s m t hl with m_bRecheck := true }
  | Ev.varEHeatThresh v => { s with eHeatThresh := constrain v 5 50 }
  | Ev.varOverride v =>
      if v ≤ 0 then { s with m_ovrTemp := 0, m_overrideTimer := 0, m_bRecheck := true }
      else { s with m_ovrTemp := constrain v (-90) 90,
                    m_overrideTimer := s.overrideTime, m_bRecheck := true }
  | Ev.varOverrideTime v => { s with overrideTime := (constrain v 60 18000).toNat }
  | Ev.varRemoteTemp v =>
      if v > 0 then { s with m_inTemp := constrain v 650 880, m_remoteTimer := s.m_remoteTimeout }
      else { s with m_remoteTimer := 0 }
  | Ev.varRemoteTime v => { s with m_remoteTimeout := (constrain v 1 300).toNat }
  | Ev.evResetFilter => resetFilter s
  | Ev.evResetTotal => resetTotal s

/-- Run a list of events from a state. -/
def runTrace (s : HVACState) (es : List Ev) : HVACState :=
  es.foldl applyEv s

/-- Reachable states: any constructor state (with arbitrary EEPROM resident
fields) followed by any sequence of public events. -/
inductive Reach : HVACState → Prop
  | init (mode heatM oMin0 oMin1 tgt : Int) : Reach (initState mode heatM oMin0 oMin1 tgt)
  | step (s : HVACState) (e : Ev) : Reach s → Reach (applyEv s e)

/-- Iterate service ticks only, with sec0 taken from a stream. -/
def ticksRun (s : HVACState) (ins : Nat → Bool) : Nat → HVACState
  | 0 => s
  | k + 1 => service (ticksRun s ins k) (ins k)

/-- Sensor events: the inputs a temperature trajectory can deliver between
ticks. -/
inductive SensorEv where
  | ind (t rh : Int)
  | outd (t : Int)
  | pk (mn mx : Int)
  deriving DecidableEq

def applySensor (s : HVACState) : SensorEv → HVACState
  | SensorEv.ind t rh => updateIndoorTemp s t rh
  | SensorEv.outd t => updateOutdoorTemp s t
  | SensorEv.pk mn mx => updatePeaks s mn mx

/-- One environment step: deliver a batch of sensor updates, then tick. -/
def envStep (s : HVACState) (i : Bool × List SensorEv) : HVACState :=
  service (i.2.foldl applySensor s) i.1

/-- Iterate environment steps from a stream of per-tick inputs. -/
def envRun (s : HVACState) (ins : Nat → Bool × List SensorEv) : Nat → HVACState
  | 0 => s
  | k + 1 => envStep (envRun s ins k) (ins k)
theorem fanSwitch_frame (s : HVACState) (b : Bool) :
    (fanSwitch s b).cycleMin = s.cycleMin ∧
    (fanSwitch s b).cycleMax = s.cycleMax ∧
    (fanSwitch s b).idleMin = s.idleMin ∧
    (fanSwitch s b).cycleThresh = s.cycleThresh ∧
    (fanSwitch s b).coolTemp0 = s.coolTemp0 ∧
    (fanSwitch s b).coolTemp1 = s.coolTemp1 ∧
    (fanSwitch s b).heatTemp0 = s.heatTemp0 ∧
    (fanSwitch s b).heatTemp1 = s.heatTemp1 ∧
    (fanSwitch s b).eHeatThresh = s.eHeatThresh ∧
    (fanSwitch s b).fanPostDelay0 = s.fanPostDelay0 ∧
    (fanSwitch s b).fanPostDelay1 = s.fanPostDelay1 ∧
    (fanSwitch s b).overrideTime = s.overrideTime ∧
    (fanSwitch s b).filterMinutes = s.filterMinutes ∧
    (fanSwitch s b).Mode = s.Mode ∧
    (fanSwitch s b).heatMode = s.heatMode ∧
    (fanSwitch s b).m_outTemp = s.m_outTemp ∧
    (fanSwitch s b).m_inTemp = s.m_inTemp ∧
    (fanSwitch s b).m_rh = s.m_rh ∧
    (fanSwitch s b).m_outMin0 = s.m_outMin0 ∧
    (fanSwitch s b).m_outMin1 = s.m_outMin1 ∧
    (fanSwitch s b).m_outMax0 = s.m_outMax0 ∧
    (fanSwitch s b).m_outMax1 = s.m_outMax1 ∧
    (fanSwitch s b).m_bFanMode = s.m_bFanMode ∧
    (fanSwitch s b).m_AutoMode = s.m_AutoMode ∧
    (fanSwitch s b).m_setMode = s.m_setMode ∧
    (fanSwitch s b).m_setHeat = s.m_setHeat ∧
    (fanSwitch s b).m_AutoHeat = s.m_AutoHeat ∧
    (fanSwitch s b).m_bRunning = s.m_bRunning ∧
    (fanSwitch s b).m_bStart = s.m_bStart ∧
    (fanSwitch s b).m_bStop = s.m_bStop ∧
    (fanSwitch s b).m_bRecheck = s.m_bRecheck ∧
    (fanSwitch s b).m_bEnabled = s.m_bEnabled ∧
    (fanSwitch s b).m_runTotal = s.m_runTotal ∧
    (fanSwitch s b).m_cycleTimer = s.m_cycleTimer ∧
    (fanSwitch s b).m_fanPostTimer = s.m_fanPostTimer ∧
    (fanSwitch s b).m_overrideTimer = s.m_overrideTimer ∧
    (fanSwitch s b).m_ovrTemp = s.m_ovrTemp ∧
    (fanSwitch s b).m_remoteTimer = s.m_remoteTimer ∧
    (fanSwitch s b).m_remoteTimeout = s.m_remoteTimeout ∧
    (fanSwitch s b).m_furnaceFan = s.m_furnaceFan ∧
    (fanSwitch s b).m_notif = s.m_notif ∧
    (fanSwitch s b).m_idleTimer = s.m_idleTimer ∧
    (fanSwitch s b).m_targetTemp = s.m_targetTemp ∧
    (fanSwitch s b).nSecs = s.nSecs ∧
    (fanSwitch s b).pCool = s.pCool ∧
    (fanSwitch s b).pRev = s.pRev ∧
    (fanSwitch s b).pHeat = s.pHeat := by
  unfold fanSwitch
  try dsimp only
  split_ifs <;> simp [fanPostDelayAt]

@[simp]
theorem fanSwitch_fr_cycleMin (s : HVACState) (b : Bool) : (fanSwitch s b).cycleMin = s.cycleMin :=
  (fanSwitch_frame s b).1

@[simp]
theorem fanSwitch_fr_cycleMax (s : HVACState) (b : Bool) : (fanSwitch s b).cycleMax = s.cycleMax :=
  (fanSwitch_frame s b).2.1

@[simp]
theorem fanSwitch_fr_idleMin (s : HVACState) (b : Bool) : (fanSwitch s b).idleMin = s.idleMin :=
  (fanSwitch_frame s b).2.2.1

@[simp]
theorem fanSwitch_fr_cycleThresh (s : HVACState) (b : Bool) : (fanSwitch s b).cycleThresh = s.cycleThresh :=
  (fanSwitch_frame s b).2.2.2.1

@[simp]
theorem fanSwitch_fr_coolTemp0 (s : HVACState) (b : Bool) : (fanSwitch s b).coolTemp0 = s.coolTemp0 :=
  (fanSwitch_frame s b).2.2.2.2.1

@[simp]
theorem fanSwitch_fr_coolTemp1 (s : HVACState) (b : Bool) : (fanSwitch s b).coolTemp1 = s.coolTemp1 :=
  (fanSwitch_frame s b).2.2.2.2.2.1

@[simp]
theorem fanSwitch_fr_heatTemp0 (s : HVACState) (b : Bool) : (fanSwitch s b).heatTemp0 = s.heatTemp0 :=
  (fanSwitch_frame s b).2.2.2.2.2.2.1

@[simp]
theorem fanSwitch_fr_heatTemp1 (s : HVACState) (b : Bool) : (fanSwitch s b).heatTemp1 = s.heatTemp1 :=
  (fanSwitch_frame s b).2.2.2.2.2.2.2.1

@[simp]
theorem fanSwitch_fr_eHeatThresh (s : HVACState) (b : Bool) : (fanSwitch s b).eHeatThresh = s.eHeatThresh :=
  (fanSwitch_frame s b).2.2.2.2.2.2.2.2.1

@[simp]
theorem fanSwitch_fr_fanPostDelay0 (s : HVACState) (b : Bool) : (fanSwitch s b).fanPostDelay0 = s.fanPostDelay0 :=
  (fanSwitch_frame s b).2.2.2.2.2.2.2.2.2.1

@[simp]
theorem fanSwitch_fr_fanPostDelay1 (s : HVACState) (b : Bool) : (fanSwitch s b).fanPostDelay1 = s.fanPostDelay1 :=
  (fanSwitch_frame s b).2.2.2.2.2.2.2.2.2.2.1

@[simp]
theorem fanSwitch_fr_overrideTime (s : HVACState) (b : Bool) : (fanSwitch s b).overrideTime = s.overrideTime :=
  (fanSwitch_frame s b).2.2.2.2.2.2.2.2.2.2.2.1

@[simp]
theorem fanSwitch_fr_filterMinutes (s : HVACState) (b : Bool) : (fanSwitch s b).filterMinutes = s.filterMinutes :=
  (fanSwitch_frame s b).2.2.2.2.2.2.2.2.2.2.2.2.1

@[simp]
theorem fanSwitch_fr_Mode (s : HVACState) (b : Bool) : (fanSwitch s b).Mode = s.Mode :=
  (fanSwitch_frame s b).2.2.2.2.2.2.2.2.2.2.2.2.2.1

@[simp]
theorem fanSwitch_fr_heatMode (s : HVACState) (b : Bool) : (fanSwitch s b).heatMode = s.heatMode :=
  (fanSwitch_frame s b).2.2.2.2.2.2.2.2.2.2.2.2.2.2.1

@[simp]
theorem fanSwitch_fr_m_outTemp (s : HVACState) (b : Bool) : (fanSwitch s b).m_outTemp = s.m_outTemp :=
  (fanSwitch_frame s b).2.2.2.2.2.2.2.2.2.2.2.2.2.2.2.1

@[simp]
theorem fanSwitch_fr_m_inTemp (s : HVACState) (b : Bool) : (fanSwitch s b).m_inTemp = s.m_inTemp :=
  (fanSwitch_frame s b).2.2.2.2.2.2.2.2.2.2.2.2.2.2.2.2.1

@[simp]
theorem fanSwitch_fr_m_rh (s : HVACState) (b : Bool) : (fanSwitch s b).m_rh = s.m_rh :=
  (fanSwitch_frame s b).2.2.2.2.2.2.2.2.2.2.2.2.2.2.2.2.2.1

@[simp]
theorem fanSwitch_fr_m_outMin0 (s : HVACState) (b : Bool) : (fanSwitch s b).m_outMin0 = s.m_outMin0 :=
  (fanSwitch_frame s b).2.2.2.2.2.2.2.2.2.2.2.2.2.2.2.2.2.2.1

@[simp]
theorem fanSwitch_fr_m_outMin1 (s : HVACState) (b : Bool) : (fanSwitch s b).m_outMin1 = s.m_outMin1 :=
  (fanSwitch_frame s b).2.2.2.2.2.2.2.2.2.2.2.2.2.2.2.2.2.2.2.1

@[simp]
theorem fanSwitch_fr_m_outMax0 (s : HVACState) (b : Bool) : (fanSwitch s b).m_outMax0 = s.m_outMax0 :=
  (fanSwitch_frame s b).2.2.2.2.2.2.2.2.2.2.2.2.2.2.2.2.2.2.2.2.1

@[simp]
theorem fanSwitch_fr_m_outMax1 (s : HVACState) (b : Bool) : (fanSwitch s b).m_outMax1 = s.m_outMax1 :=
  (fanSwitch_frame s b).2.2.2.2.2.2.2.2.2.2.2.2.2.2.2.2.2.2.2.2.2.1

@[simp]
theorem fanSwitch_fr_m_bFanMode (s : HVACState) (b : Bool) : (fanSwitch s b).m_bFanMode = s.m_bFanMode :=
  (fanSwitch_frame s b).2.2.2.2.2.2.2.2.2.2.2.2.2.2.2.2.2.2.2.2.2.2.1

@[simp]
theorem fanSwitch_fr_m_AutoMode (s : HVACState) (b : Bool) : (fanSwitch s b).m_AutoMode = s.m_AutoMode :=
  (fanSwitch_frame s b).2.2.2.2.2.2.2.2.2.2.2.2.2.2.2.2.2.2.2.2.2.2.2.1

@[simp]
theorem fanSwitch_fr_m_setMode (s : HVACState) (b : Bool) : (fanSwitch s b).m_setMode = s.m_setMode :=
  (fanSwitch_frame s b).2.2.2.2.2.2.2.2.2.2.2.2.2.2.2.2.2.2.2.2.2.2.2.2.1

@[simp]
theorem fanSwitch_fr_m_setHeat (s : HVACState) (b : Bool) : (fanSwitch s b).m_setHeat = s.m_setHeat :=
  (fanSwitch_frame s b).2.2.2.2.2.2.2.2.2.2.2.2.2.2.2.2.2.2.2.2.2.2.2.2.2.1

@[simp]
theorem fanSwitch_fr_m_AutoHeat (s : HVACState) (b : Bool) : (fanSwitch s b).m_AutoHeat = s.m_AutoHeat :=
  (fanSwitch_frame s b).2.2.2.2.2.2.2.2.2.2.2.2.2.2.2.2.2.2.2.2.2.2.2.2.2.2.1

@[simp]
theorem fanSwitch_fr_m_bRunning (s : HVACState) (b : Bool) : (fanSwitch s b).m_bRunning = s.m_bRunning :=
  (fanSwitch_frame s b).2.2.2.2.2.2.2.2.2.2.2.2.2.2.2.2.2.2.2.2.2.2.2.2.2.2.2.1

@[simp]
theorem fanSwitch_fr_m_bStart (s : HVACState) (b : Bool) : (fanSwitch s b).m_bStart = s.m_bStart :=
  (fanSwitch_frame s b).2.2.2.2.2.2.2.2.2.2.2.2.2.2.2.2.2.2.2.2.2.2.2.2.2.2.2.2.1

@[simp]
theorem fanSwitch_fr_m_bStop (s : HVACState) (b : Bool) : (fanSwitch s b).m_bStop = s.m_bStop :=
  (fanSwitch_frame s b).2.2.2.2.2.2.2.2.2.2.2.2.2.2.2.2.2.2.2.2.2.2.2.2.2.2.2.2.2.1

@[simp]
theorem fanSwitch_fr_m_bRecheck (s : HVACState) (b : Bool) : (fanSwitch s b).m_bRecheck = s.m_bRecheck :=
  (fanSwitch_frame s b).2.2.2.2.2.2.2.2.2.2.2.2.2.2.2.2.2.2.2.2.2.2.2.2.2.2.2.2.2.2.1

@[simp]
theorem fanSwitch_fr_m_bEnabled (s : HVACState) (b : Bool) : (fanSwitch s b).m_bEnabled = s.m_bEnabled :=
  (fanSwitch_frame s b).2.2.2.2.2.2.2.2.2.2.2.2.2.2.2.2.2.2.2.2.2.2.2.2.2.2.2.2.2.2.2.1

@[simp]
theorem fanSwitch_fr_m_runTotal (s : HVACState) (b : Bool) : (fanSwitch s b).m_runTotal = s.m_runTotal :=
  (fanSwitch_frame s b).2.2.2.2.2.2.2.2.2.2.2.2.2.2.2.2.2.2.2.2.2.2.2.2.2.2.2.2.2.2.2.2.1

@[simp]
theorem fanSwitch_fr_m_cycleTimer (s : HVACState) (b : Bool) : (fanSwitch s b).m_cycleTimer = s.m_cycleTimer :=
  (fanSwitch_frame s b).2.2.2.2.2.2.2.2.2.2.2.2.2.2.2.2.2.2.2.2.2.2.2.2.2.2.2.2.2.2.2.2.2.1

@[simp]
theorem fanSwitch_fr_m_fanPostTimer (s : HVACState) (b : Bool) : (fanSwitch s b).m_fanPostTimer = s.m_fanPostTimer :=
  (fanSwitch_frame s b).2.2.2.2.2.2.2.2.2.2.2.2.2.2.2.2.2.2.2.2.2.2.2.2.2.2.2.2.2.2.2.2.2.2.1

@[simp]
theorem fanSwitch_fr_m_overrideTimer (s : HVACState) (b : Bool) : (fanSwitch s b).m_overrideTimer = s.m_overrideTimer :=
  (fanSwitch_frame s b).2.2.2.2.2.2.2.2.2.2.2.2.2.2.2.2.2.2.2.2.2.2.2.2.2.2.2.2.2.2.2.2.2.2.2.1

@[simp]
theorem fanSwitch_fr_m_ovrTemp (s : HVACState) (b : Bool) : (fanSwitch s b).m_ovrTemp = s.m_ovrTemp :=
  (fanSwitch_frame s b).2.2.2.2.2.2.2.2.2.2.2.2.2.2.2.2.2.2.2.2.2.2.2.2.2.2.2.2.2.2.2.2.2.2.2.2.1

@[simp]
theorem fanSwitch_fr_m_remoteTimer (s : HVACState) (b : Bool) : (fanSwitch s b).m_remoteTimer = s.m_remoteTimer :=
  (fanSwitch_frame s b).2.2.2.2.2.2.2.2.2.2.2.2.2.2.2.2.2.2.2.2.2.2.2.2.2.2.2.2.2.2.2.2.2.2.2.2.2.1

@[simp]
theorem fanSwitch_fr_m_remoteTimeout (s : HVACState) (b : Bool) : (fanSwitch s b).m_remoteTimeout = s.m_remoteTimeout :=
  (fanSwitch_frame s b).2.2.2.2.2.2.2.2.2.2.2.2.2.2.2.2.2.2.2.2.2.2.2.2.2.2.2.2.2.2.2.2.2.2.2.2.2.2.1

@[simp]
theorem fanSwitch_fr_m_furnaceFan (s : HVACState) (b : Bool) : (fanSwitch s b).m_furnaceFan = s.m_furnaceFan :=
  (fanSwitch_frame s b).2.2.2.2.2.2.2.2.2.2.2.2.2.2.2.2.2.2.2.2.2.2.2.2.2.2.2.2.2.2.2.2.2.2.2.2.2.2.2.1

@[simp]
theorem fanSwitch_fr_m_notif (s : HVACState) (b : Bool) : (fanSwitch s b).m_notif = s.m_notif :=
  (fanSwitch_frame s b).2.2.2.2.2.2.2.2.2.2.2.2.2.2.2.2.2.2.2.2.2.2.2.2.2.2.2.2.2.2.2.2.2.2.2.2.2.2.2.2.1

@[simp]
theorem fanSwitch_fr_m_idleTimer (s : HVACState) (b : Bool) : (fanSwitch s b).m_idleTimer = s.m_idleTimer :=
  (fanSwitch_frame s b).2.2.2.2.2.2.2.2.2.2.2.2.2.2.2.2.2.2.2.2.2.2.2.2.2.2.2.2.2.2.2.2.2.2.2.2.2.2.2.2.2.1

@[simp]
theorem fanSwitch_fr_m_targetTemp (s : HVACState) (b : Bool) : (fanSwitch s b).m_targetTemp = s.m_targetTemp :=
  (fanSwitch_frame s b).2.2.2.2.2.2.2.2.2.2.2.2.2.2.2.2.2.2.2.2.2.2.2.2.2.2.2.2.2.2.2.2.2.2.2.2.2.2.2.2.2.2.1

@[simp]
theorem fanSwitch_fr_nSecs (s : HVACState) (b : Bool) : (fanSwitch s b).nSecs = s.nSecs :=
  (fanSwitch_frame s b).2.2.2.2.2.2.2.2.2.2.2.2.2.2.2.2.2.2.2.2.2.2.2.2.2.2.2.2.2.2.2.2.2.2.2.2.2.2.2.2.2.2.2.1

@[simp]
theorem fanSwitch_fr_pCool (s : HVACState) (b : Bool) : (fanSwitch s b).pCool = s.pCool :=
  (fanSwitch_frame s b).2.2.2.2.2.2.2.2.2.2.2.2.2.2.2.2.2.2.2.2.2.2.2.2.2.2.2.2.2.2.2.2.2.2.2.2.2.2.2.2.2.2.2.2.1

@[simp]
theorem fanSwitch_fr_pRev (s : HVACState) (b : Bool) : (fanSwitch s b).pRev = s.pRev :=
  (fanSwitch_frame s b).2.2.2.2.2.2.2.2.2.2.2.2.2.2.2.2.2.2.2.2.2.2.2.2.2.2.2.2.2.2.2.2.2.2.2.2.2.2.2.2.2.2.2.2.2.1

@[simp]
theorem fanSwitch_fr_pHeat (s : HVACState) (b : Bool) : (fanSwitch s b).pHeat = s.pHeat :=
  (fanSwitch_frame s b).2.2.2.2.2.2.2.2.2.2.2.2.2.2.2.2.2.2.2.2.2.2.2.2.2.2.2.2.2.2.2.2.2.2.2.2.2.2.2.2.2.2.2.2.2.2

@[simp]
theorem fanSwitch_false_fanOnTimer (s : HVACState) :
    (fanSwitch s false).m_fanOnTimer = s.m_fanOnTimer := by
  unfold fanSwitch
  try dsimp only
  split_ifs <;> simp_all

theorem filterInc_frame (s : HVACState) :
    (filterInc s).cycleMin = s.cycleMin ∧
    (filterInc s).cycleMax = s.cycleMax ∧
    (filterInc s).idleMin = s.idleMin ∧
    (filterInc s).cycleThresh = s.cycleThresh ∧
    (filterInc s).coolTemp0 = s.coolTemp0 ∧
    (filterInc s).coolTemp1 = s.coolTemp1 ∧
    (filterInc s).heatTemp0 = s.heatTemp0 ∧
    (filterInc s).heatTemp1 = s.heatTemp1 ∧
    (filterInc s).eHeatThresh = s.eHeatThresh ∧
    (filterInc s).fanPostDelay0 = s.fanPostDelay0 ∧
    (filterInc s).fanPostDelay1 = s.fanPostDelay1 ∧
    (filterInc s).overrideTime = s.overrideTime ∧
    (filterInc s).Mode = s.Mode ∧
    (filterInc s).heatMode = s.heatMode ∧
    (filterInc s).m_outTemp = s.m_outTemp ∧
    (filterInc s).m_inTemp = s.m_inTemp ∧
    (filterInc s).m_rh = s.m_rh ∧
    (filterInc s).m_bFanRunning = s.m_bFanRunning ∧
    (filterInc s).m_outMin0 = s.m_outMin0 ∧
    (filterInc s).m_outMin1 = s.m_outMin1 ∧
    (filterInc s).m_outMax0 = s.m_outMax0 ∧
    (filterInc s).m_outMax1 = s.m_outMax1 ∧
    (filterInc s).m_bFanMode = s.m_bFanMode ∧
    (filterInc s).m_AutoMode = s.m_AutoMode ∧
    (filterInc s).m_setMode = s.m_setMode ∧
    (filterInc s).m_setHeat = s.m_setHeat ∧
    (filterInc s).m_AutoHeat = s.m_AutoHeat ∧
    (filterInc s).m_bRunning = s.m_bRunning ∧
    (filterInc s).m_bStart = s.m_bStart ∧
    (filterInc s).m_bStop = s.m_bStop ∧
    (filterInc s).m_bRecheck = s.m_bRecheck ∧
    (filterInc s).m_bEnabled = s.m_bEnabled ∧
    (filterInc s).m_runTotal = s.m_runTotal ∧
    (filterInc s).m_fanOnTimer = s.m_fanOnTimer ∧
    (filterInc s).m_cycleTimer = s.m_cycleTimer ∧
    (filterInc s).m_fanPostTimer = s.m_fanPostTimer ∧
    (filterInc s).m_overrideTimer = s.m_overrideTimer ∧
    (filterInc s).m_ovrTemp = s.m_ovrTemp ∧
    (filterInc s).m_remoteTimer = s.m_remoteTimer ∧
    (filterInc s).m_remoteTimeout = s.m_remoteTimeout ∧
    (filterInc s).m_furnaceFan = s.m_furnaceFan ∧
    (filterInc s).m_notif = s.m_notif ∧
    (filterInc s).m_idleTimer = s.m_idleTimer ∧
    (filterInc s).m_targetTemp = s.m_targetTemp ∧
    (filterInc s).pFan = s.pFan ∧
    (filterInc s).pCool = s.pCool ∧
    (filterInc s).pRev = s.pRev ∧
    (filterInc s).pHeat = s.pHeat := by
  unfold filterInc
  try dsimp only
  split_ifs <;> simp [fanPostDelayAt]

@[simp]
theorem filterInc_fr_cycleMin (s : HVACState) : (filterInc s).cycleMin = s.cycleMin :=
  (filterInc_frame s).1

@[simp]
theorem filterInc_fr_cycleMax (s : HVACState) : (filterInc s).cycleMax = s.cycleMax :=
  (filterInc_frame s).2.1

@[simp]
theorem filterInc_fr_idleMin (s : HVACState) : (filterInc s).idleMin = s.idleMin :=
  (filterInc_frame s).2.2.1

@[simp]
theorem filterInc_fr_cycleThresh (s : HVACState) : (filterInc s).cycleThresh = s.cycleThresh :=
  (filterInc_frame s).2.2.2.1

@[simp]
theorem filterInc_fr_coolTemp0 (s : HVACState) : (filterInc s).coolTemp0 = s.coolTemp0 :=
  (filterInc_frame s).2.2.2.2.1

@[simp]
theorem filterInc_fr_coolTemp1 (s : HVACState) : (filterInc s).coolTemp1 = s.coolTemp1 :=
  (filterInc_frame s).2.2.2.2.2.1

@[simp]
theorem filterInc_fr_heatTemp0 (s : HVACState) : (filterInc s).heatTemp0 = s.heatTemp0 :=
  (filterInc_frame s).2.2.2.2.2.2.1

@[simp]
theorem filterInc_fr_heatTemp1 (s : HVACState) : (filterInc s).heatTemp1 = s.heatTemp1 :=
  (filterInc_frame s).2.2.2.2.2.2.2.1

@[simp]
theorem filterInc_fr_eHeatThresh (s : HVACState) : (filterInc s).eHeatThresh = s.eHeatThresh :=
  (filterInc_frame s).2.2.2.2.2.2.2.2.1

@[simp]
theorem filterInc_fr_fanPostDelay0 (s : HVACState) : (filterInc s).fanPostDelay0 = s.fanPostDelay0 :=
  (filterInc_frame s).2.2.2.2.2.2.2.2.2.1

@[simp]
theorem filterInc_fr_fanPostDelay1 (s : HVACState) : (filterInc s).fanPostDelay1 = s.fanPostDelay1 :=
  (filterInc_frame s).2.2.2.2.2.2.2.2.2.2.1

@[simp]
theorem filterInc_fr_overrideTime (s : HVACState) : (filterInc s).overrideTime = s.overrideTime :=
  (filterInc_frame s).2.2.2.2.2.2.2.2.2.2.2.1

@[simp]
theorem filterInc_fr_Mode (s : HVACState) : (filterInc s).Mode = s.Mode :=
  (filterInc_frame s).2.2.2.2.2.2.2.2.2.2.2.2.1

@[simp]
theorem filterInc_fr_heatMode (s : HVACState) : (filterInc s).heatMode = s.heatMode :=
  (filterInc_frame s).2.2.2.2.2.2.2.2.2.2.2.2.2.1

@[simp]
theorem filterInc_fr_m_outTemp (s : HVACState) : (filterInc s).m_outTemp = s.m_outTemp :=
  (filterInc_frame s).2.2.2.2.2.2.2.2.2.2.2.2.2.2.1

@[simp]
theorem filterInc_fr_m_inTemp (s : HVACState) : (filterInc s).m_inTemp = s.m_inTemp :=
  (filterInc_frame s).2.2.2.2.2.2.2.2.2.2.2.2.2.2.2.1

@[simp]
theorem filterInc_fr_m_rh (s : HVACState) : (filterInc s).m_rh = s.m_rh :=
  (filterInc_frame s).2.2.2.2.2.2.2.2.2.2.2.2.2.2.2.2.1

@[simp]
theorem filterInc_fr_m_bFanRunning (s : HVACState) : (filterInc s).m_bFanRunning = s.m_bFanRunning :=
  (filterInc_frame s).2.2.2.2.2.2.2.2.2.2.2.2.2.2.2.2.2.1

@[simp]
theorem filterInc_fr_m_outMin0 (s : HVACState) : (filterInc s).m_outMin0 = s.m_outMin0 :=
  (filterInc_frame s).2.2.2.2.2.2.2.2.2.2.2.2.2.2.2.2.2.2.1

@[simp]
theorem filterInc_fr_m_outMin1 (s : HVACState) : (filterInc s).m_outMin1 = s.m_outMin1 :=
  (filterInc_frame s).2.2.2.2.2.2.2.2.2.2.2.2.2.2.2.2.2.2.2.1

@[simp]
theorem filterInc_fr_m_outMax0 (s : HVACState) : (filterInc s).m_outMax0 = s.m_outMax0 :=
  (filterInc_frame s).2.2.2.2.2.2.2.2.2.2.2.2.2.2.2.2.2.2.2.2.1

@[simp]
theorem filterInc_fr_m_outMax1 (s : HVACState) : (filterInc s).m_outMax1 = s.m_outMax1 :=
  (filterInc_frame s).2.2.2.2.2.2.2.2.2.2.2.2.2.2.2.2.2.2.2.2.2.1

@[simp]
theorem filterInc_fr_m_bFanMode (s : HVACState) : (filterInc s).m_bFanMode = s.m_bFanMode :=
  (filterInc_frame s).2.2.2.2.2.2.2.2.2.2.2.2.2.2.2.2.2.2.2.2.2.2.1

@[simp]
theorem filterInc_fr_m_AutoMode (s : HVACState) : (filterInc s).m_AutoMode = s.m_AutoMode :=
  (filterInc_frame s).2.2.2.2.2.2.2.2.2.2.2.2.2.2.2.2.2.2.2.2.2.2.2.1

@[simp]
theorem filterInc_fr_m_setMode (s : HVACState) : (filterInc s).m_setMode = s.m_setMode :=
  (filterInc_frame s).2.2.2.2.2.2.2.2.2.2.2.2.2.2.2.2.2.2.2.2.2.2.2.2.1

@[simp]
theorem filterInc_fr_m_setHeat (s : HVACState) : (filterInc s).m_setHeat = s.m_setHeat :=
  (filterInc_frame s).2.2.2.2.2.2.2.2.2.2.2.2.2.2.2.2.2.2.2.2.2.2.2.2.2.1

@[simp]
theorem filterInc_fr_m_AutoHeat (s : HVACState) : (filterInc s).m_AutoHeat = s.m_AutoHeat :=
  (filterInc_frame s).2.2.2.2.2.2.2.2.2.2.2.2.2.2.2.2.2.2.2.2.2.2.2.2.2.2.1

@[simp]
theorem filterInc_fr_m_bRunning (s : HVACState) : (filterInc s).m_bRunning = s.m_bRunning :=
  (filterInc_frame s).2.2.2.2.2.2.2.2.2.2.2.2.2.2.2.2.2.2.2.2.2.2.2.2.2.2.2.1

@[simp]
theorem filterInc_fr_m_bStart (s : HVACState) : (filterInc s).m_bStart = s.m_bStart :=
  (filterInc_frame s).2.2.2.2.2.2.2.2.2.2.2.2.2.2.2.2.2.2.2.2.2.2.2.2.2.2.2.2.1

@[simp]
theorem filterInc_fr_m_bStop (s : HVACState) : (filterInc s).m_bStop = s.m_bStop :=
  (filterInc_frame s).2.2.2.2.2.2.2.2.2.2.2.2.2.2.2.2.2.2.2.2.2.2.2.2.2.2.2.2.2.1

@[simp]
theorem filterInc_fr_m_bRecheck (s : HVACState) : (filterInc s).m_bRecheck = s.m_bRecheck :=
  (filterInc_frame s).2.2.2.2.2.2.2.2.2.2.2.2.2.2.2.2.2.2.2.2.2.2.2.2.2.2.2.2.2.2.1

@[simp]
theorem filterInc_fr_m_bEnabled (s : HVACState) : (filterInc s).m_bEnabled = s.m_bEnabled :=
  (filterInc_frame s).2.2.2.2.2.2.2.2.2.2.2.2.2.2.2.2.2.2.2.2.2.2.2.2.2.2.2.2.2.2.2.1

@[simp]
theorem filterInc_fr_m_runTotal (s : HVACState) : (filterInc s).m_runTotal = s.m_runTotal :=
  (filterInc_frame s).2.2.2.2.2.2.2.2.2.2.2.2.2.2.2.2.2.2.2.2.2.2.2.2.2.2.2.2.2.2.2.2.1

@[simp]
theorem filterInc_fr_m_fanOnTimer (s : HVACState) : (filterInc s).m_fanOnTimer = s.m_fanOnTimer :=
  (filterInc_frame s).2.2.2.2.2.2.2.2.2.2.2.2.2.2.2.2.2.2.2.2.2.2.2.2.2.2.2.2.2.2.2.2.2.1

@[simp]
theorem filterInc_fr_m_cycleTimer (s : HVACState) : (filterInc s).m_cycleTimer = s.m_cycleTimer :=
  (filterInc_frame s).2.2.2.2.2.2.2.2.2.2.2.2.2.2.2.2.2.2.2.2.2.2.2.2.2.2.2.2.2.2.2.2.2.2.1

@[simp]
theorem filterInc_fr_m_fanPostTimer (s : HVACState) : (filterInc s).m_fanPostTimer = s.m_fanPostTimer :=
  (filterInc_frame s).2.2.2.2.2.2.2.2.2.2.2.2.2.2.2.2.2.2.2.2.2.2.2.2.2.2.2.2.2.2.2.2.2.2.2.1

@[simp]
theorem filterInc_fr_m_overrideTimer (s : HVACState) : (filterInc s).m_overrideTimer = s.m_overrideTimer :=
  (filterInc_frame s).2.2.2.2.2.2.2.2.2.2.2.2.2.2.2.2.2.2.2.2.2.2.2.2.2.2.2.2.2.2.2.2.2.2.2.2.1

@[simp]
theorem filterInc_fr_m_ovrTemp (s : HVACState) : (filterInc s).m_ovrTemp = s.m_ovrTemp :=
  (filterInc_frame s).2.2.2.2.2.2.2.2.2.2.2.2.2.2.2.2.2.2.2.2.2.2.2.2.2.2.2.2.2.2.2.2.2.2.2.2.2.1

@[simp]
theorem filterInc_fr_m_remoteTimer (s : HVACState) : (filterInc s).m_remoteTimer = s.m_remoteTimer :=
  (filterInc_frame s).2.2.2.2.2.2.2.2.2.2.2.2.2.2.2.2.2.2.2.2.2.2.2.2.2.2.2.2.2.2.2.2.2.2.2.2.2.2.1

@[simp]
theorem filterInc_fr_m_remoteTimeout (s : HVACState) : (filterInc s).m_remoteTimeout = s.m_remoteTimeout :=
  (filterInc_frame s).2.2.2.2.2.2.2.2.2.2.2.2.2.2.2.2.2.2.2.2.2.2.2.2.2.2.2.2.2.2.2.2.2.2.2.2.2.2.2.1

@[simp]
theorem filterInc_fr_m_furnaceFan (s : HVACState) : (filterInc s).m_furnaceFan = s.m_furnaceFan :=
  (filterInc_frame s).2.2.2.2.2.2.2.2.2.2.2.2.2.2.2.2.2.2.2.2.2.2.2.2.2.2.2.2.2.2.2.2.2.2.2.2.2.2.2.2.1

@[simp]
theorem filterInc_fr_m_notif (s : HVACState) : (filterInc s).m_notif = s.m_notif :=
  (filterInc_frame s).2.2.2.2.2.2.2.2.2.2.2.2.2.2.2.2.2.2.2.2.2.2.2.2.2.2.2.2.2.2.2.2.2.2.2.2.2.2.2.2.2.1

@[simp]
theorem filterInc_fr_m_idleTimer (s : HVACState) : (filterInc s).m_idleTimer = s.m_idleTimer :=
  (filterInc_frame s).2.2.2.2.2.2.2.2.2.2.2.2.2.2.2.2.2.2.2.2.2.2.2.2.2.2.2.2.2.2.2.2.2.2.2.2.2.2.2.2.2.2.1

@[simp]
theorem filterInc_fr_m_targetTemp (s : HVACState) : (filterInc s).m_targetTemp = s.m_targetTemp :=
  (filterInc_frame s).2.2.2.2.2.2.2.2.2.2.2.2.2.2.2.2.2.2.2.2.2.2.2.2.2.2.2.2.2.2.2.2.2.2.2.2.2.2.2.2.2.2.2.1

@[simp]
theorem filterInc_fr_pFan (s : HVACState) : (filterInc s).pFan = s.pFan :=
  (filterInc_frame s).2.2.2.2.2.2.2.2.2.2.2.2.2.2.2.2.2.2.2.2.2.2.2.2.2.2.2.2.2.2.2.2.2.2.2.2.2.2.2.2.2.2.2.2.1

@[simp]
theorem filterInc_fr_pCool (s : HVACState) : (filterInc s).pCool = s.pCool :=
  (filterInc_frame s).2.2.2.2.2.2.2.2.2.2.2.2.2.2.2.2.2.2.2.2.2.2.2.2.2.2.2.2.2.2.2.2.2.2.2.2.2.2.2.2.2.2.2.2.2.1

@[simp]
theorem filterInc_fr_pRev (s : HVACState) : (filterInc s).pRev = s.pRev :=
  (filterInc_frame s).2.2.2.2.2.2.2.2.2.2.2.2.2.2.2.2.2.2.2.2.2.2.2.2.2.2.2.2.2.2.2.2.2.2.2.2.2.2.2.2.2.2.2.2.2.2.1

@[simp]
theorem filterInc_fr_pHeat (s : HVACState) : (filterInc s).pHeat = s.pHeat :=
  (filterInc_frame s).2.2.2.2.2.2.2.2.2.2.2.2.2.2.2.2.2.2.2.2.2.2.2.2.2.2.2.2.2.2.2.2.2.2.2.2.2.2.2.2.2.2.2.2.2.2.2

theorem disable_frame (s : HVACState) :
    (disable s).cycleMin = s.cycleMin ∧
    (disable s).cycleMax = s.cycleMax ∧
    (disable s).idleMin = s.idleMin ∧
    (disable s).cycleThresh = s.cycleThresh ∧
    (disable s).coolTemp0 = s.coolTemp0 ∧
    (disable s).coolTemp1 = s.coolTemp1 ∧
    (disable s).heatTemp0 = s.heatTemp0 ∧
    (disable s).heatTemp1 = s.heatTemp1 ∧
    (disable s).eHeatThresh = s.eHeatThresh ∧
    (disable s).fanPostDelay0 = s.fanPostDelay0 ∧
    (disable s).fanPostDelay1 = s.fanPostDelay1 ∧
    (disable s).overrideTime = s.overrideTime ∧
    (disable s).filterMinutes = s.filterMinutes ∧
    (disable s).Mode = s.Mode ∧
    (disable s).heatMode = s.heatMode ∧
    (disable s).m_outTemp = s.m_outTemp ∧
    (disable s).m_inTemp = s.m_inTemp ∧
    (disable s).m_rh = s.m_rh ∧
    (disable s).m_outMin0 = s.m_outMin0 ∧
    (disable s).m_outMin1 = s.m_outMin1 ∧
    (disable s).m_outMax0 = s.m_outMax0 ∧
    (disable s).m_outMax1 = s.m_outMax1 ∧
    (disable s).m_bFanMode = s.m_bFanMode ∧
    (disable s).m_AutoMode = s.m_AutoMode ∧
    (disable s).m_setMode = s.m_setMode ∧
    (disable s).m_setHeat = s.m_setHeat ∧
    (disable s).m_AutoHeat = s.m_AutoHeat ∧
    (disable s).m_bStart = s.m_bStart ∧
    (disable s).m_bStop = s.m_bStop ∧
    (disable s).m_bRecheck = s.m_bRecheck ∧
    (disable s).m_runTotal = s.m_runTotal ∧
    (disable s).m_cycleTimer = s.m_cycleTimer ∧
    (disable s).m_fanPostTimer = s.m_fanPostTimer ∧
    (disable s).m_overrideTimer = s.m_overrideTimer ∧
    (disable s).m_ovrTemp = s.m_ovrTemp ∧
    (disable s).m_remoteTimer = s.m_remoteTimer ∧
    (disable s).m_remoteTimeout = s.m_remoteTimeout ∧
    (disable s).m_furnaceFan = s.m_furnaceFan ∧
    (disable s).m_notif = s.m_notif ∧
    (disable s).m_idleTimer = s.m_idleTimer ∧
    (disable s).m_targetTemp = s.m_targetTemp ∧
    (disable s).nSecs = s.nSecs ∧
    (disable s).pRev = s.pRev := by
  unfold disable
  try dsimp only
  simp

@[simp]
theorem disable_fr_cycleMin (s : HVACState) : (disable s).cycleMin = s.cycleMin :=
  (disable_frame s).1

@[simp]
theorem disable_fr_cycleMax (s : HVACState) : (disable s).cycleMax = s.cycleMax :=
  (disable_frame s).2.1

@[simp]
theorem disable_fr_idleMin (s : HVACState) : (disable s).idleMin = s.idleMin :=
  (disable_frame s).2.2.1

@[simp]
theorem disable_fr_cycleThresh (s : HVACState) : (disable s).cycleThresh = s.cycleThresh :=
  (disable_frame s).2.2.2.1

@[simp]
theorem disable_fr_coolTemp0 (s : HVACState) : (disable s).coolTemp0 = s.coolTemp0 :=
  (disable_frame s).2.2.2.2.1

@[simp]
theorem disable_fr_coolTemp1 (s : HVACState) : (disable s).coolTemp1 = s.coolTemp1 :=
  (disable_frame s).2.2.2.2.2.1

@[simp]
theorem disable_fr_heatTemp0 (s : HVACState) : (disable s).heatTemp0 = s.heatTemp0 :=
  (disable_frame s).2.2.2.2.2.2.1

@[simp]
theorem disable_fr_heatTemp1 (s : HVACState) : (disable s).heatTemp1 = s.heatTemp1 :=
  (disable_frame s).2.2.2.2.2.2.2.1

@[simp]
theorem disable_fr_eHeatThresh (s : HVACState) : (disable s).eHeatThresh = s.eHeatThresh :=
  (disable_frame s).2.2.2.2.2.2.2.2.1

@[simp]
theorem disable_fr_fanPostDelay0 (s : HVACState) : (disable s).fanPostDelay0 = s.fanPostDelay0 :=
  (disable_frame s).2.2.2.2.2.2.2.2.2.1

@[simp]
theorem disable_fr_fanPostDelay1 (s : HVACState) : (disable s).fanPostDelay1 = s.fanPostDelay1 :=
  (disable_frame s).2.2.2.2.2.2.2.2.2.2.1

@[simp]
theorem disable_fr_overrideTime (s : HVACState) : (disable s).overrideTime = s.overrideTime :=
  (disable_frame s).2.2.2.2.2.2.2.2.2.2.2.1

@[simp]
theorem disable_fr_filterMinutes (s : HVACState) : (disable s).filterMinutes = s.filterMinutes :=
  (disable_frame s).2.2.2.2.2.2.2.2.2.2.2.2.1

@[simp]
theorem disable_fr_Mode (s : HVACState) : (disable s).Mode = s.Mode :=
  (disable_frame s).2.2.2.2.2.2.2.2.2.2.2.2.2.1

@[simp]
theorem disable_fr_heatMode (s : HVACState) : (disable s).heatMode = s.heatMode :=
  (disable_frame s).2.2.2.2.2.2.2.2.2.2.2.2.2.2.1

@[simp]
theorem disable_fr_m_outTemp (s : HVACState) : (disable s).m_outTemp = s.m_outTemp :=
  (disable_frame s).2.2.2.2.2.2.2.2.2.2.2.2.2.2.2.1

@[simp]
theorem disable_fr_m_inTemp (s : HVACState) : (disable s).m_inTemp = s.m_inTemp :=
  (disable_frame s).2.2.2.2.2.2.2.2.2.2.2.2.2.2.2.2.1

@[simp]
theorem disable_fr_m_rh (s : HVACState) : (disable s).m_rh = s.m_rh :=
  (disable_frame s).2.2.2.2.2.2.2.2.2.2.2.2.2.2.2.2.2.1

@[simp]
theorem disable_fr_m_outMin0 (s : HVACState) : (disable s).m_outMin0 = s.m_outMin0 :=
  (disable_frame s).2.2.2.2.2.2.2.2.2.2.2.2.2.2.2.2.2.2.1

@[simp]
theorem disable_fr_m_outMin1 (s : HVACState) : (disable s).m_outMin1 = s.m_outMin1 :=
  (disable_frame s).2.2.2.2.2.2.2.2.2.2.2.2.2.2.2.2.2.2.2.1

@[simp]
theorem disable_fr_m_outMax0 (s : HVACState) : (disable s).m_outMax0 = s.m_outMax0 :=
  (disable_frame s).2.2.2.2.2.2.2.2.2.2.2.2.2.2.2.2.2.2.2.2.1

@[simp]
theorem disable_fr_m_outMax1 (s : HVACState) : (disable s).m_outMax1 = s.m_outMax1 :=
  (disable_frame s).2.2.2.2.2.2.2.2.2.2.2.2.2.2.2.2.2.2.2.2.2.1

@[simp]
theorem disable_fr_m_bFanMode (s : HVACState) : (disable s).m_bFanMode = s.m_bFanMode :=
  (disable_frame s).2.2.2.2.2.2.2.2.2.2.2.2.2.2.2.2.2.2.2.2.2.2.1

@[simp]
theorem disable_fr_m_AutoMode (s : HVACState) : (disable s).m_AutoMode = s.m_AutoMode :=
  (disable_frame s).2.2.2.2.2.2.2.2.2.2.2.2.2.2.2.2.2.2.2.2.2.2.2.1

@[simp]
theorem disable_fr_m_setMode (s : HVACState) : (disable s).m_setMode = s.m_setMode :=
  (disable_frame s).2.2.2.2.2.2.2.2.2.2.2.2.2.2.2.2.2.2.2.2.2.2.2.2.1

@[simp]
theorem disable_fr_m_setHeat (s : HVACState) : (disable s).m_setHeat = s.m_setHeat :=
  (disable_frame s).2.2.2.2.2.2.2.2.2.2.2.2.2.2.2.2.2.2.2.2.2.2.2.2.2.1

@[simp]
theorem disable_fr_m_AutoHeat (s : HVACState) : (disable s).m_AutoHeat = s.m_AutoHeat :=
  (disable_frame s).2.2.2.2.2.2.2.2.2.2.2.2.2.2.2.2.2.2.2.2.2.2.2.2.2.2.1

@[simp]
theorem disable_fr_m_bStart (s : HVACState) : (disable s).m_bStart = s.m_bStart :=
  (disable_frame s).2.2.2.2.2.2.2.2.2.2.2.2.2.2.2.2.2.2.2.2.2.2.2.2.2.2.2.1

@[simp]
theorem disable_fr_m_bStop (s : HVACState) : (disable s).m_bStop = s.m_bStop :=
  (disable_frame s).2.2.2.2.2.2.2.2.2.2.2.2.2.2.2.2.2.2.2.2.2.2.2.2.2.2.2.2.1

@[simp]
theorem disable_fr_m_bRecheck (s : HVACState) : (disable s).m_bRecheck = s.m_bRecheck :=
  (disable_frame s).2.2.2.2.2.2.2.2.2.2.2.2.2.2.2.2.2.2.2.2.2.2.2.2.2.2.2.2.2.1

@[simp]
theorem disable_fr_m_runTotal (s : HVACState) : (disable s).m_runTotal = s.m_runTotal :=
  (disable_frame s).2.2.2.2.2.2.2.2.2.2.2.2.2.2.2.2.2.2.2.2.2.2.2.2.2.2.2.2.2.2.1

@[simp]
theorem disable_fr_m_cycleTimer (s : HVACState) : (disable s).m_cycleTimer = s.m_cycleTimer :=
  (disable_frame s).2.2.2.2.2.2.2.2.2.2.2.2.2.2.2.2.2.2.2.2.2.2.2.2.2.2.2.2.2.2.2.1

@[simp]
theorem disable_fr_m_fanPostTimer (s : HVACState) : (disable s).m_fanPostTimer = s.m_fanPostTimer :=
  (disable_frame s).2.2.2.2.2.2.2.2.2.2.2.2.2.2.2.2.2.2.2.2.2.2.2.2.2.2.2.2.2.2.2.2.1

@[simp]
theorem disable_fr_m_overrideTimer (s : HVACState) : (disable s).m_overrideTimer = s.m_overrideTimer :=
  (disable_frame s).2.2.2.2.2.2.2.2.2.2.2.2.2.2.2.2.2.2.2.2.2.2.2.2.2.2.2.2.2.2.2.2.2.1

@[simp]
theorem disable_fr_m_ovrTemp (s : HVACState) : (disable s).m_ovrTemp = s.m_ovrTemp :=
  (disable_frame s).2.2.2.2.2.2.2.2.2.2.2.2.2.2.2.2.2.2.2.2.2.2.2.2.2.2.2.2.2.2.2.2.2.2.1

@[simp]
theorem disable_fr_m_remoteTimer (s : HVACState) : (disable s).m_remoteTimer = s.m_remoteTimer :=
  (disable_frame s).2.2.2.2.2.2.2.2.2.2.2.2.2.2.2.2.2.2.2.2.2.2.2.2.2.2.2.2.2.2.2.2.2.2.2.1

@[simp]
theorem disable_fr_m_remoteTimeout (s : HVACState) : (disable s).m_remoteTimeout = s.m_remoteTimeout :=
  (disable_frame s).2.2.2.2.2.2.2.2.2.2.2.2.2.2.2.2.2.2.2.2.2.2.2.2.2.2.2.2.2.2.2.2.2.2.2.2.1

@[simp]
theorem disable_fr_m_furnaceFan (s : HVACState) : (disable s).m_furnaceFan = s.m_furnaceFan :=
  (disable_frame s).2.2.2.2.2.2.2.2.2.2.2.2.2.2.2.2.2.2.2.2.2.2.2.2.2.2.2.2.2.2.2.2.2.2.2.2.2.1

@[simp]
theorem disable_fr_m_notif (s : HVACState) : (disable s).m_notif = s.m_notif :=
  (disable_frame s).2.2.2.2.2.2.2.2.2.2.2.2.2.2.2.2.2.2.2.2.2.2.2.2.2.2.2.2.2.2.2.2.2.2.2.2.2.2.1

@[simp]
theorem disable_fr_m_idleTimer (s : HVACState) : (disable s).m_idleTimer = s.m_idleTimer :=
  (disable_frame s).2.2.2.2.2.2.2.2.2.2.2.2.2.2.2.2.2.2.2.2.2.2.2.2.2.2.2.2.2.2.2.2.2.2.2.2.2.2.2.1

@[simp]
theorem disable_fr_m_targetTemp (s : HVACState) : (disable s).m_targetTemp = s.m_targetTemp :=
  (disable_frame s).2.2.2.2.2.2.2.2.2.2.2.2.2.2.2.2.2.2.2.2.2.2.2.2.2.2.2.2.2.2.2.2.2.2.2.2.2.2.2.2.1

@[simp]
theorem disable_fr_nSecs (s : HVACState) : (disable s).nSecs = s.nSecs :=
  (disable_frame s).2.2.2.2.2.2.2.2.2.2.2.2.2.2.2.2.2.2.2.2.2.2.2.2.2.2.2.2.2.2.2.2.2.2.2.2.2.2.2.2.2.1

@[simp]
theorem disable_fr_pRev (s : HVACState) : (disable s).pRev = s.pRev :=
  (disable_frame s).2.2.2.2.2.2.2.2.2.2.2.2.2.2.2.2.2.2.2.2.2.2.2.2.2.2.2.2.2.2.2.2.2.2.2.2.2.2.2.2.2.2

theorem calcRevSync_frame (s : HVACState) (m : Int) :
    (calcRevSync s m).cycleMin = s.cycleMin ∧
    (calcRevSync s m).cycleMax = s.cycleMax ∧
    (calcRevSync s m).idleMin = s.idleMin ∧
    (calcRevSync s m).cycleThresh = s.cycleThresh ∧
    (calcRevSync s m).coolTemp0 = s.coolTemp0 ∧
    (calcRevSync s m).coolTemp1 = s.coolTemp1 ∧
    (calcRevSync s m).heatTemp0 = s.heatTemp0 ∧
    (calcRevSync s m).heatTemp1 = s.heatTemp1 ∧
    (calcRevSync s m).eHeatThresh = s.eHeatThresh ∧
    (calcRevSync s m).fanPostDelay0 = s.fanPostDelay0 ∧
    (calcRevSync s m).fanPostDelay1 = s.fanPostDelay1 ∧
    (calcRevSync s m).overrideTime = s.overrideTime ∧
    (calcRevSync s m).filterMinutes = s.filterMinutes ∧
    (calcRevSync s m).Mode = s.Mode ∧
    (calcRevSync s m).heatMode = s.heatMode ∧
    (calcRevSync s m).m_outTemp = s.m_outTemp ∧
    (calcRevSync s m).m_inTemp = s.m_inTemp ∧
    (calcRevSync s m).m_rh = s.m_rh ∧
    (calcRevSync s m).m_bFanRunning = s.m_bFanRunning ∧
    (calcRevSync s m).m_outMin0 = s.m_outMin0 ∧
    (calcRevSync s m).m_outMin1 = s.m_outMin1 ∧
    (calcRevSync s m).m_outMax0 = s.m_outMax0 ∧
    (calcRevSync s m).m_outMax1 = s.m_outMax1 ∧
    (calcRevSync s m).m_bFanMode = s.m_bFanMode ∧
    (calcRevSync s m).m_AutoMode = s.m_AutoMode ∧
    (calcRevSync s m).m_setMode = s.m_setMode ∧
    (calcRevSync s m).m_setHeat = s.m_setHeat ∧
    (calcRevSync s m).m_AutoHeat = s.m_AutoHeat ∧
    (calcRevSync s m).m_bRunning = s.m_bRunning ∧
    (calcRevSync s m).m_bStart = s.m_bStart ∧
    (calcRevSync s m).m_bStop = s.m_bStop ∧
    (calcRevSync s m).m_bRecheck = s.m_bRecheck ∧
    (calcRevSync s m).m_bEnabled = s.m_bEnabled ∧
    (calcRevSync s m).m_runTotal = s.m_runTotal ∧
    (calcRevSync s m).m_fanOnTimer = s.m_fanOnTimer ∧
    (calcRevSync s m).m_cycleTimer = s.m_cycleTimer ∧
    (calcRevSync s m).m_fanPostTimer = s.m_fanPostTimer ∧
    (calcRevSync s m).m_overrideTimer = s.m_overrideTimer ∧
    (calcRevSync s m).m_ovrTemp = s.m_ovrTemp ∧
    (calcRevSync s m).m_remoteTimer = s.m_remoteTimer ∧
    (calcRevSync s m).m_remoteTimeout = s.m_remoteTimeout ∧
    (calcRevSync s m).m_furnaceFan = s.m_furnaceFan ∧
    (calcRevSync s m).m_notif = s.m_notif ∧
    (calcRevSync s m).m_idleTimer = s.m_idleTimer ∧
    (calcRevSync s m).m_targetTemp = s.m_targetTemp ∧
    (calcRevSync s m).nSecs = s.nSecs ∧
    (calcRevSync s m).pFan = s.pFan ∧
    (calcRevSync s m).pCool = s.pCool ∧
    (calcRevSync s m).pHeat = s.pHeat := by
  unfold calcRevSync
  try dsimp only
  split_ifs <;> simp

@[simp]
theorem calcRevSync_fr_cycleMin (s : HVACState) (m : Int) : (calcRevSync s m).cycleMin = s.cycleMin :=
  (calcRevSync_frame s m).1

@[simp]
theorem calcRevSync_fr_cycleMax (s : HVACState) (m : Int) : (calcRevSync s m).cycleMax = s.cycleMax :=
  (calcRevSync_frame s m).2.1

@[simp]
theorem calcRevSync_fr_idleMin (s : HVACState) (m : Int) : (calcRevSync s m).idleMin = s.idleMin :=
  (calcRevSync_frame s m).2.2.1

@[simp]
theorem calcRevSync_fr_cycleThresh (s : HVACState) (m : Int) : (calcRevSync s m).cycleThresh = s.cycleThresh :=
  (calcRevSync_frame s m).2.2.2.1

@[simp]
theorem calcRevSync_fr_coolTemp0 (s : HVACState) (m : Int) : (calcRevSync s m).coolTemp0 = s.coolTemp0 :=
  (calcRevSync_frame s m).2.2.2.2.1

@[simp]
theorem calcRevSync_fr_coolTemp1 (s : HVACState) (m : Int) : (calcRevSync s m).coolTemp1 = s.coolTemp1 :=
  (calcRevSync_frame s m).2.2.2.2.2.1

@[simp]
theorem calcRevSync_fr_heatTemp0 (s : HVACState) (m : Int) : (calcRevSync s m).heatTemp0 = s.heatTemp0 :=
  (calcRevSync_frame s m).2.2.2.2.2.2.1

@[simp]
theorem calcRevSync_fr_heatTemp1 (s : HVACState) (m : Int) : (calcRevSync s m).heatTemp1 = s.heatTemp1 :=
  (calcRevSync_frame s m).2.2.2.2.2.2.2.1

@[simp]
theorem calcRevSync_fr_eHeatThresh (s : HVACState) (m : Int) : (calcRevSync s m).eHeatThresh = s.eHeatThresh :=
  (calcRevSync_frame s m).2.2.2.2.2.2.2.2.1

@[simp]
theorem calcRevSync_fr_fanPostDelay0 (s : HVACState) (m : Int) : (calcRevSync s m).fanPostDelay0 = s.fanPostDelay0 :=
  (calcRevSync_frame s m).2.2.2.2.2.2.2.2.2.1

@[simp]
theorem calcRevSync_fr_fanPostDelay1 (s : HVACState) (m : Int) : (calcRevSync s m).fanPostDelay1 = s.fanPostDelay1 :=
  (calcRevSync_frame s m).2.2.2.2.2.2.2.2.2.2.1

@[simp]
theorem calcRevSync_fr_overrideTime (s : HVACState) (m : Int) : (calcRevSync s m).overrideTime = s.overrideTime :=
  (calcRevSync_frame s m).2.2.2.2.2.2.2.2.2.2.2.1

@[simp]
theorem calcRevSync_fr_filterMinutes (s : HVACState) (m : Int) : (calcRevSync s m).filterMinutes = s.filterMinutes :=
  (calcRevSync_frame s m).2.2.2.2.2.2.2.2.2.2.2.2.1

@[simp]
theorem calcRevSync_fr_Mode (s : HVACState) (m : Int) : (calcRevSync s m).Mode = s.Mode :=
  (calcRevSync_frame s m).2.2.2.2.2.2.2.2.2.2.2.2.2.1

@[simp]
theorem calcRevSync_fr_heatMode (s : HVACState) (m : Int) : (calcRevSync s m).heatMode = s.heatMode :=
  (calcRevSync_frame s m).2.2.2.2.2.2.2.2.2.2.2.2.2.2.1

@[simp]
theorem calcRevSync_fr_m_outTemp (s : HVACState) (m : Int) : (calcRevSync s m).m_outTemp = s.m_outTemp :=
  (calcRevSync_frame s m).2.2.2.2.2.2.2.2.2.2.2.2.2.2.2.1

@[simp]
theorem calcRevSync_fr_m_inTemp (s : HVACState) (m : Int) : (calcRevSync s m).m_inTemp = s.m_inTemp :=
  (calcRevSync_frame s m).2.2.2.2.2.2.2.2.2.2.2.2.2.2.2.2.1

@[simp]
theorem calcRevSync_fr_m_rh (s : HVACState) (m : Int) : (calcRevSync s m).m_rh = s.m_rh :=
  (calcRevSync_frame s m).2.2.2.2.2.2.2.2.2.2.2.2.2.2.2.2.2.1

@[simp]
theorem calcRevSync_fr_m_bFanRunning (s : HVACState) (m : Int) : (calcRevSync s m).m_bFanRunning = s.m_bFanRunning :=
  (calcRevSync_frame s m).2.2.2.2.2.2.2.2.2.2.2.2.2.2.2.2.2.2.1

@[simp]
theorem calcRevSync_fr_m_outMin0 (s : HVACState) (m : Int) : (calcRevSync s m).m_outMin0 = s.m_outMin0 :=
  (calcRevSync_frame s m).2.2.2.2.2.2.2.2.2.2.2.2.2.2.2.2.2.2.2.1

@[simp]
theorem calcRevSync_fr_m_outMin1 (s : HVACState) (m : Int) : (calcRevSync s m).m_outMin1 = s.m_outMin1 :=
  (calcRevSync_frame s m).2.2.2.2.2.2.2.2.2.2.2.2.2.2.2.2.2.2.2.2.1

@[simp]
theorem calcRevSync_fr_m_outMax0 (s : HVACState) (m : Int) : (calcRevSync s m).m_outMax0 = s.m_outMax0 :=
  (calcRevSync_frame s m).2.2.2.2.2.2.2.2.2.2.2.2.2.2.2.2.2.2.2.2.2.1

@[simp]
theorem calcRevSync_fr_m_outMax1 (s : HVACState) (m : Int) : (calcRevSync s m).m_outMax1 = s.m_outMax1 :=
  (calcRevSync_frame s m).2.2.2.2.2.2.2.2.2.2.2.2.2.2.2.2.2.2.2.2.2.2.1

@[simp]
theorem calcRevSync_fr_m_bFanMode (s : HVACState) (m : Int) : (calcRevSync s m).m_bFanMode = s.m_bFanMode :=
  (calcRevSync_frame s m).2.2.2.2.2.2.2.2.2.2.2.2.2.2.2.2.2.2.2.2.2.2.2.1

@[simp]
theorem calcRevSync_fr_m_AutoMode (s : HVACState) (m : Int) : (calcRevSync s m).m_AutoMode = s.m_AutoMode :=
  (calcRevSync_frame s m).2.2.2.2.2.2.2.2.2.2.2.2.2.2.2.2.2.2.2.2.2.2.2.2.1

@[simp]
theorem calcRevSync_fr_m_setMode (s : HVACState) (m : Int) : (calcRevSync s m).m_setMode = s.m_setMode :=
  (calcRevSync_frame s m).2.2.2.2.2.2.2.2.2.2.2.2.2.2.2.2.2.2.2.2.2.2.2.2.2.1

@[simp]
theorem calcRevSync_fr_m_setHeat (s : HVACState) (m : Int) : (calcRevSync s m).m_setHeat = s.m_setHeat :=
  (calcRevSync_frame s m).2.2.2.2.2.2.2.2.2.2.2.2.2.2.2.2.2.2.2.2.2.2.2.2.2.2.1

@[simp]
theorem calcRevSync_fr_m_AutoHeat (s : HVACState) (m : Int) : (calcRevSync s m).m_AutoHeat = s.m_AutoHeat :=
  (calcRevSync_frame s m).2.2.2.2.2.2.2.2.2.2.2.2.2.2.2.2.2.2.2.2.2.2.2.2.2.2.2.1

@[simp]
theorem calcRevSync_fr_m_bRunning (s : HVACState) (m : Int) : (calcRevSync s m).m_bRunning = s.m_bRunning :=
  (calcRevSync_frame s m).2.2.2.2.2.2.2.2.2.2.2.2.2.2.2.2.2.2.2.2.2.2.2.2.2.2.2.2.1

@[simp]
theorem calcRevSync_fr_m_bStart (s : HVACState) (m : Int) : (calcRevSync s m).m_bStart = s.m_bStart :=
  (calcRevSync_frame s m).2.2.2.2.2.2.2.2.2.2.2.2.2.2.2.2.2.2.2.2.2.2.2.2.2.2.2.2.2.1

@[simp]
theorem calcRevSync_fr_m_bStop (s : HVACState) (m : Int) : (calcRevSync s m).m_bStop = s.m_bStop :=
  (calcRevSync_frame s m).2.2.2.2.2.2.2.2.2.2.2.2.2.2.2.2.2.2.2.2.2.2.2.2.2.2.2.2.2.2.1

@[simp]
theorem calcRevSync_fr_m_bRecheck (s : HVACState) (m : Int) : (calcRevSync s m).m_bRecheck = s.m_bRecheck :=
  (calcRevSync_frame s m).2.2.2.2.2.2.2.2.2.2.2.2.2.2.2.2.2.2.2.2.2.2.2.2.2.2.2.2.2.2.2.1

@[simp]
theorem calcRevSync_fr_m_bEnabled (s : HVACState) (m : Int) : (calcRevSync s m).m_bEnabled = s.m_bEnabled :=
  (calcRevSync_frame s m).2.2.2.2.2.2.2.2.2.2.2.2.2.2.2.2.2.2.2.2.2.2.2.2.2.2.2.2.2.2.2.2.1

@[simp]
theorem calcRevSync_fr_m_runTotal (s : HVACState) (m : Int) : (calcRevSync s m).m_runTotal = s.m_runTotal :=
  (calcRevSync_frame s m).2.2.2.2.2.2.2.2.2.2.2.2.2.2.2.2.2.2.2.2.2.2.2.2.2.2.2.2.2.2.2.2.2.1

@[simp]
theorem calcRevSync_fr_m_fanOnTimer (s : HVACState) (m : Int) : (calcRevSync s m).m_fanOnTimer = s.m_fanOnTimer :=
  (calcRevSync_frame s m).2.2.2.2.2.2.2.2.2.2.2.2.2.2.2.2.2.2.2.2.2.2.2.2.2.2.2.2.2.2.2.2.2.2.1

@[simp]
theorem calcRevSync_fr_m_cycleTimer (s : HVACState) (m : Int) : (calcRevSync s m).m_cycleTimer = s.m_cycleTimer :=
  (calcRevSync_frame s m).2.2.2.2.2.2.2.2.2.2.2.2.2.2.2.2.2.2.2.2.2.2.2.2.2.2.2.2.2.2.2.2.2.2.2.1

@[simp]
theorem calcRevSync_fr_m_fanPostTimer (s : HVACState) (m : Int) : (calcRevSync s m).m_fanPostTimer = s.m_fanPostTimer :=
  (calcRevSync_frame s m).2.2.2.2.2.2.2.2.2.2.2.2.2.2.2.2.2.2.2.2.2.2.2.2.2.2.2.2.2.2.2.2.2.2.2.2.1

@[simp]
theorem calcRevSync_fr_m_overrideTimer (s : HVACState) (m : Int) : (calcRevSync s m).m_overrideTimer = s.m_overrideTimer :=
  (calcRevSync_frame s m).2.2.2.2.2.2.2.2.2.2.2.2.2.2.2.2.2.2.2.2.2.2.2.2.2.2.2.2.2.2.2.2.2.2.2.2.2.1

@[simp]
theorem calcRevSync_fr_m_ovrTemp (s : HVACState) (m : Int) : (calcRevSync s m).m_ovrTemp = s.m_ovrTemp :=
  (calcRevSync_frame s m).2.2.2.2.2.2.2.2.2.2.2.2.2.2.2.2.2.2.2.2.2.2.2.2.2.2.2.2.2.2.2.2.2.2.2.2.2.2.1

@[simp]
theorem calcRevSync_fr_m_remoteTimer (s : HVACState) (m : Int) : (calcRevSync s m).m_remoteTimer = s.m_remoteTimer :=
  (calcRevSync_frame s m).2.2.2.2.2.2.2.2.2.2.2.2.2.2.2.2.2.2.2.2.2.2.2.2.2.2.2.2.2.2.2.2.2.2.2.2.2.2.2.1

@[simp]
theorem calcRevSync_fr_m_remoteTimeout (s : HVACState) (m : Int) : (calcRevSync s m).m_remoteTimeout = s.m_remoteTimeout :=
  (calcRevSync_frame s m).2.2.2.2.2.2.2.2.2.2.2.2.2.2.2.2.2.2.2.2.2.2.2.2.2.2.2.2.2.2.2.2.2.2.2.2.2.2.2.2.1

@[simp]
theorem calcRevSync_fr_m_furnaceFan (s : HVACState) (m : Int) : (calcRevSync s m).m_furnaceFan = s.m_furnaceFan :=
  (calcRevSync_frame s m).2.2.2.2.2.2.2.2.2.2.2.2.2.2.2.2.2.2.2.2.2.2.2.2.2.2.2.2.2.2.2.2.2.2.2.2.2.2.2.2.2.1

@[simp]
theorem calcRevSync_fr_m_notif (s : HVACState) (m : Int) : (calcRevSync s m).m_notif = s.m_notif :=
  (calcRevSync_frame s m).2.2.2.2.2.2.2.2.2.2.2.2.2.2.2.2.2.2.2.2.2.2.2.2.2.2.2.2.2.2.2.2.2.2.2.2.2.2.2.2.2.2.1

@[simp]
theorem calcRevSync_fr_m_idleTimer (s : HVACState) (m : Int) : (calcRevSync s m).m_idleTimer = s.m_idleTimer :=
  (calcRevSync_frame s m).2.2.2.2.2.2.2.2.2.2.2.2.2.2.2.2.2.2.2.2.2.2.2.2.2.2.2.2.2.2.2.2.2.2.2.2.2.2.2.2.2.2.2.1

@[simp]
theorem calcRevSync_fr_m_targetTemp (s : HVACState) (m : Int) : (calcRevSync s m).m_targetTemp = s.m_targetTemp :=
  (calcRevSync_frame s m).2.2.2.2.2.2.2.2.2.2.2.2.2.2.2.2.2.2.2.2.2.2.2.2.2.2.2.2.2.2.2.2.2.2.2.2.2.2.2.2.2.2.2.2.1

@[simp]
theorem calcRevSync_fr_nSecs (s : HVACState) (m : Int) : (calcRevSync s m).nSecs = s.nSecs :=
  (calcRevSync_frame s m).2.2.2.2.2.2.2.2.2.2.2.2.2.2.2.2.2.2.2.2.2.2.2.2.2.2.2.2.2.2.2.2.2.2.2.2.2.2.2.2.2.2.2.2.2.1

@[simp]
theorem calcRevSync_fr_pFan (s : HVACState) (m : Int) : (calcRevSync s m).pFan = s.pFan :=
  (calcRevSync_frame s m).2.2.2.2.2.2.2.2.2.2.2.2.2.2.2.2.2.2.2.2.2.2.2.2.2.2.2.2.2.2.2.2.2.2.2.2.2.2.2.2.2.2.2.2.2.2.1

@[simp]
theorem calcRevSync_fr_pCool (s : HVACState) (m : Int) : (calcRevSync s m).pCool = s.pCool :=
  (calcRevSync_frame s m).2.2.2.2.2.2.2.2.2.2.2.2.2.2.2.2.2.2.2.2.2.2.2.2.2.2.2.2.2.2.2.2.2.2.2.2.2.2.2.2.2.2.2.2.2.2.2.1

@[simp]
theorem calcRevSync_fr_pHeat (s : HVACState) (m : Int) : (calcRevSync s m).pHeat = s.pHeat :=
  (calcRevSync_frame s m).2.2.2.2.2.2.2.2.2.2.2.2.2.2.2.2.2.2.2.2.2.2.2.2.2.2.2.2.2.2.2.2.2.2.2.2.2.2.2.2.2.2.2.2.2.2.2.2

theorem calcTargetTemp_frame (s : HVACState) (m : Int) :
    (calcTargetTemp s m).cycleMin = s.cycleMin ∧
    (calcTargetTemp s m).cycleMax = s.cycleMax ∧
    (calcTargetTemp s m).idleMin = s.idleMin ∧
    (calcTargetTemp s m).cycleThresh = s.cycleThresh ∧
    (calcTargetTemp s m).coolTemp0 = s.coolTemp0 ∧
    (calcTargetTemp s m).coolTemp1 = s.coolTemp1 ∧
    (calcTargetTemp s m).heatTemp0 = s.heatTemp0 ∧
    (calcTargetTemp s m).heatTemp1 = s.heatTemp1 ∧
    (calcTargetTemp s m).eHeatThresh = s.eHeatThresh ∧
    (calcTargetTemp s m).fanPostDelay0 = s.fanPostDelay0 ∧
    (calcTargetTemp s m).fanPostDelay1 = s.fanPostDelay1 ∧
    (calcTargetTemp s m).overrideTime = s.overrideTime ∧
    (calcTargetTemp s m).filterMinutes = s.filterMinutes ∧
    (calcTargetTemp s m).Mode = s.Mode ∧
    (calcTargetTemp s m).heatMode = s.heatMode ∧
    (calcTargetTemp s m).m_outTemp = s.m_outTemp ∧
    (calcTargetTemp s m).m_inTemp = s.m_inTemp ∧
    (calcTargetTemp s m).m_rh = s.m_rh ∧
    (calcTargetTemp s m).m_bFanRunning = s.m_bFanRunning ∧
    (calcTargetTemp s m).m_outMin0 = s.m_outMin0 ∧
    (calcTargetTemp s m).m_outMin1 = s.m_outMin1 ∧
    (calcTargetTemp s m).m_outMax0 = s.m_outMax0 ∧
    (calcTargetTemp s m).m_outMax1 = s.m_outMax1 ∧
    (calcTargetTemp s m).m_bFanMode = s.m_bFanMode ∧
    (calcTargetTemp s m).m_AutoMode = s.m_AutoMode ∧
    (calcTargetTemp s m).m_setMode = s.m_setMode ∧
    (calcTargetTemp s m).m_setHeat = s.m_setHeat ∧
    (calcTargetTemp s m).m_AutoHeat = s.m_AutoHeat ∧
    (calcTargetTemp s m).m_bRunning = s.m_bRunning ∧
    (calcTargetTemp s m).m_bStart = s.m_bStart ∧
    (calcTargetTemp s m).m_bStop = s.m_bStop ∧
    (calcTargetTemp s m).m_bRecheck = s.m_bRecheck ∧
    (calcTargetTemp s m).m_bEnabled = s.m_bEnabled ∧
    (calcTargetTemp s m).m_runTotal = s.m_runTotal ∧
    (calcTargetTemp s m).m_fanOnTimer = s.m_fanOnTimer ∧
    (calcTargetTemp s m).m_cycleTimer = s.m_cycleTimer ∧
    (calcTargetTemp s m).m_fanPostTimer = s.m_fanPostTimer ∧
    (calcTargetTemp s m).m_overrideTimer = s.m_overrideTimer ∧
    (calcTargetTemp s m).m_ovrTemp = s.m_ovrTemp ∧
    (calcTargetTemp s m).m_remoteTimer = s.m_remoteTimer ∧
    (calcTargetTemp s m).m_remoteTimeout = s.m_remoteTimeout ∧
    (calcTargetTemp s m).m_furnaceFan = s.m_furnaceFan ∧
    (calcTargetTemp s m).m_notif = s.m_notif ∧
    (calcTargetTemp s m).m_idleTimer = s.m_idleTimer ∧
    (calcTargetTemp s m).nSecs = s.nSecs ∧
    (calcTargetTemp s m).pFan = s.pFan ∧
    (calcTargetTemp s m).pCool = s.pCool ∧
    (calcTargetTemp s m).pHeat = s.pHeat := by
  unfold calcTargetTemp
  try dsimp only
  split_ifs <;> simp [fanPostDelayAt]

@[simp]
theorem calcTargetTemp_fr_cycleMin (s : HVACState) (m : Int) : (calcTargetTemp s m).cycleMin = s.cycleMin :=
  (calcTargetTemp_frame s m).1

@[simp]
theorem calcTargetTemp_fr_cycleMax (s : HVACState) (m : Int) : (calcTargetTemp s m).cycleMax = s.cycleMax :=
  (calcTargetTemp_frame s m).2.1

@[simp]
theorem calcTargetTemp_fr_idleMin (s : HVACState) (m : Int) : (calcTargetTemp s m).idleMin = s.idleMin :=
  (calcTargetTemp_frame s m).2.2.1

@[simp]
theorem calcTargetTemp_fr_cycleThresh (s : HVACState) (m : Int) : (calcTargetTemp s m).cycleThresh = s.cycleThresh :=
  (calcTargetTemp_frame s m).2.2.2.1

@[simp]
theorem calcTargetTemp_fr_coolTemp0 (s : HVACState) (m : Int) : (calcTargetTemp s m).coolTemp0 = s.coolTemp0 :=
  (calcTargetTemp_frame s m).2.2.2.2.1

@[simp]
theorem calcTargetTemp_fr_coolTemp1 (s : HVACState) (m : Int) : (calcTargetTemp s m).coolTemp1 = s.coolTemp1 :=
  (calcTargetTemp_frame s m).2.2.2.2.2.1

@[simp]
theorem calcTargetTemp_fr_heatTemp0 (s : HVACState) (m : Int) : (calcTargetTemp s m).heatTemp0 = s.heatTemp0 :=
  (calcTargetTemp_frame s m).2.2.2.2.2.2.1

@[simp]
theorem calcTargetTemp_fr_heatTemp1 (s : HVACState) (m : Int) : (calcTargetTemp s m).heatTemp1 = s.heatTemp1 :=
  (calcTargetTemp_frame s m).2.2.2.2.2.2.2.1

@[simp]
theorem calcTargetTemp_fr_eHeatThresh (s : HVACState) (m : Int) : (calcTargetTemp s m).eHeatThresh = s.eHeatThresh :=
  (calcTargetTemp_frame s m).2.2.2.2.2.2.2.2.1

@[simp]
theorem calcTargetTemp_fr_fanPostDelay0 (s : HVACState) (m : Int) : (calcTargetTemp s m).fanPostDelay0 = s.fanPostDelay0 :=
  (calcTargetTemp_frame s m).2.2.2.2.2.2.2.2.2.1

@[simp]
theorem calcTargetTemp_fr_fanPostDelay1 (s : HVACState) (m : Int) : (calcTargetTemp s m).fanPostDelay1 = s.fanPostDelay1 :=
  (calcTargetTemp_frame s m).2.2.2.2.2.2.2.2.2.2.1

@[simp]
theorem calcTargetTemp_fr_overrideTime (s : HVACState) (m : Int) : (calcTargetTemp s m).overrideTime = s.overrideTime :=
  (calcTargetTemp_frame s m).2.2.2.2.2.2.2.2.2.2.2.1

@[simp]
theorem calcTargetTemp_fr_filterMinutes (s : HVACState) (m : Int) : (calcTargetTemp s m).filterMinutes = s.filterMinutes :=
  (calcTargetTemp_frame s m).2.2.2.2.2.2.2.2.2.2.2.2.1

@[simp]
theorem calcTargetTemp_fr_Mode (s : HVACState) (m : Int) : (calcTargetTemp s m).Mode = s.Mode :=
  (calcTargetTemp_frame s m).2.2.2.2.2.2.2.2.2.2.2.2.2.1

@[simp]
theorem calcTargetTemp_fr_heatMode (s : HVACState) (m : Int) : (calcTargetTemp s m).heatMode = s.heatMode :=
  (calcTargetTemp_frame s m).2.2.2.2.2.2.2.2.2.2.2.2.2.2.1

@[simp]
theorem calcTargetTemp_fr_m_outTemp (s : HVACState) (m : Int) : (calcTargetTemp s m).m_outTemp = s.m_outTemp :=
  (calcTargetTemp_frame s m).2.2.2.2.2.2.2.2.2.2.2.2.2.2.2.1

@[simp]
theorem calcTargetTemp_fr_m_inTemp (s : HVACState) (m : Int) : (calcTargetTemp s m).m_inTemp = s.m_inTemp :=
  (calcTargetTemp_frame s m).2.2.2.2.2.2.2.2.2.2.2.2.2.2.2.2.1

@[simp]
theorem calcTargetTemp_fr_m_rh (s : HVACState) (m : Int) : (calcTargetTemp s m).m_rh = s.m_rh :=
  (calcTargetTemp_frame s m).2.2.2.2.2.2.2.2.2.2.2.2.2.2.2.2.2.1

@[simp]
theorem calcTargetTemp_fr_m_bFanRunning (s : HVACState) (m : Int) : (calcTargetTemp s m).m_bFanRunning = s.m_bFanRunning :=
  (calcTargetTemp_frame s m).2.2.2.2.2.2.2.2.2.2.2.2.2.2.2.2.2.2.1

@[simp]
theorem calcTargetTemp_fr_m_outMin0 (s : HVACState) (m : Int) : (calcTargetTemp s m).m_outMin0 = s.m_outMin0 :=
  (calcTargetTemp_frame s m).2.2.2.2.2.2.2.2.2.2.2.2.2.2.2.2.2.2.2.1

@[simp]
theorem calcTargetTemp_fr_m_outMin1 (s : HVACState) (m : Int) : (calcTargetTemp s m).m_outMin1 = s.m_outMin1 :=
  (calcTargetTemp_frame s m).2.2.2.2.2.2.2.2.2.2.2.2.2.2.2.2.2.2.2.2.1

@[simp]
theorem calcTargetTemp_fr_m_outMax0 (s : HVACState) (m : Int) : (calcTargetTemp s m).m_outMax0 = s.m_outMax0 :=
  (calcTargetTemp_frame s m).2.2.2.2.2.2.2.2.2.2.2.2.2.2.2.2.2.2.2.2.2.1

@[simp]
theorem calcTargetTemp_fr_m_outMax1 (s : HVACState) (m : Int) : (calcTargetTemp s m).m_outMax1 = s.m_outMax1 :=
  (calcTargetTemp_frame s m).2.2.2.2.2.2.2.2.2.2.2.2.2.2.2.2.2.2.2.2.2.2.1

@[simp]
theorem calcTargetTemp_fr_m_bFanMode (s : HVACState) (m : Int) : (calcTargetTemp s m).m_bFanMode = s.m_bFanMode :=
  (calcTargetTemp_frame s m).2.2.2.2.2.2.2.2.2.2.2.2.2.2.2.2.2.2.2.2.2.2.2.1

@[simp]
theorem calcTargetTemp_fr_m_AutoMode (s : HVACState) (m : Int) : (calcTargetTemp s m).m_AutoMode = s.m_AutoMode :=
  (calcTargetTemp_frame s m).2.2.2.2.2.2.2.2.2.2.2.2.2.2.2.2.2.2.2.2.2.2.2.2.1

@[simp]
theorem calcTargetTemp_fr_m_setMode (s : HVACState) (m : Int) : (calcTargetTemp s m).m_setMode = s.m_setMode :=
  (calcTargetTemp_frame s m).2.2.2.2.2.2.2.2.2.2.2.2.2.2.2.2.2.2.2.2.2.2.2.2.2.1

@[simp]
theorem calcTargetTemp_fr_m_setHeat (s : HVACState) (m : Int) : (calcTargetTemp s m).m_setHeat = s.m_setHeat :=
  (calcTargetTemp_frame s m).2.2.2.2.2.2.2.2.2.2.2.2.2.2.2.2.2.2.2.2.2.2.2.2.2.2.1

@[simp]
theorem calcTargetTemp_fr_m_AutoHeat (s : HVACState) (m : Int) : (calcTargetTemp s m).m_AutoHeat = s.m_AutoHeat :=
  (calcTargetTemp_frame s m).2.2.2.2.2.2.2.2.2.2.2.2.2.2.2.2.2.2.2.2.2.2.2.2.2.2.2.1

@[simp]
theorem calcTargetTemp_fr_m_bRunning (s : HVACState) (m : Int) : (calcTargetTemp s m).m_bRunning = s.m_bRunning :=
  (calcTargetTemp_frame s m).2.2.2.2.2.2.2.2.2.2.2.2.2.2.2.2.2.2.2.2.2.2.2.2.2.2.2.2.1

@[simp]
theorem calcTargetTemp_fr_m_bStart (s : HVACState) (m : Int) : (calcTargetTemp s m).m_bStart = s.m_bStart :=
  (calcTargetTemp_frame s m).2.2.2.2.2.2.2.2.2.2.2.2.2.2.2.2.2.2.2.2.2.2.2.2.2.2.2.2.2.1

@[simp]
theorem calcTargetTemp_fr_m_bStop (s : HVACState) (m : Int) : (calcTargetTemp s m).m_bStop = s.m_bStop :=
  (calcTargetTemp_frame s m).2.2.2.2.2.2.2.2.2.2.2.2.2.2.2.2.2.2.2.2.2.2.2.2.2.2.2.2.2.2.1

@[simp]
theorem calcTargetTemp_fr_m_bRecheck (s : HVACState) (m : Int) : (calcTargetTemp s m).m_bRecheck = s.m_bRecheck :=
  (calcTargetTemp_frame s m).2.2.2.2.2.2.2.2.2.2.2.2.2.2.2.2.2.2.2.2.2.2.2.2.2.2.2.2.2.2.2.1

@[simp]
theorem calcTargetTemp_fr_m_bEnabled (s : HVACState) (m : Int) : (calcTargetTemp s m).m_bEnabled = s.m_bEnabled :=
  (calcTargetTemp_frame s m).2.2.2.2.2.2.2.2.2.2.2.2.2.2.2.2.2.2.2.2.2.2.2.2.2.2.2.2.2.2.2.2.1

@[simp]
theorem calcTargetTemp_fr_m_runTotal (s : HVACState) (m : Int) : (calcTargetTemp s m).m_runTotal = s.m_runTotal :=
  (calcTargetTemp_frame s m).2.2.2.2.2.2.2.2.2.2.2.2.2.2.2.2.2.2.2.2.2.2.2.2.2.2.2.2.2.2.2.2.2.1

@[simp]
theorem calcTargetTemp_fr_m_fanOnTimer (s : HVACState) (m : Int) : (calcTargetTemp s m).m_fanOnTimer = s.m_fanOnTimer :=
  (calcTargetTemp_frame s m).2.2.2.2.2.2.2.2.2.2.2.2.2.2.2.2.2.2.2.2.2.2.2.2.2.2.2.2.2.2.2.2.2.2.1

@[simp]
theorem calcTargetTemp_fr_m_cycleTimer (s : HVACState) (m : Int) : (calcTargetTemp s m).m_cycleTimer = s.m_cycleTimer :=
  (calcTargetTemp_frame s m).2.2.2.2.2.2.2.2.2.2.2.2.2.2.2.2.2.2.2.2.2.2.2.2.2.2.2.2.2.2.2.2.2.2.2.1

@[simp]
theorem calcTargetTemp_fr_m_fanPostTimer (s : HVACState) (m : Int) : (calcTargetTemp s m).m_fanPostTimer = s.m_fanPostTimer :=
  (calcTargetTemp_frame s m).2.2.2.2.2.2.2.2.2.2.2.2.2.2.2.2.2.2.2.2.2.2.2.2.2.2.2.2.2.2.2.2.2.2.2.2.1

@[simp]
theorem calcTargetTemp_fr_m_overrideTimer (s : HVACState) (m : Int) : (calcTargetTemp s m).m_overrideTimer = s.m_overrideTimer :=
  (calcTargetTemp_frame s m).2.2.2.2.2.2.2.2.2.2.2.2.2.2.2.2.2.2.2.2.2.2.2.2.2.2.2.2.2.2.2.2.2.2.2.2.2.1

@[simp]
theorem calcTargetTemp_fr_m_ovrTemp (s : HVACState) (m : Int) : (calcTargetTemp s m).m_ovrTemp = s.m_ovrTemp :=
  (calcTargetTemp_frame s m).2.2.2.2.2.2.2.2.2.2.2.2.2.2.2.2.2.2.2.2.2.2.2.2.2.2.2.2.2.2.2.2.2.2.2.2.2.2.1

@[simp]
theorem calcTargetTemp_fr_m_remoteTimer (s : HVACState) (m : Int) : (calcTargetTemp s m).m_remoteTimer = s.m_remoteTimer :=
  (calcTargetTemp_frame s m).2.2.2.2.2.2.2.2.2.2.2.2.2.2.2.2.2.2.2.2.2.2.2.2.2.2.2.2.2.2.2.2.2.2.2.2.2.2.2.1

@[simp]
theorem calcTargetTemp_fr_m_remoteTimeout (s : HVACState) (m : Int) : (calcTargetTemp s m).m_remoteTimeout = s.m_remoteTimeout :=
  (calcTargetTemp_frame s m).2.2.2.2.2.2.2.2.2.2.2.2.2.2.2.2.2.2.2.2.2.2.2.2.2.2.2.2.2.2.2.2.2.2.2.2.2.2.2.2.1

@[simp]
theorem calcTargetTemp_fr_m_furnaceFan (s : HVACState) (m : Int) : (calcTargetTemp s m).m_furnaceFan = s.m_furnaceFan :=
  (calcTargetTemp_frame s m).2.2.2.2.2.2.2.2.2.2.2.2.2.2.2.2.2.2.2.2.2.2.2.2.2.2.2.2.2.2.2.2.2.2.2.2.2.2.2.2.2.1

@[simp]
theorem calcTargetTemp_fr_m_notif (s : HVACState) (m : Int) : (calcTargetTemp s m).m_notif = s.m_notif :=
  (calcTargetTemp_frame s m).2.2.2.2.2.2.2.2.2.2.2.2.2.2.2.2.2.2.2.2.2.2.2.2.2.2.2.2.2.2.2.2.2.2.2.2.2.2.2.2.2.2.1

@[simp]
theorem calcTargetTemp_fr_m_idleTimer (s : HVACState) (m : Int) : (calcTargetTemp s m).m_idleTimer = s.m_idleTimer :=
  (calcTargetTemp_frame s m).2.2.2.2.2.2.2.2.2.2.2.2.2.2.2.2.2.2.2.2.2.2.2.2.2.2.2.2.2.2.2.2.2.2.2.2.2.2.2.2.2.2.2.1

@[simp]
theorem calcTargetTemp_fr_nSecs (s : HVACState) (m : Int) : (calcTargetTemp s m).nSecs = s.nSecs :=
  (calcTargetTemp_frame s m).2.2.2.2.2.2.2.2.2.2.2.2.2.2.2.2.2.2.2.2.2.2.2.2.2.2.2.2.2.2.2.2.2.2.2.2.2.2.2.2.2.2.2.2.1

@[simp]
theorem calcTargetTemp_fr_pFan (s : HVACState) (m : Int) : (calcTargetTemp s m).pFan = s.pFan :=
  (calcTargetTemp_frame s m).2.2.2.2.2.2.2.2.2.2.2.2.2.2.2.2.2.2.2.2.2.2.2.2.2.2.2.2.2.2.2.2.2.2.2.2.2.2.2.2.2.2.2.2.2.1

@[simp]
theorem calcTargetTemp_fr_pCool (s : HVACState) (m : Int) : (calcTargetTemp s m).pCool = s.pCool :=
  (calcTargetTemp_frame s m).2.2.2.2.2.2.2.2.2.2.2.2.2.2.2.2.2.2.2.2.2.2.2.2.2.2.2.2.2.2.2.2.2.2.2.2.2.2.2.2.2.2.2.2.2.2.1

@[simp]
theorem calcTargetTemp_fr_pHeat (s : HVACState) (m : Int) : (calcTargetTemp s m).pHeat = s.pHeat :=
  (calcTargetTemp_frame s m).2.2.2.2.2.2.2.2.2.2.2.2.2.2.2.2.2.2.2.2.2.2.2.2.2.2.2.2.2.2.2.2.2.2.2.2.2.2.2.2.2.2.2.2.2.2.2

theorem preCalcCycle_frame (s : HVACState) (m : Int) :
    ((preCalcCycle s m).1).cycleMin = s.cycleMin ∧
    ((preCalcCycle s m).1).cycleMax = s.cycleMax ∧
    ((preCalcCycle s m).1).idleMin = s.idleMin ∧
    ((preCalcCycle s m).1).cycleThresh = s.cycleThresh ∧
    ((preCalcCycle s m).1).coolTemp0 = s.coolTemp0 ∧
    ((preCalcCycle s m).1).coolTemp1 = s.coolTemp1 ∧
    ((preCalcCycle s m).1).heatTemp0 = s.heatTemp0 ∧
    ((preCalcCycle s m).1).heatTemp1 = s.heatTemp1 ∧
    ((preCalcCycle s m).1).eHeatThresh = s.eHeatThresh ∧
    ((preCalcCycle s m).1).fanPostDelay0 = s.fanPostDelay0 ∧
    ((preCalcCycle s m).1).fanPostDelay1 = s.fanPostDelay1 ∧
    ((preCalcCycle s m).1).overrideTime = s.overrideTime ∧
    ((preCalcCycle s m).1).filterMinutes = s.filterMinutes ∧
    ((preCalcCycle s m).1).Mode = s.Mode ∧
    ((preCalcCycle s m).1).heatMode = s.heatMode ∧
    ((preCalcCycle s m).1).m_outTemp = s.m_outTemp ∧
    ((preCalcCycle s m).1).m_inTemp = s.m_inTemp ∧
    ((preCalcCycle s m).1).m_rh = s.m_rh ∧
    ((preCalcCycle s m).1).m_bFanRunning = s.m_bFanRunning ∧
    ((preCalcCycle s m).1).m_outMin0 = s.m_outMin0 ∧
    ((preCalcCycle s m).1).m_outMin1 = s.m_outMin1 ∧
    ((preCalcCycle s m).1).m_outMax0 = s.m_outMax0 ∧
    ((preCalcCycle s m).1).m_outMax1 = s.m_outMax1 ∧
    ((preCalcCycle s m).1).m_bFanMode = s.m_bFanMode ∧
    ((preCalcCycle s m).1).m_setMode = s.m_setMode ∧
    ((preCalcCycle s m).1).m_setHeat = s.m_setHeat ∧
    ((preCalcCycle s m).1).m_bRunning = s.m_bRunning ∧
    ((preCalcCycle s m).1).m_bStart = s.m_bStart ∧
    ((preCalcCycle s m).1).m_bStop = s.m_bStop ∧
    ((preCalcCycle s m).1).m_bRecheck = s.m_bRecheck ∧
    ((preCalcCycle s m).1).m_bEnabled = s.m_bEnabled ∧
    ((preCalcCycle s m).1).m_runTotal = s.m_runTotal ∧
    ((preCalcCycle s m).1).m_fanOnTimer = s.m_fanOnTimer ∧
    ((preCalcCycle s m).1).m_cycleTimer = s.m_cycleTimer ∧
    ((preCalcCycle s m).1).m_fanPostTimer = s.m_fanPostTimer ∧
    ((preCalcCycle s m).1).m_overrideTimer = s.m_overrideTimer ∧
    ((preCalcCycle s m).1).m_ovrTemp = s.m_ovrTemp ∧
    ((preCalcCycle s m).1).m_remoteTimer = s.m_remoteTimer ∧
    ((preCalcCycle s m).1).m_remoteTimeout = s.m_remoteTimeout ∧
    ((preCalcCycle s m).1).m_furnaceFan = s.m_furnaceFan ∧
    ((preCalcCycle s m).1).m_notif = s.m_notif ∧
    ((preCalcCycle s m).1).m_idleTimer = s.m_idleTimer ∧
    ((preCalcCycle s m).1).nSecs = s.nSecs ∧
    ((preCalcCycle s m).1).pFan = s.pFan ∧
    ((preCalcCycle s m).1).pCool = s.pCool ∧
    ((preCalcCycle s m).1).pHeat = s.pHeat := by
  unfold preCalcCycle
  try dsimp only
  split_ifs <;> simp [fanPostDelayAt]

@[simp]
theorem preCalcCycle_fr_cycleMin (s : HVACState) (m : Int) : ((preCalcCycle s m).1).cycleMin = s.cycleMin :=
  (preCalcCycle_frame s m).1

@[simp]
theorem preCalcCycle_fr_cycleMax (s : HVACState) (m : Int) : ((preCalcCycle s m).1).cycleMax = s.cycleMax :=
  (preCalcCycle_frame s m).2.1

@[simp]
theorem preCalcCycle_fr_idleMin (s : HVACState) (m : Int) : ((preCalcCycle s m).1).idleMin = s.idleMin :=
  (preCalcCycle_frame s m).2.2.1

@[simp]
theorem preCalcCycle_fr_cycleThresh (s : HVACState) (m : Int) : ((preCalcCycle s m).1).cycleThresh = s.cycleThresh :=
  (preCalcCycle_frame s m).2.2.2.1

@[simp]
theorem preCalcCycle_fr_coolTemp0 (s : HVACState) (m : Int) : ((preCalcCycle s m).1).coolTemp0 = s.coolTemp0 :=
  (preCalcCycle_frame s m).2.2.2.2.1

@[simp]
theorem preCalcCycle_fr_coolTemp1 (s : HVACState) (m : Int) : ((preCalcCycle s m).1).coolTemp1 = s.coolTemp1 :=
  (preCalcCycle_frame s m).2.2.2.2.2.1

@[simp]
theorem preCalcCycle_fr_heatTemp0 (s : HVACState) (m : Int) : ((preCalcCycle s m).1).heatTemp0 = s.heatTemp0 :=
  (preCalcCycle_frame s m).2.2.2.2.2.2.1

@[simp]
theorem preCalcCycle_fr_heatTemp1 (s : HVACState) (m : Int) : ((preCalcCycle s m).1).heatTemp1 = s.heatTemp1 :=
  (preCalcCycle_frame s m).2.2.2.2.2.2.2.1

@[simp]
theorem preCalcCycle_fr_eHeatThresh (s : HVACState) (m : Int) : ((preCalcCycle s m).1).eHeatThresh = s.eHeatThresh :=
  (preCalcCycle_frame s m).2.2.2.2.2.2.2.2.1

@[simp]
theorem preCalcCycle_fr_fanPostDelay0 (s : HVACState) (m : Int) : ((preCalcCycle s m).1).fanPostDelay0 = s.fanPostDelay0 :=
  (preCalcCycle_frame s m).2.2.2.2.2.2.2.2.2.1

@[simp]
theorem preCalcCycle_fr_fanPostDelay1 (s : HVACState) (m : Int) : ((preCalcCycle s m).1).fanPostDelay1 = s.fanPostDelay1 :=
  (preCalcCycle_frame s m).2.2.2.2.2.2.2.2.2.2.1

@[simp]
theorem preCalcCycle_fr_overrideTime (s : HVACState) (m : Int) : ((preCalcCycle s m).1).overrideTime = s.overrideTime :=
  (preCalcCycle_frame s m).2.2.2.2.2.2.2.2.2.2.2.1

@[simp]
theorem preCalcCycle_fr_filterMinutes (s : HVACState) (m : Int) : ((preCalcCycle s m).1).filterMinutes = s.filterMinutes :=
  (preCalcCycle_frame s m).2.2.2.2.2.2.2.2.2.2.2.2.1

@[simp]
theorem preCalcCycle_fr_Mode (s : HVACState) (m : Int) : ((preCalcCycle s m).1).Mode = s.Mode :=
  (preCalcCycle_frame s m).2.2.2.2.2.2.2.2.2.2.2.2.2.1

@[simp]
theorem preCalcCycle_fr_heatMode (s : HVACState) (m : Int) : ((preCalcCycle s m).1).heatMode = s.heatMode :=
  (preCalcCycle_frame s m).2.2.2.2.2.2.2.2.2.2.2.2.2.2.1

@[simp]
theorem preCalcCycle_fr_m_outTemp (s : HVACState) (m : Int) : ((preCalcCycle s m).1).m_outTemp = s.m_outTemp :=
  (preCalcCycle_frame s m).2.2.2.2.2.2.2.2.2.2.2.2.2.2.2.1

@[simp]
theorem preCalcCycle_fr_m_inTemp (s : HVACState) (m : Int) : ((preCalcCycle s m).1).m_inTemp = s.m_inTemp :=
  (preCalcCycle_frame s m).2.2.2.2.2.2.2.2.2.2.2.2.2.2.2.2.1

@[simp]
theorem preCalcCycle_fr_m_rh (s : HVACState) (m : Int) : ((preCalcCycle s m).1).m_rh = s.m_rh :=
  (preCalcCycle_frame s m).2.2.2.2.2.2.2.2.2.2.2.2.2.2.2.2.2.1

@[simp]
theorem preCalcCycle_fr_m_bFanRunning (s : HVACState) (m : Int) : ((preCalcCycle s m).1).m_bFanRunning = s.m_bFanRunning :=
  (preCalcCycle_frame s m).2.2.2.2.2.2.2.2.2.2.2.2.2.2.2.2.2.2.1

@[simp]
theorem preCalcCycle_fr_m_outMin0 (s : HVACState) (m : Int) : ((preCalcCycle s m).1).m_outMin0 = s.m_outMin0 :=
  (preCalcCycle_frame s m).2.2.2.2.2.2.2.2.2.2.2.2.2.2.2.2.2.2.2.1

@[simp]
theorem preCalcCycle_fr_m_outMin1 (s : HVACState) (m : Int) : ((preCalcCycle s m).1).m_outMin1 = s.m_outMin1 :=
  (preCalcCycle_frame s m).2.2.2.2.2.2.2.2.2.2.2.2.2.2.2.2.2.2.2.2.1

@[simp]
theorem preCalcCycle_fr_m_outMax0 (s : HVACState) (m : Int) : ((preCalcCycle s m).1).m_outMax0 = s.m_outMax0 :=
  (preCalcCycle_frame s m).2.2.2.2.2.2.2.2.2.2.2.2.2.2.2.2.2.2.2.2.2.1

@[simp]
theorem preCalcCycle_fr_m_outMax1 (s : HVACState) (m : Int) : ((preCalcCycle s m).1).m_outMax1 = s.m_outMax1 :=
  (preCalcCycle_frame s m).2.2.2.2.2.2.2.2.2.2.2.2.2.2.2.2.2.2.2.2.2.2.1

@[simp]
theorem preCalcCycle_fr_m_bFanMode (s : HVACState) (m : Int) : ((preCalcCycle s m).1).m_bFanMode = s.m_bFanMode :=
  (preCalcCycle_frame s m).2.2.2.2.2.2.2.2.2.2.2.2.2.2.2.2.2.2.2.2.2.2.2.1

@[simp]
theorem preCalcCycle_fr_m_setMode (s : HVACState) (m : Int) : ((preCalcCycle s m).1).m_setMode = s.m_setMode :=
  (preCalcCycle_frame s m).2.2.2.2.2.2.2.2.2.2.2.2.2.2.2.2.2.2.2.2.2.2.2.2.1

@[simp]
theorem preCalcCycle_fr_m_setHeat (s : HVACState) (m : Int) : ((preCalcCycle s m).1).m_setHeat = s.m_setHeat :=
  (preCalcCycle_frame s m).2.2.2.2.2.2.2.2.2.2.2.2.2.2.2.2.2.2.2.2.2.2.2.2.2.1

@[simp]
theorem preCalcCycle_fr_m_bRunning (s : HVACState) (m : Int) : ((preCalcCycle s m).1).m_bRunning = s.m_bRunning :=
  (preCalcCycle_frame s m).2.2.2.2.2.2.2.2.2.2.2.2.2.2.2.2.2.2.2.2.2.2.2.2.2.2.1

@[simp]
theorem preCalcCycle_fr_m_bStart (s : HVACState) (m : Int) : ((preCalcCycle s m).1).m_bStart = s.m_bStart :=
  (preCalcCycle_frame s m).2.2.2.2.2.2.2.2.2.2.2.2.2.2.2.2.2.2.2.2.2.2.2.2.2.2.2.1

@[simp]
theorem preCalcCycle_fr_m_bStop (s : HVACState) (m : Int) : ((preCalcCycle s m).1).m_bStop = s.m_bStop :=
  (preCalcCycle_frame s m).2.2.2.2.2.2.2.2.2.2.2.2.2.2.2.2.2.2.2.2.2.2.2.2.2.2.2.2.1

@[simp]
theorem preCalcCycle_fr_m_bRecheck (s : HVACState) (m : Int) : ((preCalcCycle s m).1).m_bRecheck = s.m_bRecheck :=
  (preCalcCycle_frame s m).2.2.2.2.2.2.2.2.2.2.2.2.2.2.2.2.2.2.2.2.2.2.2.2.2.2.2.2.2.1

@[simp]
theorem preCalcCycle_fr_m_bEnabled (s : HVACState) (m : Int) : ((preCalcCycle s m).1).m_bEnabled = s.m_bEnabled :=
  (preCalcCycle_frame s m).2.2.2.2.2.2.2.2.2.2.2.2.2.2.2.2.2.2.2.2.2.2.2.2.2.2.2.2.2.2.1

@[simp]
theorem preCalcCycle_fr_m_runTotal (s : HVACState) (m : Int) : ((preCalcCycle s m).1).m_runTotal = s.m_runTotal :=
  (preCalcCycle_frame s m).2.2.2.2.2.2.2.2.2.2.2.2.2.2.2.2.2.2.2.2.2.2.2.2.2.2.2.2.2.2.2.1

@[simp]
theorem preCalcCycle_fr_m_fanOnTimer (s : HVACState) (m : Int) : ((preCalcCycle s m).1).m_fanOnTimer = s.m_fanOnTimer :=
  (preCalcCycle_frame s m).2.2.2.2.2.2.2.2.2.2.2.2.2.2.2.2.2.2.2.2.2.2.2.2.2.2.2.2.2.2.2.2.1

@[simp]
theorem preCalcCycle_fr_m_cycleTimer (s : HVACState) (m : Int) : ((preCalcCycle s m).1).m_cycleTimer = s.m_cycleTimer :=
  (preCalcCycle_frame s m).2.2.2.2.2.2.2.2.2.2.2.2.2.2.2.2.2.2.2.2.2.2.2.2.2.2.2.2.2.2.2.2.2.1

@[simp]
theorem preCalcCycle_fr_m_fanPostTimer (s : HVACState) (m : Int) : ((preCalcCycle s m).1).m_fanPostTimer = s.m_fanPostTimer :=
  (preCalcCycle_frame s m).2.2.2.2.2.2.2.2.2.2.2.2.2.2.2.2.2.2.2.2.2.2.2.2.2.2.2.2.2.2.2.2.2.2.1

@[simp]
theorem preCalcCycle_fr_m_overrideTimer (s : HVACState) (m : Int) : ((preCalcCycle s m).1).m_overrideTimer = s.m_overrideTimer :=
  (preCalcCycle_frame s m).2.2.2.2.2.2.2.2.2.2.2.2.2.2.2.2.2.2.2.2.2.2.2.2.2.2.2.2.2.2.2.2.2.2.2.1

@[simp]
theorem preCalcCycle_fr_m_ovrTemp (s : HVACState) (m : Int) : ((preCalcCycle s m).1).m_ovrTemp = s.m_ovrTemp :=
  (preCalcCycle_frame s m).2.2.2.2.2.2.2.2.2.2.2.2.2.2.2.2.2.2.2.2.2.2.2.2.2.2.2.2.2.2.2.2.2.2.2.2.1

@[simp]
theorem preCalcCycle_fr_m_remoteTimer (s : HVACState) (m : Int) : ((preCalcCycle s m).1).m_remoteTimer = s.m_remoteTimer :=
  (preCalcCycle_frame s m).2.2.2.2.2.2.2.2.2.2.2.2.2.2.2.2.2.2.2.2.2.2.2.2.2.2.2.2.2.2.2.2.2.2.2.2.2.1

@[simp]
theorem preCalcCycle_fr_m_remoteTimeout (s : HVACState) (m : Int) : ((preCalcCycle s m).1).m_remoteTimeout = s.m_remoteTimeout :=
  (preCalcCycle_frame s m).2.2.2.2.2.2.2.2.2.2.2.2.2.2.2.2.2.2.2.2.2.2.2.2.2.2.2.2.2.2.2.2.2.2.2.2.2.2.1

@[simp]
theorem preCalcCycle_fr_m_furnaceFan (s : HVACState) (m : Int) : ((preCalcCycle s m).1).m_furnaceFan = s.m_furnaceFan :=
  (preCalcCycle_frame s m).2.2.2.2.2.2.2.2.2.2.2.2.2.2.2.2.2.2.2.2.2.2.2.2.2.2.2.2.2.2.2.2.2.2.2.2.2.2.2.1

@[simp]
theorem preCalcCycle_fr_m_notif (s : HVACState) (m : Int) : ((preCalcCycle s m).1).m_notif = s.m_notif :=
  (preCalcCycle_frame s m).2.2.2.2.2.2.2.2.2.2.2.2.2.2.2.2.2.2.2.2.2.2.2.2.2.2.2.2.2.2.2.2.2.2.2.2.2.2.2.2.1

@[simp]
theorem preCalcCycle_fr_m_idleTimer (s : HVACState) (m : Int) : ((preCalcCycle s m).1).m_idleTimer = s.m_idleTimer :=
  (preCalcCycle_frame s m).2.2.2.2.2.2.2.2.2.2.2.2.2.2.2.2.2.2.2.2.2.2.2.2.2.2.2.2.2.2.2.2.2.2.2.2.2.2.2.2.2.1

@[simp]
theorem preCalcCycle_fr_nSecs (s : HVACState) (m : Int) : ((preCalcCycle s m).1).nSecs = s.nSecs :=
  (preCalcCycle_frame s m).2.2.2.2.2.2.2.2.2.2.2.2.2.2.2.2.2.2.2.2.2.2.2.2.2.2.2.2.2.2.2.2.2.2.2.2.2.2.2.2.2.2.1

@[simp]
theorem preCalcCycle_fr_pFan (s : HVACState) (m : Int) : ((preCalcCycle s m).1).pFan = s.pFan :=
  (preCalcCycle_frame s m).2.2.2.2.2.2.2.2.2.2.2.2.2.2.2.2.2.2.2.2.2.2.2.2.2.2.2.2.2.2.2.2.2.2.2.2.2.2.2.2.2.2.2.1

@[simp]
theorem preCalcCycle_fr_pCool (s : HVACState) (m : Int) : ((preCalcCycle s m).1).pCool = s.pCool :=
  (preCalcCycle_frame s m).2.2.2.2.2.2.2.2.2.2.2.2.2.2.2.2.2.2.2.2.2.2.2.2.2.2.2.2.2.2.2.2.2.2.2.2.2.2.2.2.2.2.2.2.1

@[simp]
theorem preCalcCycle_fr_pHeat (s : HVACState) (m : Int) : ((preCalcCycle s m).1).pHeat = s.pHeat :=
  (preCalcCycle_frame s m).2.2.2.2.2.2.2.2.2.2.2.2.2.2.2.2.2.2.2.2.2.2.2.2.2.2.2.2.2.2.2.2.2.2.2.2.2.2.2.2.2.2.2.2.2

theorem svcCounters_frame (s : HVACState) :
    (svcCounters s).cycleMin = s.cycleMin ∧
    (svcCounters s).cycleMax = s.cycleMax ∧
    (svcCounters s).idleMin = s.idleMin ∧
    (svcCounters s).cycleThresh = s.cycleThresh ∧
    (svcCounters s).coolTemp0 = s.coolTemp0 ∧
    (svcCounters s).coolTemp1 = s.coolTemp1 ∧
    (svcCounters s).heatTemp0 = s.heatTemp0 ∧
    (svcCounters s).heatTemp1 = s.heatTemp1 ∧
    (svcCounters s).eHeatThresh = s.eHeatThresh ∧
    (svcCounters s).fanPostDelay0 = s.fanPostDelay0 ∧
    (svcCounters s).fanPostDelay1 = s.fanPostDelay1 ∧
    (svcCounters s).overrideTime = s.overrideTime ∧
    (svcCounters s).Mode = s.Mode ∧
    (svcCounters s).heatMode = s.heatMode ∧
    (svcCounters s).m_outTemp = s.m_outTemp ∧
    (svcCounters s).m_inTemp = s.m_inTemp ∧
    (svcCounters s).m_rh = s.m_rh ∧
    (svcCounters s).m_bFanRunning = s.m_bFanRunning ∧
    (svcCounters s).m_outMin0 = s.m_outMin0 ∧
    (svcCounters s).m_outMin1 = s.m_outMin1 ∧
    (svcCounters s).m_outMax0 = s.m_outMax0 ∧
    (svcCounters s).m_outMax1 = s.m_outMax1 ∧
    (svcCounters s).m_bFanMode = s.m_bFanMode ∧
    (svcCounters s).m_AutoMode = s.m_AutoMode ∧
    (svcCounters s).m_setMode = s.m_setMode ∧
    (svcCounters s).m_setHeat = s.m_setHeat ∧
    (svcCounters s).m_AutoHeat = s.m_AutoHeat ∧
    (svcCounters s).m_bRunning = s.m_bRunning ∧
    (svcCounters s).m_bStart = s.m_bStart ∧
    (svcCounters s).m_bStop = s.m_bStop ∧
    (svcCounters s).m_bRecheck = s.m_bRecheck ∧
    (svcCounters s).m_bEnabled = s.m_bEnabled ∧
    (svcCounters s).m_runTotal = s.m_runTotal ∧
    (svcCounters s).m_cycleTimer = s.m_cycleTimer ∧
    (svcCounters s).m_fanPostTimer = s.m_fanPostTimer ∧
    (svcCounters s).m_overrideTimer = s.m_overrideTimer ∧
    (svcCounters s).m_ovrTemp = s.m_ovrTemp ∧
    (svcCounters s).m_remoteTimer = s.m_remoteTimer ∧
    (svcCounters s).m_remoteTimeout = s.m_remoteTimeout ∧
    (svcCounters s).m_notif = s.m_notif ∧
    (svcCounters s).m_idleTimer = s.m_idleTimer ∧
    (svcCounters s).m_targetTemp = s.m_targetTemp ∧
    (svcCounters s).pFan = s.pFan ∧
    (svcCounters s).pCool = s.pCool ∧
    (svcCounters s).pRev = s.pRev ∧
    (svcCounters s).pHeat = s.pHeat := by
  unfold svcCounters
  try dsimp only
  split_ifs <;> simp [fanPostDelayAt]

@[simp]
theorem svcCounters_fr_cycleMin (s : HVACState) : (svcCounters s).cycleMin = s.cycleMin :=
  (svcCounters_frame s).1

@[simp]
theorem svcCounters_fr_cycleMax (s : HVACState) : (svcCounters s).cycleMax = s.cycleMax :=
  (svcCounters_frame s).2.1

@[simp]
theorem svcCounters_fr_idleMin (s : HVACState) : (svcCounters s).idleMin = s.idleMin :=
  (svcCounters_frame s).2.2.1

@[simp]
theorem svcCounters_fr_cycleThresh (s : HVACState) : (svcCounters s).cycleThresh = s.cycleThresh :=
  (svcCounters_frame s).2.2.2.1

@[simp]
theorem svcCounters_fr_coolTemp0 (s : HVACState) : (svcCounters s).coolTemp0 = s.coolTemp0 :=
  (svcCounters_frame s).2.2.2.2.1

@[simp]
theorem svcCounters_fr_coolTemp1 (s : HVACState) : (svcCounters s).coolTemp1 = s.coolTemp1 :=
  (svcCounters_frame s).2.2.2.2.2.1

@[simp]
theorem svcCounters_fr_heatTemp0 (s : HVACState) : (svcCounters s).heatTemp0 = s.heatTemp0 :=
  (svcCounters_frame s).2.2.2.2.2.2.1

@[simp]
theorem svcCounters_fr_heatTemp1 (s : HVACState) : (svcCounters s).heatTemp1 = s.heatTemp1 :=
  (svcCounters_frame s).2.2.2.2.2.2.2.1

@[simp]
theorem svcCounters_fr_eHeatThresh (s : HVACState) : (svcCounters s).eHeatThresh = s.eHeatThresh :=
  (svcCounters_frame s).2.2.2.2.2.2.2.2.1

@[simp]
theorem svcCounters_fr_fanPostDelay0 (s : HVACState) : (svcCounters s).fanPostDelay0 = s.fanPostDelay0 :=
  (svcCounters_frame s).2.2.2.2.2.2.2.2.2.1

@[simp]
theorem svcCounters_fr_fanPostDelay1 (s : HVACState) : (svcCounters s).fanPostDelay1 = s.fanPostDelay1 :=
  (svcCounters_frame s).2.2.2.2.2.2.2.2.2.2.1

@[simp]
theorem svcCounters_fr_overrideTime (s : HVACState) : (svcCounters s).overrideTime = s.overrideTime :=
  (svcCounters_frame s).2.2.2.2.2.2.2.2.2.2.2.1

@[simp]
theorem svcCounters_fr_Mode (s : HVACState) : (svcCounters s).Mode = s.Mode :=
  (svcCounters_frame s).2.2.2.2.2.2.2.2.2.2.2.2.1

@[simp]
theorem svcCounters_fr_heatMode (s : HVACState) : (svcCounters s).heatMode = s.heatMode :=
  (svcCounters_frame s).2.2.2.2.2.2.2.2.2.2.2.2.2.1

@[simp]
theorem svcCounters_fr_m_outTemp (s : HVACState) : (svcCounters s).m_outTemp = s.m_outTemp :=
  (svcCounters_frame s).2.2.2.2.2.2.2.2.2.2.2.2.2.2.1

@[simp]
theorem svcCounters_fr_m_inTemp (s : HVACState) : (svcCounters s).m_inTemp = s.m_inTemp :=
  (svcCounters_frame s).2.2.2.2.2.2.2.2.2.2.2.2.2.2.2.1

@[simp]
theorem svcCounters_fr_m_rh (s : HVACState) : (svcCounters s).m_rh = s.m_rh :=
  (svcCounters_frame s).2.2.2.2.2.2.2.2.2.2.2.2.2.2.2.2.1

@[simp]
theorem svcCounters_fr_m_bFanRunning (s : HVACState) : (svcCounters s).m_bFanRunning = s.m_bFanRunning :=
  (svcCounters_frame s).2.2.2.2.2.2.2.2.2.2.2.2.2.2.2.2.2.1

@[simp]
theorem svcCounters_fr_m_outMin0 (s : HVACState) : (svcCounters s).m_outMin0 = s.m_outMin0 :=
  (svcCounters_frame s).2.2.2.2.2.2.2.2.2.2.2.2.2.2.2.2.2.2.1

@[simp]
theorem svcCounters_fr_m_outMin1 (s : HVACState) : (svcCounters s).m_outMin1 = s.m_outMin1 :=
  (svcCounters_frame s).2.2.2.2.2.2.2.2.2.2.2.2.2.2.2.2.2.2.2.1

@[simp]
theorem svcCounters_fr_m_outMax0 (s : HVACState) : (svcCounters s).m_outMax0 = s.m_outMax0 :=
  (svcCounters_frame s).2.2.2.2.2.2.2.2.2.2.2.2.2.2.2.2.2.2.2.2.1

@[simp]
theorem svcCounters_fr_m_outMax1 (s : HVACState) : (svcCounters s).m_outMax1 = s.m_outMax1 :=
  (svcCounters_frame s).2.2.2.2.2.2.2.2.2.2.2.2.2.2.2.2.2.2.2.2.2.1

@[simp]
theorem svcCounters_fr_m_bFanMode (s : HVACState) : (svcCounters s).m_bFanMode = s.m_bFanMode :=
  (svcCounters_frame s).2.2.2.2.2.2.2.2.2.2.2.2.2.2.2.2.2.2.2.2.2.2.1

@[simp]
theorem svcCounters_fr_m_AutoMode (s : HVACState) : (svcCounters s).m_AutoMode = s.m_AutoMode :=
  (svcCounters_frame s).2.2.2.2.2.2.2.2.2.2.2.2.2.2.2.2.2.2.2.2.2.2.2.1

@[simp]
theorem svcCounters_fr_m_setMode (s : HVACState) : (svcCounters s).m_setMode = s.m_setMode :=
  (svcCounters_frame s).2.2.2.2.2.2.2.2.2.2.2.2.2.2.2.2.2.2.2.2.2.2.2.2.1

@[simp]
theorem svcCounters_fr_m_setHeat (s : HVACState) : (svcCounters s).m_setHeat = s.m_setHeat :=
  (svcCounters_frame s).2.2.2.2.2.2.2.2.2.2.2.2.2.2.2.2.2.2.2.2.2.2.2.2.2.1

@[simp]
theorem svcCounters_fr_m_AutoHeat (s : HVACState) : (svcCounters s).m_AutoHeat = s.m_AutoHeat :=
  (svcCounters_frame s).2.2.2.2.2.2.2.2.2.2.2.2.2.2.2.2.2.2.2.2.2.2.2.2.2.2.1

@[simp]
theorem svcCounters_fr_m_bRunning (s : HVACState) : (svcCounters s).m_bRunning = s.m_bRunning :=
  (svcCounters_frame s).2.2.2.2.2.2.2.2.2.2.2.2.2.2.2.2.2.2.2.2.2.2.2.2.2.2.2.1

@[simp]
theorem svcCounters_fr_m_bStart (s : HVACState) : (svcCounters s).m_bStart = s.m_bStart :=
  (svcCounters_frame s).2.2.2.2.2.2.2.2.2.2.2.2.2.2.2.2.2.2.2.2.2.2.2.2.2.2.2.2.1

@[simp]
theorem svcCounters_fr_m_bStop (s : HVACState) : (svcCounters s).m_bStop = s.m_bStop :=
  (svcCounters_frame s).2.2.2.2.2.2.2.2.2.2.2.2.2.2.2.2.2.2.2.2.2.2.2.2.2.2.2.2.2.1

@[simp]
theorem svcCounters_fr_m_bRecheck (s : HVACState) : (svcCounters s).m_bRecheck = s.m_bRecheck :=
  (svcCounters_frame s).2.2.2.2.2.2.2.2.2.2.2.2.2.2.2.2.2.2.2.2.2.2.2.2.2.2.2.2.2.2.1

@[simp]
theorem svcCounters_fr_m_bEnabled (s : HVACState) : (svcCounters s).m_bEnabled = s.m_bEnabled :=
  (svcCounters_frame s).2.2.2.2.2.2.2.2.2.2.2.2.2.2.2.2.2.2.2.2.2.2.2.2.2.2.2.2.2.2.2.1

@[simp]
theorem svcCounters_fr_m_runTotal (s : HVACState) : (svcCounters s).m_runTotal = s.m_runTotal :=
  (svcCounters_frame s).2.2.2.2.2.2.2.2.2.2.2.2.2.2.2.2.2.2.2.2.2.2.2.2.2.2.2.2.2.2.2.2.1

@[simp]
theorem svcCounters_fr_m_cycleTimer (s : HVACState) : (svcCounters s).m_cycleTimer = s.m_cycleTimer :=
  (svcCounters_frame s).2.2.2.2.2.2.2.2.2.2.2.2.2.2.2.2.2.2.2.2.2.2.2.2.2.2.2.2.2.2.2.2.2.1

@[simp]
theorem svcCounters_fr_m_fanPostTimer (s : HVACState) : (svcCounters s).m_fanPostTimer = s.m_fanPostTimer :=
  (svcCounters_frame s).2.2.2.2.2.2.2.2.2.2.2.2.2.2.2.2.2.2.2.2.2.2.2.2.2.2.2.2.2.2.2.2.2.2.1

@[simp]
theorem svcCounters_fr_m_overrideTimer (s : HVACState) : (svcCounters s).m_overrideTimer = s.m_overrideTimer :=
  (svcCounters_frame s).2.2.2.2.2.2.2.2.2.2.2.2.2.2.2.2.2.2.2.2.2.2.2.2.2.2.2.2.2.2.2.2.2.2.2.1

@[simp]
theorem svcCounters_fr_m_ovrTemp (s : HVACState) : (svcCounters s).m_ovrTemp = s.m_ovrTemp :=
  (svcCounters_frame s).2.2.2.2.2.2.2.2.2.2.2.2.2.2.2.2.2.2.2.2.2.2.2.2.2.2.2.2.2.2.2.2.2.2.2.2.1

@[simp]
theorem svcCounters_fr_m_remoteTimer (s : HVACState) : (svcCounters s).m_remoteTimer = s.m_remoteTimer :=
  (svcCounters_frame s).2.2.2.2.2.2.2.2.2.2.2.2.2.2.2.2.2.2.2.2.2.2.2.2.2.2.2.2.2.2.2.2.2.2.2.2.2.1

@[simp]
theorem svcCounters_fr_m_remoteTimeout (s : HVACState) : (svcCounters s).m_remoteTimeout = s.m_remoteTimeout :=
  (svcCounters_frame s).2.2.2.2.2.2.2.2.2.2.2.2.2.2.2.2.2.2.2.2.2.2.2.2.2.2.2.2.2.2.2.2.2.2.2.2.2.2.1

@[simp]
theorem svcCounters_fr_m_notif (s : HVACState) : (svcCounters s).m_notif = s.m_notif :=
  (svcCounters_frame s).2.2.2.2.2.2.2.2.2.2.2.2.2.2.2.2.2.2.2.2.2.2.2.2.2.2.2.2.2.2.2.2.2.2.2.2.2.2.2.1

@[simp]
theorem svcCounters_fr_m_idleTimer (s : HVACState) : (svcCounters s).m_idleTimer = s.m_idleTimer :=
  (svcCounters_frame s).2.2.2.2.2.2.2.2.2.2.2.2.2.2.2.2.2.2.2.2.2.2.2.2.2.2.2.2.2.2.2.2.2.2.2.2.2.2.2.2.1

@[simp]
theorem svcCounters_fr_m_targetTemp (s : HVACState) : (svcCounters s).m_targetTemp = s.m_targetTemp :=
  (svcCounters_frame s).2.2.2.2.2.2.2.2.2.2.2.2.2.2.2.2.2.2.2.2.2.2.2.2.2.2.2.2.2.2.2.2.2.2.2.2.2.2.2.2.2.1

@[simp]
theorem svcCounters_fr_pFan (s : HVACState) : (svcCounters s).pFan = s.pFan :=
  (svcCounters_frame s).2.2.2.2.2.2.2.2.2.2.2.2.2.2.2.2.2.2.2.2.2.2.2.2.2.2.2.2.2.2.2.2.2.2.2.2.2.2.2.2.2.2.1

@[simp]
theorem svcCounters_fr_pCool (s : HVACState) : (svcCounters s).pCool = s.pCool :=
  (svcCounters_frame s).2.2.2.2.2.2.2.2.2.2.2.2.2.2.2.2.2.2.2.2.2.2.2.2.2.2.2.2.2.2.2.2.2.2.2.2.2.2.2.2.2.2.2.1

@[simp]
theorem svcCounters_fr_pRev (s : HVACState) : (svcCounters s).pRev = s.pRev :=
  (svcCounters_frame s).2.2.2.2.2.2.2.2.2.2.2.2.2.2.2.2.2.2.2.2.2.2.2.2.2.2.2.2.2.2.2.2.2.2.2.2.2.2.2.2.2.2.2.2.1

@[simp]
theorem svcCounters_fr_pHeat (s : HVACState) : (svcCounters s).pHeat = s.pHeat :=
  (svcCounters_frame s).2.2.2.2.2.2.2.2.2.2.2.2.2.2.2.2.2.2.2.2.2.2.2.2.2.2.2.2.2.2.2.2.2.2.2.2.2.2.2.2.2.2.2.2.2

theorem svcFanPost_frame (s : HVACState) :
    (svcFanPost s).cycleMin = s.cycleMin ∧
    (svcFanPost s).cycleMax = s.cycleMax ∧
    (svcFanPost s).idleMin = s.idleMin ∧
    (svcFanPost s).cycleThresh = s.cycleThresh ∧
    (svcFanPost s).coolTemp0 = s.coolTemp0 ∧
    (svcFanPost s).coolTemp1 = s.coolTemp1 ∧
    (svcFanPost s).heatTemp0 = s.heatTemp0 ∧
    (svcFanPost s).heatTemp1 = s.heatTemp1 ∧
    (svcFanPost s).eHeatThresh = s.eHeatThresh ∧
    (svcFanPost s).fanPostDelay0 = s.fanPostDelay0 ∧
    (svcFanPost s).fanPostDelay1 = s.fanPostDelay1 ∧
    (svcFanPost s).overrideTime = s.overrideTime ∧
    (svcFanPost s).filterMinutes = s.filterMinutes ∧
    (svcFanPost s).Mode = s.Mode ∧
    (svcFanPost s).heatMode = s.heatMode ∧
    (svcFanPost s).m_outTemp = s.m_outTemp ∧
    (svcFanPost s).m_inTemp = s.m_inTemp ∧
    (svcFanPost s).m_rh = s.m_rh ∧
    (svcFanPost s).m_outMin0 = s.m_outMin0 ∧
    (svcFanPost s).m_outMin1 = s.m_outMin1 ∧
    (svcFanPost s).m_outMax0 = s.m_outMax0 ∧
    (svcFanPost s).m_outMax1 = s.m_outMax1 ∧
    (svcFanPost s).m_bFanMode = s.m_bFanMode ∧
    (svcFanPost s).m_AutoMode = s.m_AutoMode ∧
    (svcFanPost s).m_setMode = s.m_setMode ∧
    (svcFanPost s).m_setHeat = s.m_setHeat ∧
    (svcFanPost s).m_AutoHeat = s.m_AutoHeat ∧
    (svcFanPost s).m_bRunning = s.m_bRunning ∧
    (svcFanPost s).m_bStart = s.m_bStart ∧
    (svcFanPost s).m_bStop = s.m_bStop ∧
    (svcFanPost s).m_bRecheck = s.m_bRecheck ∧
    (svcFanPost s).m_bEnabled = s.m_bEnabled ∧
    (svcFanPost s).m_runTotal = s.m_runTotal ∧
    (svcFanPost s).m_cycleTimer = s.m_cycleTimer ∧
    (svcFanPost s).m_overrideTimer = s.m_overrideTimer ∧
    (svcFanPost s).m_ovrTemp = s.m_ovrTemp ∧
    (svcFanPost s).m_remoteTimer = s.m_remoteTimer ∧
    (svcFanPost s).m_remoteTimeout = s.m_remoteTimeout ∧
    (svcFanPost s).m_furnaceFan = s.m_furnaceFan ∧
    (svcFanPost s).m_notif = s.m_notif ∧
    (svcFanPost s).m_idleTimer = s.m_idleTimer ∧
    (svcFanPost s).m_targetTemp = s.m_targetTemp ∧
    (svcFanPost s).nSecs = s.nSecs ∧
    (svcFanPost s).pCool = s.pCool ∧
    (svcFanPost s).pRev = s.pRev ∧
    (svcFanPost s).pHeat = s.pHeat := by
  unfold svcFanPost
  try dsimp only
  split_ifs <;> simp [fanPostDelayAt]

@[simp]
theorem svcFanPost_fr_cycleMin (s : HVACState) : (svcFanPost s).cycleMin = s.cycleMin :=
  (svcFanPost_frame s).1

@[simp]
theorem svcFanPost_fr_cycleMax (s : HVACState) : (svcFanPost s).cycleMax = s.cycleMax :=
  (svcFanPost_frame s).2.1

@[simp]
theorem svcFanPost_fr_idleMin (s : HVACState) : (svcFanPost s).idleMin = s.idleMin :=
  (svcFanPost_frame s).2.2.1

@[simp]
theorem svcFanPost_fr_cycleThresh (s : HVACState) : (svcFanPost s).cycleThresh = s.cycleThresh :=
  (svcFanPost_frame s).2.2.2.1

@[simp]
theorem svcFanPost_fr_coolTemp0 (s : HVACState) : (svcFanPost s).coolTemp0 = s.coolTemp0 :=
  (svcFanPost_frame s).2.2.2.2.1

@[simp]
theorem svcFanPost_fr_coolTemp1 (s : HVACState) : (svcFanPost s).coolTemp1 = s.coolTemp1 :=
  (svcFanPost_frame s).2.2.2.2.2.1

@[simp]
theorem svcFanPost_fr_heatTemp0 (s : HVACState) : (svcFanPost s).heatTemp0 = s.heatTemp0 :=
  (svcFanPost_frame s).2.2.2.2.2.2.1

@[simp]
theorem svcFanPost_fr_heatTemp1 (s : HVACState) : (svcFanPost s).heatTemp1 = s.heatTemp1 :=
  (svcFanPost_frame s).2.2.2.2.2.2.2.1

@[simp]
theorem svcFanPost_fr_eHeatThresh (s : HVACState) : (svcFanPost s).eHeatThresh = s.eHeatThresh :=
  (svcFanPost_frame s).2.2.2.2.2.2.2.2.1

@[simp]
theorem svcFanPost_fr_fanPostDelay0 (s : HVACState) : (svcFanPost s).fanPostDelay0 = s.fanPostDelay0 :=
  (svcFanPost_frame s).2.2.2.2.2.2.2.2.2.1

@[simp]
theorem svcFanPost_fr_fanPostDelay1 (s : HVACState) : (svcFanPost s).fanPostDelay1 = s.fanPostDelay1 :=
  (svcFanPost_frame s).2.2.2.2.2.2.2.2.2.2.1

@[simp]
theorem svcFanPost_fr_overrideTime (s : HVACState) : (svcFanPost s).overrideTime = s.overrideTime :=
  (svcFanPost_frame s).2.2.2.2.2.2.2.2.2.2.2.1

@[simp]
theorem svcFanPost_fr_filterMinutes (s : HVACState) : (svcFanPost s).filterMinutes = s.filterMinutes :=
  (svcFanPost_frame s).2.2.2.2.2.2.2.2.2.2.2.2.1

@[simp]
theorem svcFanPost_fr_Mode (s : HVACState) : (svcFanPost s).Mode = s.Mode :=
  (svcFanPost_frame s).2.2.2.2.2.2.2.2.2.2.2.2.2.1

@[simp]
theorem svcFanPost_fr_heatMode (s : HVACState) : (svcFanPost s).heatMode = s.heatMode :=
  (svcFanPost_frame s).2.2.2.2.2.2.2.2.2.2.2.2.2.2.1

@[simp]
theorem svcFanPost_fr_m_outTemp (s : HVACState) : (svcFanPost s).m_outTemp = s.m_outTemp :=
  (svcFanPost_frame s).2.2.2.2.2.2.2.2.2.2.2.2.2.2.2.1

@[simp]
theorem svcFanPost_fr_m_inTemp (s : HVACState) : (svcFanPost s).m_inTemp = s.m_inTemp :=
  (svcFanPost_frame s).2.2.2.2.2.2.2.2.2.2.2.2.2.2.2.2.1

@[simp]
theorem svcFanPost_fr_m_rh (s : HVACState) : (svcFanPost s).m_rh = s.m_rh :=
  (svcFanPost_frame s).2.2.2.2.2.2.2.2.2.2.2.2.2.2.2.2.2.1

@[simp]
theorem svcFanPost_fr_m_outMin0 (s : HVACState) : (svcFanPost s).m_outMin0 = s.m_outMin0 :=
  (svcFanPost_frame s).2.2.2.2.2.2.2.2.2.2.2.2.2.2.2.2.2.2.1

@[simp]
theorem svcFanPost_fr_m_outMin1 (s : HVACState) : (svcFanPost s).m_outMin1 = s.m_outMin1 :=
  (svcFanPost_frame s).2.2.2.2.2.2.2.2.2.2.2.2.2.2.2.2.2.2.2.1

@[simp]
theorem svcFanPost_fr_m_outMax0 (s : HVACState) : (svcFanPost s).m_outMax0 = s.m_outMax0 :=
  (svcFanPost_frame s).2.2.2.2.2.2.2.2.2.2.2.2.2.2.2.2.2.2.2.2.1

@[simp]
theorem svcFanPost_fr_m_outMax1 (s : HVACState) : (svcFanPost s).m_outMax1 = s.m_outMax1 :=
  (svcFanPost_frame s).2.2.2.2.2.2.2.2.2.2.2.2.2.2.2.2.2.2.2.2.2.1

@[simp]
theorem svcFanPost_fr_m_bFanMode (s : HVACState) : (svcFanPost s).m_bFanMode = s.m_bFanMode :=
  (svcFanPost_frame s).2.2.2.2.2.2.2.2.2.2.2.2.2.2.2.2.2.2.2.2.2.2.1

@[simp]
theorem svcFanPost_fr_m_AutoMode (s : HVACState) : (svcFanPost s).m_AutoMode = s.m_AutoMode :=
  (svcFanPost_frame s).2.2.2.2.2.2.2.2.2.2.2.2.2.2.2.2.2.2.2.2.2.2.2.1

@[simp]
theorem svcFanPost_fr_m_setMode (s : HVACState) : (svcFanPost s).m_setMode = s.m_setMode :=
  (svcFanPost_frame s).2.2.2.2.2.2.2.2.2.2.2.2.2.2.2.2.2.2.2.2.2.2.2.2.1

@[simp]
theorem svcFanPost_fr_m_setHeat (s : HVACState) : (svcFanPost s).m_setHeat = s.m_setHeat :=
  (svcFanPost_frame s).2.2.2.2.2.2.2.2.2.2.2.2.2.2.2.2.2.2.2.2.2.2.2.2.2.1

@[simp]
theorem svcFanPost_fr_m_AutoHeat (s : HVACState) : (svcFanPost s).m_AutoHeat = s.m_AutoHeat :=
  (svcFanPost_frame s).2.2.2.2.2.2.2.2.2.2.2.2.2.2.2.2.2.2.2.2.2.2.2.2.2.2.1

@[simp]
theorem svcFanPost_fr_m_bRunning (s : HVACState) : (svcFanPost s).m_bRunning = s.m_bRunning :=
  (svcFanPost_frame s).2.2.2.2.2.2.2.2.2.2.2.2.2.2.2.2.2.2.2.2.2.2.2.2.2.2.2.1

@[simp]
theorem svcFanPost_fr_m_bStart (s : HVACState) : (svcFanPost s).m_bStart = s.m_bStart :=
  (svcFanPost_frame s).2.2.2.2.2.2.2.2.2.2.2.2.2.2.2.2.2.2.2.2.2.2.2.2.2.2.2.2.1

@[simp]
theorem svcFanPost_fr_m_bStop (s : HVACState) : (svcFanPost s).m_bStop = s.m_bStop :=
  (svcFanPost_frame s).2.2.2.2.2.2.2.2.2.2.2.2.2.2.2.2.2.2.2.2.2.2.2.2.2.2.2.2.2.1

@[simp]
theorem svcFanPost_fr_m_bRecheck (s : HVACState) : (svcFanPost s).m_bRecheck = s.m_bRecheck :=
  (svcFanPost_frame s).2.2.2.2.2.2.2.2.2.2.2.2.2.2.2.2.2.2.2.2.2.2.2.2.2.2.2.2.2.2.1

@[simp]
theorem svcFanPost_fr_m_bEnabled (s : HVACState) : (svcFanPost s).m_bEnabled = s.m_bEnabled :=
  (svcFanPost_frame s).2.2.2.2.2.2.2.2.2.2.2.2.2.2.2.2.2.2.2.2.2.2.2.2.2.2.2.2.2.2.2.1

@[simp]
theorem svcFanPost_fr_m_runTotal (s : HVACState) : (svcFanPost s).m_runTotal = s.m_runTotal :=
  (svcFanPost_frame s).2.2.2.2.2.2.2.2.2.2.2.2.2.2.2.2.2.2.2.2.2.2.2.2.2.2.2.2.2.2.2.2.1

@[simp]
theorem svcFanPost_fr_m_cycleTimer (s : HVACState) : (svcFanPost s).m_cycleTimer = s.m_cycleTimer :=
  (svcFanPost_frame s).2.2.2.2.2.2.2.2.2.2.2.2.2.2.2.2.2.2.2.2.2.2.2.2.2.2.2.2.2.2.2.2.2.1

@[simp]
theorem svcFanPost_fr_m_overrideTimer (s : HVACState) : (svcFanPost s).m_overrideTimer = s.m_overrideTimer :=
  (svcFanPost_frame s).2.2.2.2.2.2.2.2.2.2.2.2.2.2.2.2.2.2.2.2.2.2.2.2.2.2.2.2.2.2.2.2.2.2.1

@[simp]
theorem svcFanPost_fr_m_ovrTemp (s : HVACState) : (svcFanPost s).m_ovrTemp = s.m_ovrTemp :=
  (svcFanPost_frame s).2.2.2.2.2.2.2.2.2.2.2.2.2.2.2.2.2.2.2.2.2.2.2.2.2.2.2.2.2.2.2.2.2.2.2.1

@[simp]
theorem svcFanPost_fr_m_remoteTimer (s : HVACState) : (svcFanPost s).m_remoteTimer = s.m_remoteTimer :=
  (svcFanPost_frame s).2.2.2.2.2.2.2.2.2.2.2.2.2.2.2.2.2.2.2.2.2.2.2.2.2.2.2.2.2.2.2.2.2.2.2.2.1

@[simp]
theorem svcFanPost_fr_m_remoteTimeout (s : HVACState) : (svcFanPost s).m_remoteTimeout = s.m_remoteTimeout :=
  (svcFanPost_frame s).2.2.2.2.2.2.2.2.2.2.2.2.2.2.2.2.2.2.2.2.2.2.2.2.2.2.2.2.2.2.2.2.2.2.2.2.2.1

@[simp]
theorem svcFanPost_fr_m_furnaceFan (s : HVACState) : (svcFanPost s).m_furnaceFan = s.m_furnaceFan :=
  (svcFanPost_frame s).2.2.2.2.2.2.2.2.2.2.2.2.2.2.2.2.2.2.2.2.2.2.2.2.2.2.2.2.2.2.2.2.2.2.2.2.2.2.1

@[simp]
theorem svcFanPost_fr_m_notif (s : HVACState) : (svcFanPost s).m_notif = s.m_notif :=
  (svcFanPost_frame s).2.2.2.2.2.2.2.2.2.2.2.2.2.2.2.2.2.2.2.2.2.2.2.2.2.2.2.2.2.2.2.2.2.2.2.2.2.2.2.1

@[simp]
theorem svcFanPost_fr_m_idleTimer (s : HVACState) : (svcFanPost s).m_idleTimer = s.m_idleTimer :=
  (svcFanPost_frame s).2.2.2.2.2.2.2.2.2.2.2.2.2.2.2.2.2.2.2.2.2.2.2.2.2.2.2.2.2.2.2.2.2.2.2.2.2.2.2.2.1

@[simp]
theorem svcFanPost_fr_m_targetTemp (s : HVACState) : (svcFanPost s).m_targetTemp = s.m_targetTemp :=
  (svcFanPost_frame s).2.2.2.2.2.2.2.2.2.2.2.2.2.2.2.2.2.2.2.2.2.2.2.2.2.2.2.2.2.2.2.2.2.2.2.2.2.2.2.2.2.1

@[simp]
theorem svcFanPost_fr_nSecs (s : HVACState) : (svcFanPost s).nSecs = s.nSecs :=
  (svcFanPost_frame s).2.2.2.2.2.2.2.2.2.2.2.2.2.2.2.2.2.2.2.2.2.2.2.2.2.2.2.2.2.2.2.2.2.2.2.2.2.2.2.2.2.2.1

@[simp]
theorem svcFanPost_fr_pCool (s : HVACState) : (svcFanPost s).pCool = s.pCool :=
  (svcFanPost_frame s).2.2.2.2.2.2.2.2.2.2.2.2.2.2.2.2.2.2.2.2.2.2.2.2.2.2.2.2.2.2.2.2.2.2.2.2.2.2.2.2.2.2.2.1

@[simp]
theorem svcFanPost_fr_pRev (s : HVACState) : (svcFanPost s).pRev = s.pRev :=
  (svcFanPost_frame s).2.2.2.2.2.2.2.2.2.2.2.2.2.2.2.2.2.2.2.2.2.2.2.2.2.2.2.2.2.2.2.2.2.2.2.2.2.2.2.2.2.2.2.2.1

@[simp]
theorem svcFanPost_fr_pHeat (s : HVACState) : (svcFanPost s).pHeat = s.pHeat :=
  (svcFanPost_frame s).2.2.2.2.2.2.2.2.2.2.2.2.2.2.2.2.2.2.2.2.2.2.2.2.2.2.2.2.2.2.2.2.2.2.2.2.2.2.2.2.2.2.2.2.2

theorem svcRemote_frame (s : HVACState) :
    (svcRemote s).cycleMin = s.cycleMin ∧
    (svcRemote s).cycleMax = s.cycleMax ∧
    (svcRemote s).idleMin = s.idleMin ∧
    (svcRemote s).cycleThresh = s.cycleThresh ∧
    (svcRemote s).coolTemp0 = s.coolTemp0 ∧
    (svcRemote s).coolTemp1 = s.coolTemp1 ∧
    (svcRemote s).heatTemp0 = s.heatTemp0 ∧
    (svcRemote s).heatTemp1 = s.heatTemp1 ∧
    (svcRemote s).eHeatThresh = s.eHeatThresh ∧
    (svcRemote s).fanPostDelay0 = s.fanPostDelay0 ∧
    (svcRemote s).fanPostDelay1 = s.fanPostDelay1 ∧
    (svcRemote s).overrideTime = s.overrideTime ∧
    (svcRemote s).filterMinutes = s.filterMinutes ∧
    (svcRemote s).Mode = s.Mode ∧
    (svcRemote s).heatMode = s.heatMode ∧
    (svcRemote s).m_outTemp = s.m_outTemp ∧
    (svcRemote s).m_inTemp = s.m_inTemp ∧
    (svcRemote s).m_rh = s.m_rh ∧
    (svcRemote s).m_bFanRunning = s.m_bFanRunning ∧
    (svcRemote s).m_outMin0 = s.m_outMin0 ∧
    (svcRemote s).m_outMin1 = s.m_outMin1 ∧
    (svcRemote s).m_outMax0 = s.m_outMax0 ∧
    (svcRemote s).m_outMax1 = s.m_outMax1 ∧
    (svcRemote s).m_bFanMode = s.m_bFanMode ∧
    (svcRemote s).m_AutoMode = s.m_AutoMode ∧
    (svcRemote s).m_setMode = s.m_setMode ∧
    (svcRemote s).m_setHeat = s.m_setHeat ∧
    (svcRemote s).m_AutoHeat = s.m_AutoHeat ∧
    (svcRemote s).m_bRunning = s.m_bRunning ∧
    (svcRemote s).m_bStart = s.m_bStart ∧
    (svcRemote s).m_bStop = s.m_bStop ∧
    (svcRemote s).m_bRecheck = s.m_bRecheck ∧
    (svcRemote s).m_bEnabled = s.m_bEnabled ∧
    (svcRemote s).m_runTotal = s.m_runTotal ∧
    (svcRemote s).m_fanOnTimer = s.m_fanOnTimer ∧
    (svcRemote s).m_cycleTimer = s.m_cycleTimer ∧
    (svcRemote s).m_fanPostTimer = s.m_fanPostTimer ∧
    (svcRemote s).m_overrideTimer = s.m_overrideTimer ∧
    (svcRemote s).m_ovrTemp = s.m_ovrTemp ∧
    (svcRemote s).m_remoteTimeout = s.m_remoteTimeout ∧
    (svcRemote s).m_furnaceFan = s.m_furnaceFan ∧
    (svcRemote s).m_notif = s.m_notif ∧
    (svcRemote s).m_idleTimer = s.m_idleTimer ∧
    (svcRemote s).m_targetTemp = s.m_targetTemp ∧
    (svcRemote s).nSecs = s.nSecs ∧
    (svcRemote s).pFan = s.pFan ∧
    (svcRemote s).pCool = s.pCool ∧
    (svcRemote s).pRev = s.pRev ∧
    (svcRemote s).pHeat = s.pHeat := by
  unfold svcRemote
  try dsimp only
  split_ifs <;> simp [fanPostDelayAt]

@[simp]
theorem svcRemote_fr_cycleMin (s : HVACState) : (svcRemote s).cycleMin = s.cycleMin :=
  (svcRemote_frame s).1

@[simp]
theorem svcRemote_fr_cycleMax (s : HVACState) : (svcRemote s).cycleMax = s.cycleMax :=
  (svcRemote_frame s).2.1

@[simp]
theorem svcRemote_fr_idleMin (s : HVACState) : (svcRemote s).idleMin = s.idleMin :=
  (svcRemote_frame s).2.2.1

@[simp]
theorem svcRemote_fr_cycleThresh (s : HVACState) : (svcRemote s).cycleThresh = s.cycleThresh :=
  (svcRemote_frame s).2.2.2.1

@[simp]
theorem svcRemote_fr_coolTemp0 (s : HVACState) : (svcRemote s).coolTemp0 = s.coolTemp0 :=
  (svcRemote_frame s).2.2.2.2.1

@[simp]
theorem svcRemote_fr_coolTemp1 (s : HVACState) : (svcRemote s).coolTemp1 = s.coolTemp1 :=
  (svcRemote_frame s).2.2.2.2.2.1

@[simp]
theorem svcRemote_fr_heatTemp0 (s : HVACState) : (svcRemote s).heatTemp0 = s.heatTemp0 :=
  (svcRemote_frame s).2.2.2.2.2.2.1

@[simp]
theorem svcRemote_fr_heatTemp1 (s : HVACState) : (svcRemote s).heatTemp1 = s.heatTemp1 :=
  (svcRemote_frame s).2.2.2.2.2.2.2.1

@[simp]
theorem svcRemote_fr_eHeatThresh (s : HVACState) : (svcRemote s).eHeatThresh = s.eHeatThresh :=
  (svcRemote_frame s).2.2.2.2.2.2.2.2.1

@[simp]
theorem svcRemote_fr_fanPostDelay0 (s : HVACState) : (svcRemote s).fanPostDelay0 = s.fanPostDelay0 :=
  (svcRemote_frame s).2.2.2.2.2.2.2.2.2.1

@[simp]
theorem svcRemote_fr_fanPostDelay1 (s : HVACState) : (svcRemote s).fanPostDelay1 = s.fanPostDelay1 :=
  (svcRemote_frame s).2.2.2.2.2.2.2.2.2.2.1

@[simp]
theorem svcRemote_fr_overrideTime (s : HVACState) : (svcRemote s).overrideTime = s.overrideTime :=
  (svcRemote_frame s).2.2.2.2.2.2.2.2.2.2.2.1

@[simp]
theorem svcRemote_fr_filterMinutes (s : HVACState) : (svcRemote s).filterMinutes = s.filterMinutes :=
  (svcRemote_frame s).2.2.2.2.2.2.2.2.2.2.2.2.1

@[simp]
theorem svcRemote_fr_Mode (s : HVACState) : (svcRemote s).Mode = s.Mode :=
  (svcRemote_frame s).2.2.2.2.2.2.2.2.2.2.2.2.2.1

@[simp]
theorem svcRemote_fr_heatMode (s : HVACState) : (svcRemote s).heatMode = s.heatMode :=
  (svcRemote_frame s).2.2.2.2.2.2.2.2.2.2.2.2.2.2.1

@[simp]
theorem svcRemote_fr_m_outTemp (s : HVACState) : (svcRemote s).m_outTemp = s.m_outTemp :=
  (svcRemote_frame s).2.2.2.2.2.2.2.2.2.2.2.2.2.2.2.1

@[simp]
theorem svcRemote_fr_m_inTemp (s : HVACState) : (svcRemote s).m_inTemp = s.m_inTemp :=
  (svcRemote_frame s).2.2.2.2.2.2.2.2.2.2.2.2.2.2.2.2.1

@[simp]
theorem svcRemote_fr_m_rh (s : HVACState) : (svcRemote s).m_rh = s.m_rh :=
  (svcRemote_frame s).2.2.2.2.2.2.2.2.2.2.2.2.2.2.2.2.2.1

@[simp]
theorem svcRemote_fr_m_bFanRunning (s : HVACState) : (svcRemote s).m_bFanRunning = s.m_bFanRunning :=
  (svcRemote_frame s).2.2.2.2.2.2.2.2.2.2.2.2.2.2.2.2.2.2.1

@[simp]
theorem svcRemote_fr_m_outMin0 (s : HVACState) : (svcRemote s).m_outMin0 = s.m_outMin0 :=
  (svcRemote_frame s).2.2.2.2.2.2.2.2.2.2.2.2.2.2.2.2.2.2.2.1

@[simp]
theorem svcRemote_fr_m_outMin1 (s : HVACState) : (svcRemote s).m_outMin1 = s.m_outMin1 :=
  (svcRemote_frame s).2.2.2.2.2.2.2.2.2.2.2.2.2.2.2.2.2.2.2.2.1

@[simp]
theorem svcRemote_fr_m_outMax0 (s : HVACState) : (svcRemote s).m_outMax0 = s.m_outMax0 :=
  (svcRemote_frame s).2.2.2.2.2.2.2.2.2.2.2.2.2.2.2.2.2.2.2.2.2.1

@[simp]
theorem svcRemote_fr_m_outMax1 (s : HVACState) : (svcRemote s).m_outMax1 = s.m_outMax1 :=
  (svcRemote_frame s).2.2.2.2.2.2.2.2.2.2.2.2.2.2.2.2.2.2.2.2.2.2.1

@[simp]
theorem svcRemote_fr_m_bFanMode (s : HVACState) : (svcRemote s).m_bFanMode = s.m_bFanMode :=
  (svcRemote_frame s).2.2.2.2.2.2.2.2.2.2.2.2.2.2.2.2.2.2.2.2.2.2.2.1

@[simp]
theorem svcRemote_fr_m_AutoMode (s : HVACState) : (svcRemote s).m_AutoMode = s.m_AutoMode :=
  (svcRemote_frame s).2.2.2.2.2.2.2.2.2.2.2.2.2.2.2.2.2.2.2.2.2.2.2.2.1

@[simp]
theorem svcRemote_fr_m_setMode (s : HVACState) : (svcRemote s).m_setMode = s.m_setMode :=
  (svcRemote_frame s).2.2.2.2.2.2.2.2.2.2.2.2.2.2.2.2.2.2.2.2.2.2.2.2.2.1

@[simp]
theorem svcRemote_fr_m_setHeat (s : HVACState) : (svcRemote s).m_setHeat = s.m_setHeat :=
  (svcRemote_frame s).2.2.2.2.2.2.2.2.2.2.2.2.2.2.2.2.2.2.2.2.2.2.2.2.2.2.1

@[simp]
theorem svcRemote_fr_m_AutoHeat (s : HVACState) : (svcRemote s).m_AutoHeat = s.m_AutoHeat :=
  (svcRemote_frame s).2.2.2.2.2.2.2.2.2.2.2.2.2.2.2.2.2.2.2.2.2.2.2.2.2.2.2.1

@[simp]
theorem svcRemote_fr_m_bRunning (s : HVACState) : (svcRemote s).m_bRunning = s.m_bRunning :=
  (svcRemote_frame s).2.2.2.2.2.2.2.2.2.2.2.2.2.2.2.2.2.2.2.2.2.2.2.2.2.2.2.2.1

@[simp]
theorem svcRemote_fr_m_bStart (s : HVACState) : (svcRemote s).m_bStart = s.m_bStart :=
  (svcRemote_frame s).2.2.2.2.2.2.2.2.2.2.2.2.2.2.2.2.2.2.2.2.2.2.2.2.2.2.2.2.2.1

@[simp]
theorem svcRemote_fr_m_bStop (s : HVACState) : (svcRemote s).m_bStop = s.m_bStop :=
  (svcRemote_frame s).2.2.2.2.2.2.2.2.2.2.2.2.2.2.2.2.2.2.2.2.2.2.2.2.2.2.2.2.2.2.1

@[simp]
theorem svcRemote_fr_m_bRecheck (s : HVACState) : (svcRemote s).m_bRecheck = s.m_bRecheck :=
  (svcRemote_frame s).2.2.2.2.2.2.2.2.2.2.2.2.2.2.2.2.2.2.2.2.2.2.2.2.2.2.2.2.2.2.2.1

@[simp]
theorem svcRemote_fr_m_bEnabled (s : HVACState) : (svcRemote s).m_bEnabled = s.m_bEnabled :=
  (svcRemote_frame s).2.2.2.2.2.2.2.2.2.2.2.2.2.2.2.2.2.2.2.2.2.2.2.2.2.2.2.2.2.2.2.2.1

@[simp]
theorem svcRemote_fr_m_runTotal (s : HVACState) : (svcRemote s).m_runTotal = s.m_runTotal :=
  (svcRemote_frame s).2.2.2.2.2.2.2.2.2.2.2.2.2.2.2.2.2.2.2.2.2.2.2.2.2.2.2.2.2.2.2.2.2.1

@[simp]
theorem svcRemote_fr_m_fanOnTimer (s : HVACState) : (svcRemote s).m_fanOnTimer = s.m_fanOnTimer :=
  (svcRemote_frame s).2.2.2.2.2.2.2.2.2.2.2.2.2.2.2.2.2.2.2.2.2.2.2.2.2.2.2.2.2.2.2.2.2.2.1

@[simp]
theorem svcRemote_fr_m_cycleTimer (s : HVACState) : (svcRemote s).m_cycleTimer = s.m_cycleTimer :=
  (svcRemote_frame s).2.2.2.2.2.2.2.2.2.2.2.2.2.2.2.2.2.2.2.2.2.2.2.2.2.2.2.2.2.2.2.2.2.2.2.1

@[simp]
theorem svcRemote_fr_m_fanPostTimer (s : HVACState) : (svcRemote s).m_fanPostTimer = s.m_fanPostTimer :=
  (svcRemote_frame s).2.2.2.2.2.2.2.2.2.2.2.2.2.2.2.2.2.2.2.2.2.2.2.2.2.2.2.2.2.2.2.2.2.2.2.2.1

@[simp]
theorem svcRemote_fr_m_overrideTimer (s : HVACState) : (svcRemote s).m_overrideTimer = s.m_overrideTimer :=
  (svcRemote_frame s).2.2.2.2.2.2.2.2.2.2.2.2.2.2.2.2.2.2.2.2.2.2.2.2.2.2.2.2.2.2.2.2.2.2.2.2.2.1

@[simp]
theorem svcRemote_fr_m_ovrTemp (s : HVACState) : (svcRemote s).m_ovrTemp = s.m_ovrTemp :=
  (svcRemote_frame s).2.2.2.2.2.2.2.2.2.2.2.2.2.2.2.2.2.2.2.2.2.2.2.2.2.2.2.2.2.2.2.2.2.2.2.2.2.2.1

@[simp]
theorem svcRemote_fr_m_remoteTimeout (s : HVACState) : (svcRemote s).m_remoteTimeout = s.m_remoteTimeout :=
  (svcRemote_frame s).2.2.2.2.2.2.2.2.2.2.2.2.2.2.2.2.2.2.2.2.2.2.2.2.2.2.2.2.2.2.2.2.2.2.2.2.2.2.2.1

@[simp]
theorem svcRemote_fr_m_furnaceFan (s : HVACState) : (svcRemote s).m_furnaceFan = s.m_furnaceFan :=
  (svcRemote_frame s).2.2.2.2.2.2.2.2.2.2.2.2.2.2.2.2.2.2.2.2.2.2.2.2.2.2.2.2.2.2.2.2.2.2.2.2.2.2.2.2.1

@[simp]
theorem svcRemote_fr_m_notif (s : HVACState) : (svcRemote s).m_notif = s.m_notif :=
  (svcRemote_frame s).2.2.2.2.2.2.2.2.2.2.2.2.2.2.2.2.2.2.2.2.2.2.2.2.2.2.2.2.2.2.2.2.2.2.2.2.2.2.2.2.2.1

@[simp]
theorem svcRemote_fr_m_idleTimer (s : HVACState) : (svcRemote s).m_idleTimer = s.m_idleTimer :=
  (svcRemote_frame s).2.2.2.2.2.2.2.2.2.2.2.2.2.2.2.2.2.2.2.2.2.2.2.2.2.2.2.2.2.2.2.2.2.2.2.2.2.2.2.2.2.2.1

@[simp]
theorem svcRemote_fr_m_targetTemp (s : HVACState) : (svcRemote s).m_targetTemp = s.m_targetTemp :=
  (svcRemote_frame s).2.2.2.2.2.2.2.2.2.2.2.2.2.2.2.2.2.2.2.2.2.2.2.2.2.2.2.2.2.2.2.2.2.2.2.2.2.2.2.2.2.2.2.1

@[simp]
theorem svcRemote_fr_nSecs (s : HVACState) : (svcRemote s).nSecs = s.nSecs :=
  (svcRemote_frame s).2.2.2.2.2.2.2.2.2.2.2.2.2.2.2.2.2.2.2.2.2.2.2.2.2.2.2.2.2.2.2.2.2.2.2.2.2.2.2.2.2.2.2.2.1

@[simp]
theorem svcRemote_fr_pFan (s : HVACState) : (svcRemote s).pFan = s.pFan :=
  (svcRemote_frame s).2.2.2.2.2.2.2.2.2.2.2.2.2.2.2.2.2.2.2.2.2.2.2.2.2.2.2.2.2.2.2.2.2.2.2.2.2.2.2.2.2.2.2.2.2.1

@[simp]
theorem svcRemote_fr_pCool (s : HVACState) : (svcRemote s).pCool = s.pCool :=
  (svcRemote_frame s).2.2.2.2.2.2.2.2.2.2.2.2.2.2.2.2.2.2.2.2.2.2.2.2.2.2.2.2.2.2.2.2.2.2.2.2.2.2.2.2.2.2.2.2.2.2.1

@[simp]
theorem svcRemote_fr_pRev (s : HVACState) : (svcRemote s).pRev = s.pRev :=
  (svcRemote_frame s).2.2.2.2.2.2.2.2.2.2.2.2.2.2.2.2.2.2.2.2.2.2.2.2.2.2.2.2.2.2.2.2.2.2.2.2.2.2.2.2.2.2.2.2.2.2.2.1

@[simp]
theorem svcRemote_fr_pHeat (s : HVACState) : (svcRemote s).pHeat = s.pHeat :=
  (svcRemote_frame s).2.2.2.2.2.2.2.2.2.2.2.2.2.2.2.2.2.2.2.2.2.2.2.2.2.2.2.2.2.2.2.2.2.2.2.2.2.2.2.2.2.2.2.2.2.2.2.2

theorem svcOverride_frame (s : HVACState) :
    (svcOverride s).cycleMin = s.cycleMin ∧
    (svcOverride s).cycleMax = s.cycleMax ∧
    (svcOverride s).idleMin = s.idleMin ∧
    (svcOverride s).cycleThresh = s.cycleThresh ∧
    (svcOverride s).coolTemp0 = s.coolTemp0 ∧
    (svcOverride s).coolTemp1 = s.coolTemp1 ∧
    (svcOverride s).heatTemp0 = s.heatTemp0 ∧
    (svcOverride s).heatTemp1 = s.heatTemp1 ∧
    (svcOverride s).eHeatThresh = s.eHeatThresh ∧
    (svcOverride s).fanPostDelay0 = s.fanPostDelay0 ∧
    (svcOverride s).fanPostDelay1 = s.fanPostDelay1 ∧
    (svcOverride s).overrideTime = s.overrideTime ∧
    (svcOverride s).filterMinutes = s.filterMinutes ∧
    (svcOverride s).Mode = s.Mode ∧
    (svcOverride s).heatMode = s.heatMode ∧
    (svcOverride s).m_outTemp = s.m_outTemp ∧
    (svcOverride s).m_inTemp = s.m_inTemp ∧
    (svcOverride s).m_rh = s.m_rh ∧
    (svcOverride s).m_bFanRunning = s.m_bFanRunning ∧
    (svcOverride s).m_outMin0 = s.m_outMin0 ∧
    (svcOverride s).m_outMin1 = s.m_outMin1 ∧
    (svcOverride s).m_outMax0 = s.m_outMax0 ∧
    (svcOverride s).m_outMax1 = s.m_outMax1 ∧
    (svcOverride s).m_bFanMode = s.m_bFanMode ∧
    (svcOverride s).m_AutoMode = s.m_AutoMode ∧
    (svcOverride s).m_setMode = s.m_setMode ∧
    (svcOverride s).m_setHeat = s.m_setHeat ∧
    (svcOverride s).m_AutoHeat = s.m_AutoHeat ∧
    (svcOverride s).m_bRunning = s.m_bRunning ∧
    (svcOverride s).m_bStart = s.m_bStart ∧
    (svcOverride s).m_bStop = s.m_bStop ∧
    (svcOverride s).m_bRecheck = s.m_bRecheck ∧
    (svcOverride s).m_bEnabled = s.m_bEnabled ∧
    (svcOverride s).m_runTotal = s.m_runTotal ∧
    (svcOverride s).m_fanOnTimer = s.m_fanOnTimer ∧
    (svcOverride s).m_cycleTimer = s.m_cycleTimer ∧
    (svcOverride s).m_fanPostTimer = s.m_fanPostTimer ∧
    (svcOverride s).m_remoteTimer = s.m_remoteTimer ∧
    (svcOverride s).m_remoteTimeout = s.m_remoteTimeout ∧
    (svcOverride s).m_furnaceFan = s.m_furnaceFan ∧
    (svcOverride s).m_notif = s.m_notif ∧
    (svcOverride s).m_idleTimer = s.m_idleTimer ∧
    (svcOverride s).nSecs = s.nSecs ∧
    (svcOverride s).pFan = s.pFan ∧
    (svcOverride s).pCool = s.pCool ∧
    (svcOverride s).pHeat = s.pHeat := by
  unfold svcOverride
  try dsimp only
  split_ifs <;> simp [fanPostDelayAt]

@[simp]
theorem svcOverride_fr_cycleMin (s : HVACState) : (svcOverride s).cycleMin = s.cycleMin :=
  (svcOverride_frame s).1

@[simp]
theorem svcOverride_fr_cycleMax (s : HVACState) : (svcOverride s).cycleMax = s.cycleMax :=
  (svcOverride_frame s).2.1

@[simp]
theorem svcOverride_fr_idleMin (s : HVACState) : (svcOverride s).idleMin = s.idleMin :=
  (svcOverride_frame s).2.2.1

@[simp]
theorem svcOverride_fr_cycleThresh (s : HVACState) : (svcOverride s).cycleThresh = s.cycleThresh :=
  (svcOverride_frame s).2.2.2.1

@[simp]
theorem svcOverride_fr_coolTemp0 (s : HVACState) : (svcOverride s).coolTemp0 = s.coolTemp0 :=
  (svcOverride_frame s).2.2.2.2.1

@[simp]
theorem svcOverride_fr_coolTemp1 (s : HVACState) : (svcOverride s).coolTemp1 = s.coolTemp1 :=
  (svcOverride_frame s).2.2.2.2.2.1

@[simp]
theorem svcOverride_fr_heatTemp0 (s : HVACState) : (svcOverride s).heatTemp0 = s.heatTemp0 :=
  (svcOverride_frame s).2.2.2.2.2.2.1

@[simp]
theorem svcOverride_fr_heatTemp1 (s : HVACState) : (svcOverride s).heatTemp1 = s.heatTemp1 :=
  (svcOverride_frame s).2.2.2.2.2.2.2.1

@[simp]
theorem svcOverride_fr_eHeatThresh (s : HVACState) : (svcOverride s).eHeatThresh = s.eHeatThresh :=
  (svcOverride_frame s).2.2.2.2.2.2.2.2.1

@[simp]
theorem svcOverride_fr_fanPostDelay0 (s : HVACState) : (svcOverride s).fanPostDelay0 = s.fanPostDelay0 :=
  (svcOverride_frame s).2.2.2.2.2.2.2.2.2.1

@[simp]
theorem svcOverride_fr_fanPostDelay1 (s : HVACState) : (svcOverride s).fanPostDelay1 = s.fanPostDelay1 :=
  (svcOverride_frame s).2.2.2.2.2.2.2.2.2.2.1

@[simp]
theorem svcOverride_fr_overrideTime (s : HVACState) : (svcOverride s).overrideTime = s.overrideTime :=
  (svcOverride_frame s).2.2.2.2.2.2.2.2.2.2.2.1

@[simp]
theorem svcOverride_fr_filterMinutes (s : HVACState) : (svcOverride s).filterMinutes = s.filterMinutes :=
  (svcOverride_frame s).2.2.2.2.2.2.2.2.2.2.2.2.1

@[simp]
theorem svcOverride_fr_Mode (s : HVACState) : (svcOverride s).Mode = s.Mode :=
  (svcOverride_frame s).2.2.2.2.2.2.2.2.2.2.2.2.2.1

@[simp]
theorem svcOverride_fr_heatMode (s : HVACState) : (svcOverride s).heatMode = s.heatMode :=
  (svcOverride_frame s).2.2.2.2.2.2.2.2.2.2.2.2.2.2.1

@[simp]
theorem svcOverride_fr_m_outTemp (s : HVACState) : (svcOverride s).m_outTemp = s.m_outTemp :=
  (svcOverride_frame s).2.2.2.2.2.2.2.2.2.2.2.2.2.2.2.1

@[simp]
theorem svcOverride_fr_m_inTemp (s : HVACState) : (svcOverride s).m_inTemp = s.m_inTemp :=
  (svcOverride_frame s).2.2.2.2.2.2.2.2.2.2.2.2.2.2.2.2.1

@[simp]
theorem svcOverride_fr_m_rh (s : HVACState) : (svcOverride s).m_rh = s.m_rh :=
  (svcOverride_frame s).2.2.2.2.2.2.2.2.2.2.2.2.2.2.2.2.2.1

@[simp]
theorem svcOverride_fr_m_bFanRunning (s : HVACState) : (svcOverride s).m_bFanRunning = s.m_bFanRunning :=
  (svcOverride_frame s).2.2.2.2.2.2.2.2.2.2.2.2.2.2.2.2.2.2.1

@[simp]
theorem svcOverride_fr_m_outMin0 (s : HVACState) : (svcOverride s).m_outMin0 = s.m_outMin0 :=
  (svcOverride_frame s).2.2.2.2.2.2.2.2.2.2.2.2.2.2.2.2.2.2.2.1

@[simp]
theorem svcOverride_fr_m_outMin1 (s : HVACState) : (svcOverride s).m_outMin1 = s.m_outMin1 :=
  (svcOverride_frame s).2.2.2.2.2.2.2.2.2.2.2.2.2.2.2.2.2.2.2.2.1

@[simp]
theorem svcOverride_fr_m_outMax0 (s : HVACState) : (svcOverride s).m_outMax0 = s.m_outMax0 :=
  (svcOverride_frame s).2.2.2.2.2.2.2.2.2.2.2.2.2.2.2.2.2.2.2.2.2.1

@[simp]
theorem svcOverride_fr_m_outMax1 (s : HVACState) : (svcOverride s).m_outMax1 = s.m_outMax1 :=
  (svcOverride_frame s).2.2.2.2.2.2.2.2.2.2.2.2.2.2.2.2.2.2.2.2.2.2.1

@[simp]
theorem svcOverride_fr_m_bFanMode (s : HVACState) : (svcOverride s).m_bFanMode = s.m_bFanMode :=
  (svcOverride_frame s).2.2.2.2.2.2.2.2.2.2.2.2.2.2.2.2.2.2.2.2.2.2.2.1

@[simp]
theorem svcOverride_fr_m_AutoMode (s : HVACState) : (svcOverride s).m_AutoMode = s.m_AutoMode :=
  (svcOverride_frame s).2.2.2.2.2.2.2.2.2.2.2.2.2.2.2.2.2.2.2.2.2.2.2.2.1

@[simp]
theorem svcOverride_fr_m_setMode (s : HVACState) : (svcOverride s).m_setMode = s.m_setMode :=
  (svcOverride_frame s).2.2.2.2.2.2.2.2.2.2.2.2.2.2.2.2.2.2.2.2.2.2.2.2.2.1

@[simp]
theorem svcOverride_fr_m_setHeat (s : HVACState) : (svcOverride s).m_setHeat = s.m_setHeat :=
  (svcOverride_frame s).2.2.2.2.2.2.2.2.2.2.2.2.2.2.2.2.2.2.2.2.2.2.2.2.2.2.1

@[simp]
theorem svcOverride_fr_m_AutoHeat (s : HVACState) : (svcOverride s).m_AutoHeat = s.m_AutoHeat :=
  (svcOverride_frame s).2.2.2.2.2.2.2.2.2.2.2.2.2.2.2.2.2.2.2.2.2.2.2.2.2.2.2.1

@[simp]
theorem svcOverride_fr_m_bRunning (s : HVACState) : (svcOverride s).m_bRunning = s.m_bRunning :=
  (svcOverride_frame s).2.2.2.2.2.2.2.2.2.2.2.2.2.2.2.2.2.2.2.2.2.2.2.2.2.2.2.2.1

@[simp]
theorem svcOverride_fr_m_bStart (s : HVACState) : (svcOverride s).m_bStart = s.m_bStart :=
  (svcOverride_frame s).2.2.2.2.2.2.2.2.2.2.2.2.2.2.2.2.2.2.2.2.2.2.2.2.2.2.2.2.2.1

@[simp]
theorem svcOverride_fr_m_bStop (s : HVACState) : (svcOverride s).m_bStop = s.m_bStop :=
  (svcOverride_frame s).2.2.2.2.2.2.2.2.2.2.2.2.2.2.2.2.2.2.2.2.2.2.2.2.2.2.2.2.2.2.1

@[simp]
theorem svcOverride_fr_m_bRecheck (s : HVACState) : (svcOverride s).m_bRecheck = s.m_bRecheck :=
  (svcOverride_frame s).2.2.2.2.2.2.2.2.2.2.2.2.2.2.2.2.2.2.2.2.2.2.2.2.2.2.2.2.2.2.2.1

@[simp]
theorem svcOverride_fr_m_bEnabled (s : HVACState) : (svcOverride s).m_bEnabled = s.m_bEnabled :=
  (svcOverride_frame s).2.2.2.2.2.2.2.2.2.2.2.2.2.2.2.2.2.2.2.2.2.2.2.2.2.2.2.2.2.2.2.2.1

@[simp]
theorem svcOverride_fr_m_runTotal (s : HVACState) : (svcOverride s).m_runTotal = s.m_runTotal :=
  (svcOverride_frame s).2.2.2.2.2.2.2.2.2.2.2.2.2.2.2.2.2.2.2.2.2.2.2.2.2.2.2.2.2.2.2.2.2.1

@[simp]
theorem svcOverride_fr_m_fanOnTimer (s : HVACState) : (svcOverride s).m_fanOnTimer = s.m_fanOnTimer :=
  (svcOverride_frame s).2.2.2.2.2.2.2.2.2.2.2.2.2.2.2.2.2.2.2.2.2.2.2.2.2.2.2.2.2.2.2.2.2.2.1

@[simp]
theorem svcOverride_fr_m_cycleTimer (s : HVACState) : (svcOverride s).m_cycleTimer = s.m_cycleTimer :=
  (svcOverride_frame s).2.2.2.2.2.2.2.2.2.2.2.2.2.2.2.2.2.2.2.2.2.2.2.2.2.2.2.2.2.2.2.2.2.2.2.1

@[simp]
theorem svcOverride_fr_m_fanPostTimer (s : HVACState) : (svcOverride s).m_fanPostTimer = s.m_fanPostTimer :=
  (svcOverride_frame s).2.2.2.2.2.2.2.2.2.2.2.2.2.2.2.2.2.2.2.2.2.2.2.2.2.2.2.2.2.2.2.2.2.2.2.2.1

@[simp]
theorem svcOverride_fr_m_remoteTimer (s : HVACState) : (svcOverride s).m_remoteTimer = s.m_remoteTimer :=
  (svcOverride_frame s).2.2.2.2.2.2.2.2.2.2.2.2.2.2.2.2.2.2.2.2.2.2.2.2.2.2.2.2.2.2.2.2.2.2.2.2.2.1

@[simp]
theorem svcOverride_fr_m_remoteTimeout (s : HVACState) : (svcOverride s).m_remoteTimeout = s.m_remoteTimeout :=
  (svcOverride_frame s).2.2.2.2.2.2.2.2.2.2.2.2.2.2.2.2.2.2.2.2.2.2.2.2.2.2.2.2.2.2.2.2.2.2.2.2.2.2.1

@[simp]
theorem svcOverride_fr_m_furnaceFan (s : HVACState) : (svcOverride s).m_furnaceFan = s.m_furnaceFan :=
  (svcOverride_frame s).2.2.2.2.2.2.2.2.2.2.2.2.2.2.2.2.2.2.2.2.2.2.2.2.2.2.2.2.2.2.2.2.2.2.2.2.2.2.2.1

@[simp]
theorem svcOverride_fr_m_notif (s : HVACState) : (svcOverride s).m_notif = s.m_notif :=
  (svcOverride_frame s).2.2.2.2.2.2.2.2.2.2.2.2.2.2.2.2.2.2.2.2.2.2.2.2.2.2.2.2.2.2.2.2.2.2.2.2.2.2.2.2.1

@[simp]
theorem svcOverride_fr_m_idleTimer (s : HVACState) : (svcOverride s).m_idleTimer = s.m_idleTimer :=
  (svcOverride_frame s).2.2.2.2.2.2.2.2.2.2.2.2.2.2.2.2.2.2.2.2.2.2.2.2.2.2.2.2.2.2.2.2.2.2.2.2.2.2.2.2.2.1

@[simp]
theorem svcOverride_fr_nSecs (s : HVACState) : (svcOverride s).nSecs = s.nSecs :=
  (svcOverride_frame s).2.2.2.2.2.2.2.2.2.2.2.2.2.2.2.2.2.2.2.2.2.2.2.2.2.2.2.2.2.2.2.2.2.2.2.2.2.2.2.2.2.2.1

@[simp]
theorem svcOverride_fr_pFan (s : HVACState) : (svcOverride s).pFan = s.pFan :=
  (svcOverride_frame s).2.2.2.2.2.2.2.2.2.2.2.2.2.2.2.2.2.2.2.2.2.2.2.2.2.2.2.2.2.2.2.2.2.2.2.2.2.2.2.2.2.2.2.1

@[simp]
theorem svcOverride_fr_pCool (s : HVACState) : (svcOverride s).pCool = s.pCool :=
  (svcOverride_frame s).2.2.2.2.2.2.2.2.2.2.2.2.2.2.2.2.2.2.2.2.2.2.2.2.2.2.2.2.2.2.2.2.2.2.2.2.2.2.2.2.2.2.2.2.1

@[simp]
theorem svcOverride_fr_pHeat (s : HVACState) : (svcOverride s).pHeat = s.pHeat :=
  (svcOverride_frame s).2.2.2.2.2.2.2.2.2.2.2.2.2.2.2.2.2.2.2.2.2.2.2.2.2.2.2.2.2.2.2.2.2.2.2.2.2.2.2.2.2.2.2.2.2

theorem svcTimers_frame (s : HVACState) :
    (svcTimers s).cycleMin = s.cycleMin ∧
    (svcTimers s).cycleMax = s.cycleMax ∧
    (svcTimers s).idleMin = s.idleMin ∧
    (svcTimers s).cycleThresh = s.cycleThresh ∧
    (svcTimers s).coolTemp0 = s.coolTemp0 ∧
    (svcTimers s).coolTemp1 = s.coolTemp1 ∧
    (svcTimers s).heatTemp0 = s.heatTemp0 ∧
    (svcTimers s).heatTemp1 = s.heatTemp1 ∧
    (svcTimers s).eHeatThresh = s.eHeatThresh ∧
    (svcTimers s).fanPostDelay0 = s.fanPostDelay0 ∧
    (svcTimers s).fanPostDelay1 = s.fanPostDelay1 ∧
    (svcTimers s).overrideTime = s.overrideTime ∧
    (svcTimers s).Mode = s.Mode ∧
    (svcTimers s).heatMode = s.heatMode ∧
    (svcTimers s).m_outTemp = s.m_outTemp ∧
    (svcTimers s).m_inTemp = s.m_inTemp ∧
    (svcTimers s).m_rh = s.m_rh ∧
    (svcTimers s).m_outMin0 = s.m_outMin0 ∧
    (svcTimers s).m_outMin1 = s.m_outMin1 ∧
    (svcTimers s).m_outMax0 = s.m_outMax0 ∧
    (svcTimers s).m_outMax1 = s.m_outMax1 ∧
    (svcTimers s).m_bFanMode = s.m_bFanMode ∧
    (svcTimers s).m_AutoMode = s.m_AutoMode ∧
    (svcTimers s).m_setMode = s.m_setMode ∧
    (svcTimers s).m_setHeat = s.m_setHeat ∧
    (svcTimers s).m_AutoHeat = s.m_AutoHeat ∧
    (svcTimers s).m_bRunning = s.m_bRunning ∧
    (svcTimers s).m_bStart = s.m_bStart ∧
    (svcTimers s).m_bStop = s.m_bStop ∧
    (svcTimers s).m_bRecheck = s.m_bRecheck ∧
    (svcTimers s).m_bEnabled = s.m_bEnabled ∧
    (svcTimers s).m_runTotal = s.m_runTotal ∧
    (svcTimers s).m_cycleTimer = s.m_cycleTimer ∧
    (svcTimers s).m_remoteTimeout = s.m_remoteTimeout ∧
    (svcTimers s).m_notif = s.m_notif ∧
    (svcTimers s).m_idleTimer = s.m_idleTimer ∧
    (svcTimers s).pCool = s.pCool ∧
    (svcTimers s).pHeat = s.pHeat := by
  unfold svcTimers
  simp

@[simp]
theorem svcTimers_fr_cycleMin (s : HVACState) : (svcTimers s).cycleMin = s.cycleMin :=
  (svcTimers_frame s).1

@[simp]
theorem svcTimers_fr_cycleMax (s : HVACState) : (svcTimers s).cycleMax = s.cycleMax :=
  (svcTimers_frame s).2.1

@[simp]
theorem svcTimers_fr_idleMin (s : HVACState) : (svcTimers s).idleMin = s.idleMin :=
  (svcTimers_frame s).2.2.1

@[simp]
theorem svcTimers_fr_cycleThresh (s : HVACState) : (svcTimers s).cycleThresh = s.cycleThresh :=
  (svcTimers_frame s).2.2.2.1

@[simp]
theorem svcTimers_fr_coolTemp0 (s : HVACState) : (svcTimers s).coolTemp0 = s.coolTemp0 :=
  (svcTimers_frame s).2.2.2.2.1

@[simp]
theorem svcTimers_fr_coolTemp1 (s : HVACState) : (svcTimers s).coolTemp1 = s.coolTemp1 :=
  (svcTimers_frame s).2.2.2.2.2.1

@[simp]
theorem svcTimers_fr_heatTemp0 (s : HVACState) : (svcTimers s).heatTemp0 = s.heatTemp0 :=
  (svcTimers_frame s).2.2.2.2.2.2.1

@[simp]
theorem svcTimers_fr_heatTemp1 (s : HVACState) : (svcTimers s).heatTemp1 = s.heatTemp1 :=
  (svcTimers_frame s).2.2.2.2.2.2.2.1

@[simp]
theorem svcTimers_fr_eHeatThresh (s : HVACState) : (svcTimers s).eHeatThresh = s.eHeatThresh :=
  (svcTimers_frame s).2.2.2.2.2.2.2.2.1

@[simp]
theorem svcTimers_fr_fanPostDelay0 (s : HVACState) : (svcTimers s).fanPostDelay0 = s.fanPostDelay0 :=
  (svcTimers_frame s).2.2.2.2.2.2.2.2.2.1

@[simp]
theorem svcTimers_fr_fanPostDelay1 (s : HVACState) : (svcTimers s).fanPostDelay1 = s.fanPostDelay1 :=
  (svcTimers_frame s).2.2.2.2.2.2.2.2.2.2.1

@[simp]
theorem svcTimers_fr_overrideTime (s : HVACState) : (svcTimers s).overrideTime = s.overrideTime :=
  (svcTimers_frame s).2.2.2.2.2.2.2.2.2.2.2.1

@[simp]
theorem svcTimers_fr_Mode (s : HVACState) : (svcTimers s).Mode = s.Mode :=
  (svcTimers_frame s).2.2.2.2.2.2.2.2.2.2.2.2.1

@[simp]
theorem svcTimers_fr_heatMode (s : HVACState) : (svcTimers s).heatMode = s.heatMode :=
  (svcTimers_frame s).2.2.2.2.2.2.2.2.2.2.2.2.2.1

@[simp]
theorem svcTimers_fr_m_outTemp (s : HVACState) : (svcTimers s).m_outTemp = s.m_outTemp :=
  (svcTimers_frame s).2.2.2.2.2.2.2.2.2.2.2.2.2.2.1

@[simp]
theorem svcTimers_fr_m_inTemp (s : HVACState) : (svcTimers s).m_inTemp = s.m_inTemp :=
  (svcTimers_frame s).2.2.2.2.2.2.2.2.2.2.2.2.2.2.2.1

@[simp]
theorem svcTimers_fr_m_rh (s : HVACState) : (svcTimers s).m_rh = s.m_rh :=
  (svcTimers_frame s).2.2.2.2.2.2.2.2.2.2.2.2.2.2.2.2.1

@[simp]
theorem svcTimers_fr_m_outMin0 (s : HVACState) : (svcTimers s).m_outMin0 = s.m_outMin0 :=
  (svcTimers_frame s).2.2.2.2.2.2.2.2.2.2.2.2.2.2.2.2.2.1

@[simp]
theorem svcTimers_fr_m_outMin1 (s : HVACState) : (svcTimers s).m_outMin1 = s.m_outMin1 :=
  (svcTimers_frame s).2.2.2.2.2.2.2.2.2.2.2.2.2.2.2.2.2.2.1

@[simp]
theorem svcTimers_fr_m_outMax0 (s : HVACState) : (svcTimers s).m_outMax0 = s.m_outMax0 :=
  (svcTimers_frame s).2.2.2.2.2.2.2.2.2.2.2.2.2.2.2.2.2.2.2.1

@[simp]
theorem svcTimers_fr_m_outMax1 (s : HVACState) : (svcTimers s).m_outMax1 = s.m_outMax1 :=
  (svcTimers_frame s).2.2.2.2.2.2.2.2.2.2.2.2.2.2.2.2.2.2.2.2.1

@[simp]
theorem svcTimers_fr_m_bFanMode (s : HVACState) : (svcTimers s).m_bFanMode = s.m_bFanMode :=
  (svcTimers_frame s).2.2.2.2.2.2.2.2.2.2.2.2.2.2.2.2.2.2.2.2.2.1

@[simp]
theorem svcTimers_fr_m_AutoMode (s : HVACState) : (svcTimers s).m_AutoMode = s.m_AutoMode :=
  (svcTimers_frame s).2.2.2.2.2.2.2.2.2.2.2.2.2.2.2.2.2.2.2.2.2.2.1

@[simp]
theorem svcTimers_fr_m_setMode (s : HVACState) : (svcTimers s).m_setMode = s.m_setMode :=
  (svcTimers_frame s).2.2.2.2.2.2.2.2.2.2.2.2.2.2.2.2.2.2.2.2.2.2.2.1

@[simp]
theorem svcTimers_fr_m_setHeat (s : HVACState) : (svcTimers s).m_setHeat = s.m_setHeat :=
  (svcTimers_frame s).2.2.2.2.2.2.2.2.2.2.2.2.2.2.2.2.2.2.2.2.2.2.2.2.1

@[simp]
theorem svcTimers_fr_m_AutoHeat (s : HVACState) : (svcTimers s).m_AutoHeat = s.m_AutoHeat :=
  (svcTimers_frame s).2.2.2.2.2.2.2.2.2.2.2.2.2.2.2.2.2.2.2.2.2.2.2.2.2.1

@[simp]
theorem svcTimers_fr_m_bRunning (s : HVACState) : (svcTimers s).m_bRunning = s.m_bRunning :=
  (svcTimers_frame s).2.2.2.2.2.2.2.2.2.2.2.2.2.2.2.2.2.2.2.2.2.2.2.2.2.2.1

@[simp]
theorem svcTimers_fr_m_bStart (s : HVACState) : (svcTimers s).m_bStart = s.m_bStart :=
  (svcTimers_frame s).2.2.2.2.2.2.2.2.2.2.2.2.2.2.2.2.2.2.2.2.2.2.2.2.2.2.2.1

@[simp]
theorem svcTimers_fr_m_bStop (s : HVACState) : (svcTimers s).m_bStop = s.m_bStop :=
  (svcTimers_frame s).2.2.2.2.2.2.2.2.2.2.2.2.2.2.2.2.2.2.2.2.2.2.2.2.2.2.2.2.1

@[simp]
theorem svcTimers_fr_m_bRecheck (s : HVACState) : (svcTimers s).m_bRecheck = s.m_bRecheck :=
  (svcTimers_frame s).2.2.2.2.2.2.2.2.2.2.2.2.2.2.2.2.2.2.2.2.2.2.2.2.2.2.2.2.2.1

@[simp]
theorem svcTimers_fr_m_bEnabled (s : HVACState) : (svcTimers s).m_bEnabled = s.m_bEnabled :=
  (svcTimers_frame s).2.2.2.2.2.2.2.2.2.2.2.2.2.2.2.2.2.2.2.2.2.2.2.2.2.2.2.2.2.2.1

@[simp]
theorem svcTimers_fr_m_runTotal (s : HVACState) : (svcTimers s).m_runTotal = s.m_runTotal :=
  (svcTimers_frame s).2.2.2.2.2.2.2.2.2.2.2.2.2.2.2.2.2.2.2.2.2.2.2.2.2.2.2.2.2.2.2.1

@[simp]
theorem svcTimers_fr_m_cycleTimer (s : HVACState) : (svcTimers s).m_cycleTimer = s.m_cycleTimer :=
  (svcTimers_frame s).2.2.2.2.2.2.2.2.2.2.2.2.2.2.2.2.2.2.2.2.2.2.2.2.2.2.2.2.2.2.2.2.1

@[simp]
theorem svcTimers_fr_m_remoteTimeout (s : HVACState) : (svcTimers s).m_remoteTimeout = s.m_remoteTimeout :=
  (svcTimers_frame s).2.2.2.2.2.2.2.2.2.2.2.2.2.2.2.2.2.2.2.2.2.2.2.2.2.2.2.2.2.2.2.2.2.1

@[simp]
theorem svcTimers_fr_m_notif (s : HVACState) : (svcTimers s).m_notif = s.m_notif :=
  (svcTimers_frame s).2.2.2.2.2.2.2.2.2.2.2.2.2.2.2.2.2.2.2.2.2.2.2.2.2.2.2.2.2.2.2.2.2.2.1

@[simp]
theorem svcTimers_fr_m_idleTimer (s : HVACState) : (svcTimers s).m_idleTimer = s.m_idleTimer :=
  (svcTimers_frame s).2.2.2.2.2.2.2.2.2.2.2.2.2.2.2.2.2.2.2.2.2.2.2.2.2.2.2.2.2.2.2.2.2.2.2.1

@[simp]
theorem svcTimers_fr_pCool (s : HVACState) : (svcTimers s).pCool = s.pCool :=
  (svcTimers_frame s).2.2.2.2.2.2.2.2.2.2.2.2.2.2.2.2.2.2.2.2.2.2.2.2.2.2.2.2.2.2.2.2.2.2.2.2.1

@[simp]
theorem svcTimers_fr_pHeat (s : HVACState) : (svcTimers s).pHeat = s.pHeat :=
  (svcTimers_frame s).2.2.2.2.2.2.2.2.2.2.2.2.2.2.2.2.2.2.2.2.2.2.2.2.2.2.2.2.2.2.2.2.2.2.2.2.2

theorem svcModeChange_frame (s : HVACState) :
    (svcModeChange s).cycleMin = s.cycleMin ∧
    (svcModeChange s).cycleMax = s.cycleMax ∧
    (svcModeChange s).idleMin = s.idleMin ∧
    (svcModeChange s).cycleThresh = s.cycleThresh ∧
    (svcModeChange s).coolTemp0 = s.coolTemp0 ∧
    (svcModeChange s).coolTemp1 = s.coolTemp1 ∧
    (svcModeChange s).heatTemp0 = s.heatTemp0 ∧
    (svcModeChange s).heatTemp1 = s.heatTemp1 ∧
    (svcModeChange s).eHeatThresh = s.eHeatThresh ∧
    (svcModeChange s).fanPostDelay0 = s.fanPostDelay0 ∧
    (svcModeChange s).fanPostDelay1 = s.fanPostDelay1 ∧
    (svcModeChange s).overrideTime = s.overrideTime ∧
    (svcModeChange s).filterMinutes = s.filterMinutes ∧
    (svcModeChange s).m_outTemp = s.m_outTemp ∧
    (svcModeChange s).m_inTemp = s.m_inTemp ∧
    (svcModeChange s).m_rh = s.m_rh ∧
    (svcModeChange s).m_bFanRunning = s.m_bFanRunning ∧
    (svcModeChange s).m_outMin0 = s.m_outMin0 ∧
    (svcModeChange s).m_outMin1 = s.m_outMin1 ∧
    (svcModeChange s).m_outMax0 = s.m_outMax0 ∧
    (svcModeChange s).m_outMax1 = s.m_outMax1 ∧
    (svcModeChange s).m_bFanMode = s.m_bFanMode ∧
    (svcModeChange s).m_AutoMode = s.m_AutoMode ∧
    (svcModeChange s).m_setMode = s.m_setMode ∧
    (svcModeChange s).m_setHeat = s.m_setHeat ∧
    (svcModeChange s).m_AutoHeat = s.m_AutoHeat ∧
    (svcModeChange s).m_bRunning = s.m_bRunning ∧
    (svcModeChange s).m_bStart = s.m_bStart ∧
    (svcModeChange s).m_bRecheck = s.m_bRecheck ∧
    (svcModeChange s).m_bEnabled = s.m_bEnabled ∧
    (svcModeChange s).m_runTotal = s.m_runTotal ∧
    (svcModeChange s).m_fanOnTimer = s.m_fanOnTimer ∧
    (svcModeChange s).m_cycleTimer = s.m_cycleTimer ∧
    (svcModeChange s).m_fanPostTimer = s.m_fanPostTimer ∧
    (svcModeChange s).m_overrideTimer = s.m_overrideTimer ∧
    (svcModeChange s).m_ovrTemp = s.m_ovrTemp ∧
    (svcModeChange s).m_remoteTimer = s.m_remoteTimer ∧
    (svcModeChange s).m_remoteTimeout = s.m_remoteTimeout ∧
    (svcModeChange s).m_furnaceFan = s.m_furnaceFan ∧
    (svcModeChange s).m_notif = s.m_notif ∧
    (svcModeChange s).m_idleTimer = s.m_idleTimer ∧
    (svcModeChange s).nSecs = s.nSecs ∧
    (svcModeChange s).pFan = s.pFan ∧
    (svcModeChange s).pCool = s.pCool ∧
    (svcModeChange s).pHeat = s.pHeat := by
  unfold svcModeChange
  try dsimp only
  split_ifs <;> simp [fanPostDelayAt]

@[simp]
theorem svcModeChange_fr_cycleMin (s : HVACState) : (svcModeChange s).cycleMin = s.cycleMin :=
  (svcModeChange_frame s).1

@[simp]
theorem svcModeChange_fr_cycleMax (s : HVACState) : (svcModeChange s).cycleMax = s.cycleMax :=
  (svcModeChange_frame s).2.1

@[simp]
theorem svcModeChange_fr_idleMin (s : HVACState) : (svcModeChange s).idleMin = s.idleMin :=
  (svcModeChange_frame s).2.2.1

@[simp]
theorem svcModeChange_fr_cycleThresh (s : HVACState) : (svcModeChange s).cycleThresh = s.cycleThresh :=
  (svcModeChange_frame s).2.2.2.1

@[simp]
theorem svcModeChange_fr_coolTemp0 (s : HVACState) : (svcModeChange s).coolTemp0 = s.coolTemp0 :=
  (svcModeChange_frame s).2.2.2.2.1

@[simp]
theorem svcModeChange_fr_coolTemp1 (s : HVACState) : (svcModeChange s).coolTemp1 = s.coolTemp1 :=
  (svcModeChange_frame s).2.2.2.2.2.1

@[simp]
theorem svcModeChange_fr_heatTemp0 (s : HVACState) : (svcModeChange s).heatTemp0 = s.heatTemp0 :=
  (svcModeChange_frame s).2.2.2.2.2.2.1

@[simp]
theorem svcModeChange_fr_heatTemp1 (s : HVACState) : (svcModeChange s).heatTemp1 = s.heatTemp1 :=
  (svcModeChange_frame s).2.2.2.2.2.2.2.1

@[simp]
theorem svcModeChange_fr_eHeatThresh (s : HVACState) : (svcModeChange s).eHeatThresh = s.eHeatThresh :=
  (svcModeChange_frame s).2.2.2.2.2.2.2.2.1

@[simp]
theorem svcModeChange_fr_fanPostDelay0 (s : HVACState) : (svcModeChange s).fanPostDelay0 = s.fanPostDelay0 :=
  (svcModeChange_frame s).2.2.2.2.2.2.2.2.2.1

@[simp]
theorem svcModeChange_fr_fanPostDelay1 (s : HVACState) : (svcModeChange s).fanPostDelay1 = s.fanPostDelay1 :=
  (svcModeChange_frame s).2.2.2.2.2.2.2.2.2.2.1

@[simp]
theorem svcModeChange_fr_overrideTime (s : HVACState) : (svcModeChange s).overrideTime = s.overrideTime :=
  (svcModeChange_frame s).2.2.2.2.2.2.2.2.2.2.2.1

@[simp]
theorem svcModeChange_fr_filterMinutes (s : HVACState) : (svcModeChange s).filterMinutes = s.filterMinutes :=
  (svcModeChange_frame s).2.2.2.2.2.2.2.2.2.2.2.2.1

@[simp]
theorem svcModeChange_fr_m_outTemp (s : HVACState) : (svcModeChange s).m_outTemp = s.m_outTemp :=
  (svcModeChange_frame s).2.2.2.2.2.2.2.2.2.2.2.2.2.1

@[simp]
theorem svcModeChange_fr_m_inTemp (s : HVACState) : (svcModeChange s).m_inTemp = s.m_inTemp :=
  (svcModeChange_frame s).2.2.2.2.2.2.2.2.2.2.2.2.2.2.1

@[simp]
theorem svcModeChange_fr_m_rh (s : HVACState) : (svcModeChange s).m_rh = s.m_rh :=
  (svcModeChange_frame s).2.2.2.2.2.2.2.2.2.2.2.2.2.2.2.1

@[simp]
theorem svcModeChange_fr_m_bFanRunning (s : HVACState) : (svcModeChange s).m_bFanRunning = s.m_bFanRunning :=
  (svcModeChange_frame s).2.2.2.2.2.2.2.2.2.2.2.2.2.2.2.2.1

@[simp]
theorem svcModeChange_fr_m_outMin0 (s : HVACState) : (svcModeChange s).m_outMin0 = s.m_outMin0 :=
  (svcModeChange_frame s).2.2.2.2.2.2.2.2.2.2.2.2.2.2.2.2.2.1

@[simp]
theorem svcModeChange_fr_m_outMin1 (s : HVACState) : (svcModeChange s).m_outMin1 = s.m_outMin1 :=
  (svcModeChange_frame s).2.2.2.2.2.2.2.2.2.2.2.2.2.2.2.2.2.2.1

@[simp]
theorem svcModeChange_fr_m_outMax0 (s : HVACState) : (svcModeChange s).m_outMax0 = s.m_outMax0 :=
  (svcModeChange_frame s).2.2.2.2.2.2.2.2.2.2.2.2.2.2.2.2.2.2.2.1

@[simp]
theorem svcModeChange_fr_m_outMax1 (s : HVACState) : (svcModeChange s).m_outMax1 = s.m_outMax1 :=
  (svcModeChange_frame s).2.2.2.2.2.2.2.2.2.2.2.2.2.2.2.2.2.2.2.2.1

@[simp]
theorem svcModeChange_fr_m_bFanMode (s : HVACState) : (svcModeChange s).m_bFanMode = s.m_bFanMode :=
  (svcModeChange_frame s).2.2.2.2.2.2.2.2.2.2.2.2.2.2.2.2.2.2.2.2.2.1

@[simp]
theorem svcModeChange_fr_m_AutoMode (s : HVACState) : (svcModeChange s).m_AutoMode = s.m_AutoMode :=
  (svcModeChange_frame s).2.2.2.2.2.2.2.2.2.2.2.2.2.2.2.2.2.2.2.2.2.2.1

@[simp]
theorem svcModeChange_fr_m_setMode (s : HVACState) : (svcModeChange s).m_setMode = s.m_setMode :=
  (svcModeChange_frame s).2.2.2.2.2.2.2.2.2.2.2.2.2.2.2.2.2.2.2.2.2.2.2.1

@[simp]
theorem svcModeChange_fr_m_setHeat (s : HVACState) : (svcModeChange s).m_setHeat = s.m_setHeat :=
  (svcModeChange_frame s).2.2.2.2.2.2.2.2.2.2.2.2.2.2.2.2.2.2.2.2.2.2.2.2.1

@[simp]
theorem svcModeChange_fr_m_AutoHeat (s : HVACState) : (svcModeChange s).m_AutoHeat = s.m_AutoHeat :=
  (svcModeChange_frame s).2.2.2.2.2.2.2.2.2.2.2.2.2.2.2.2.2.2.2.2.2.2.2.2.2.1

@[simp]
theorem svcModeChange_fr_m_bRunning (s : HVACState) : (svcModeChange s).m_bRunning = s.m_bRunning :=
  (svcModeChange_frame s).2.2.2.2.2.2.2.2.2.2.2.2.2.2.2.2.2.2.2.2.2.2.2.2.2.2.1

@[simp]
theorem svcModeChange_fr_m_bStart (s : HVACState) : (svcModeChange s).m_bStart = s.m_bStart :=
  (svcModeChange_frame s).2.2.2.2.2.2.2.2.2.2.2.2.2.2.2.2.2.2.2.2.2.2.2.2.2.2.2.1

@[simp]
theorem svcModeChange_fr_m_bRecheck (s : HVACState) : (svcModeChange s).m_bRecheck = s.m_bRecheck :=
  (svcModeChange_frame s).2.2.2.2.2.2.2.2.2.2.2.2.2.2.2.2.2.2.2.2.2.2.2.2.2.2.2.2.1

@[simp]
theorem svcModeChange_fr_m_bEnabled (s : HVACState) : (svcModeChange s).m_bEnabled = s.m_bEnabled :=
  (svcModeChange_frame s).2.2.2.2.2.2.2.2.2.2.2.2.2.2.2.2.2.2.2.2.2.2.2.2.2.2.2.2.2.1

@[simp]
theorem svcModeChange_fr_m_runTotal (s : HVACState) : (svcModeChange s).m_runTotal = s.m_runTotal :=
  (svcModeChange_frame s).2.2.2.2.2.2.2.2.2.2.2.2.2.2.2.2.2.2.2.2.2.2.2.2.2.2.2.2.2.2.1

@[simp]
theorem svcModeChange_fr_m_fanOnTimer (s : HVACState) : (svcModeChange s).m_fanOnTimer = s.m_fanOnTimer :=
  (svcModeChange_frame s).2.2.2.2.2.2.2.2.2.2.2.2.2.2.2.2.2.2.2.2.2.2.2.2.2.2.2.2.2.2.2.1

@[simp]
theorem svcModeChange_fr_m_cycleTimer (s : HVACState) : (svcModeChange s).m_cycleTimer = s.m_cycleTimer :=
  (svcModeChange_frame s).2.2.2.2.2.2.2.2.2.2.2.2.2.2.2.2.2.2.2.2.2.2.2.2.2.2.2.2.2.2.2.2.1

@[simp]
theorem svcModeChange_fr_m_fanPostTimer (s : HVACState) : (svcModeChange s).m_fanPostTimer = s.m_fanPostTimer :=
  (svcModeChange_frame s).2.2.2.2.2.2.2.2.2.2.2.2.2.2.2.2.2.2.2.2.2.2.2.2.2.2.2.2.2.2.2.2.2.1

@[simp]
theorem svcModeChange_fr_m_overrideTimer (s : HVACState) : (svcModeChange s).m_overrideTimer = s.m_overrideTimer :=
  (svcModeChange_frame s).2.2.2.2.2.2.2.2.2.2.2.2.2.2.2.2.2.2.2.2.2.2.2.2.2.2.2.2.2.2.2.2.2.2.1

@[simp]
theorem svcModeChange_fr_m_ovrTemp (s : HVACState) : (svcModeChange s).m_ovrTemp = s.m_ovrTemp :=
  (svcModeChange_frame s).2.2.2.2.2.2.2.2.2.2.2.2.2.2.2.2.2.2.2.2.2.2.2.2.2.2.2.2.2.2.2.2.2.2.2.1

@[simp]
theorem svcModeChange_fr_m_remoteTimer (s : HVACState) : (svcModeChange s).m_remoteTimer = s.m_remoteTimer :=
  (svcModeChange_frame s).2.2.2.2.2.2.2.2.2.2.2.2.2.2.2.2.2.2.2.2.2.2.2.2.2.2.2.2.2.2.2.2.2.2.2.2.1

@[simp]
theorem svcModeChange_fr_m_remoteTimeout (s : HVACState) : (svcModeChange s).m_remoteTimeout = s.m_remoteTimeout :=
  (svcModeChange_frame s).2.2.2.2.2.2.2.2.2.2.2.2.2.2.2.2.2.2.2.2.2.2.2.2.2.2.2.2.2.2.2.2.2.2.2.2.2.1

@[simp]
theorem svcModeChange_fr_m_furnaceFan (s : HVACState) : (svcModeChange s).m_furnaceFan = s.m_furnaceFan :=
  (svcModeChange_frame s).2.2.2.2.2.2.2.2.2.2.2.2.2.2.2.2.2.2.2.2.2.2.2.2.2.2.2.2.2.2.2.2.2.2.2.2.2.2.1

@[simp]
theorem svcModeChange_fr_m_notif (s : HVACState) : (svcModeChange s).m_notif = s.m_notif :=
  (svcModeChange_frame s).2.2.2.2.2.2.2.2.2.2.2.2.2.2.2.2.2.2.2.2.2.2.2.2.2.2.2.2.2.2.2.2.2.2.2.2.2.2.2.1

@[simp]
theorem svcModeChange_fr_m_idleTimer (s : HVACState) : (svcModeChange s).m_idleTimer = s.m_idleTimer :=
  (svcModeChange_frame s).2.2.2.2.2.2.2.2.2.2.2.2.2.2.2.2.2.2.2.2.2.2.2.2.2.2.2.2.2.2.2.2.2.2.2.2.2.2.2.2.1

@[simp]
theorem svcModeChange_fr_nSecs (s : HVACState) : (svcModeChange s).nSecs = s.nSecs :=
  (svcModeChange_frame s).2.2.2.2.2.2.2.2.2.2.2.2.2.2.2.2.2.2.2.2.2.2.2.2.2.2.2.2.2.2.2.2.2.2.2.2.2.2.2.2.2.1

@[simp]
theorem svcModeChange_fr_pFan (s : HVACState) : (svcModeChange s).pFan = s.pFan :=
  (svcModeChange_frame s).2.2.2.2.2.2.2.2.2.2.2.2.2.2.2.2.2.2.2.2.2.2.2.2.2.2.2.2.2.2.2.2.2.2.2.2.2.2.2.2.2.2.1

@[simp]
theorem svcModeChange_fr_pCool (s : HVACState) : (svcModeChange s).pCool = s.pCool :=
  (svcModeChange_frame s).2.2.2.2.2.2.2.2.2.2.2.2.2.2.2.2.2.2.2.2.2.2.2.2.2.2.2.2.2.2.2.2.2.2.2.2.2.2.2.2.2.2.2.1

@[simp]
theorem svcModeChange_fr_pHeat (s : HVACState) : (svcModeChange s).pHeat = s.pHeat :=
  (svcModeChange_frame s).2.2.2.2.2.2.2.2.2.2.2.2.2.2.2.2.2.2.2.2.2.2.2.2.2.2.2.2.2.2.2.2.2.2.2.2.2.2.2.2.2.2.2.2

theorem svcStart_frame (s : HVACState) :
    (svcStart s).cycleMin = s.cycleMin ∧
    (svcStart s).cycleMax = s.cycleMax ∧
    (svcStart s).idleMin = s.idleMin ∧
    (svcStart s).cycleThresh = s.cycleThresh ∧
    (svcStart s).coolTemp0 = s.coolTemp0 ∧
    (svcStart s).coolTemp1 = s.coolTemp1 ∧
    (svcStart s).heatTemp0 = s.heatTemp0 ∧
    (svcStart s).heatTemp1 = s.heatTemp1 ∧
    (svcStart s).eHeatThresh = s.eHeatThresh ∧
    (svcStart s).fanPostDelay0 = s.fanPostDelay0 ∧
    (svcStart s).fanPostDelay1 = s.fanPostDelay1 ∧
    (svcStart s).overrideTime = s.overrideTime ∧
    (svcStart s).filterMinutes = s.filterMinutes ∧
    (svcStart s).Mode = s.Mode ∧
    (svcStart s).heatMode = s.heatMode ∧
    (svcStart s).m_outTemp = s.m_outTemp ∧
    (svcStart s).m_inTemp = s.m_inTemp ∧
    (svcStart s).m_rh = s.m_rh ∧
    (svcStart s).m_outMin0 = s.m_outMin0 ∧
    (svcStart s).m_outMin1 = s.m_outMin1 ∧
    (svcStart s).m_outMax0 = s.m_outMax0 ∧
    (svcStart s).m_outMax1 = s.m_outMax1 ∧
    (svcStart s).m_bFanMode = s.m_bFanMode ∧
    (svcStart s).m_AutoMode = s.m_AutoMode ∧
    (svcStart s).m_setMode = s.m_setMode ∧
    (svcStart s).m_setHeat = s.m_setHeat ∧
    (svcStart s).m_AutoHeat = s.m_AutoHeat ∧
    (svcStart s).m_bStop = s.m_bStop ∧
    (svcStart s).m_bRecheck = s.m_bRecheck ∧
    (svcStart s).m_bEnabled = s.m_bEnabled ∧
    (svcStart s).m_runTotal = s.m_runTotal ∧
    (svcStart s).m_fanPostTimer = s.m_fanPostTimer ∧
    (svcStart s).m_overrideTimer = s.m_overrideTimer ∧
    (svcStart s).m_ovrTemp = s.m_ovrTemp ∧
    (svcStart s).m_remoteTimer = s.m_remoteTimer ∧
    (svcStart s).m_remoteTimeout = s.m_remoteTimeout ∧
    (svcStart s).m_furnaceFan = s.m_furnaceFan ∧
    (svcStart s).m_notif = s.m_notif ∧
    (svcStart s).m_idleTimer = s.m_idleTimer ∧
    (svcStart s).m_targetTemp = s.m_targetTemp ∧
    (svcStart s).nSecs = s.nSecs := by
  unfold svcStart
  try dsimp only
  split_ifs <;> simp [fanPostDelayAt]

@[simp]
theorem svcStart_fr_cycleMin (s : HVACState) : (svcStart s).cycleMin = s.cycleMin :=
  (svcStart_frame s).1

@[simp]
theorem svcStart_fr_cycleMax (s : HVACState) : (svcStart s).cycleMax = s.cycleMax :=
  (svcStart_frame s).2.1

@[simp]
theorem svcStart_fr_idleMin (s : HVACState) : (svcStart s).idleMin = s.idleMin :=
  (svcStart_frame s).2.2.1

@[simp]
theorem svcStart_fr_cycleThresh (s : HVACState) : (svcStart s).cycleThresh = s.cycleThresh :=
  (svcStart_frame s).2.2.2.1

@[simp]
theorem svcStart_fr_coolTemp0 (s : HVACState) : (svcStart s).coolTemp0 = s.coolTemp0 :=
  (svcStart_frame s).2.2.2.2.1

@[simp]
theorem svcStart_fr_coolTemp1 (s : HVACState) : (svcStart s).coolTemp1 = s.coolTemp1 :=
  (svcStart_frame s).2.2.2.2.2.1

@[simp]
theorem svcStart_fr_heatTemp0 (s : HVACState) : (svcStart s).heatTemp0 = s.heatTemp0 :=
  (svcStart_frame s).2.2.2.2.2.2.1

@[simp]
theorem svcStart_fr_heatTemp1 (s : HVACState) : (svcStart s).heatTemp1 = s.heatTemp1 :=
  (svcStart_frame s).2.2.2.2.2.2.2.1

@[simp]
theorem svcStart_fr_eHeatThresh (s : HVACState) : (svcStart s).eHeatThresh = s.eHeatThresh :=
  (svcStart_frame s).2.2.2.2.2.2.2.2.1

@[simp]
theorem svcStart_fr_fanPostDelay0 (s : HVACState) : (svcStart s).fanPostDelay0 = s.fanPostDelay0 :=
  (svcStart_frame s).2.2.2.2.2.2.2.2.2.1

@[simp]
theorem svcStart_fr_fanPostDelay1 (s : HVACState) : (svcStart s).fanPostDelay1 = s.fanPostDelay1 :=
  (svcStart_frame s).2.2.2.2.2.2.2.2.2.2.1

@[simp]
theorem svcStart_fr_overrideTime (s : HVACState) : (svcStart s).overrideTime = s.overrideTime :=
  (svcStart_frame s).2.2.2.2.2.2.2.2.2.2.2.1

@[simp]
theorem svcStart_fr_filterMinutes (s : HVACState) : (svcStart s).filterMinutes = s.filterMinutes :=
  (svcStart_frame s).2.2.2.2.2.2.2.2.2.2.2.2.1

@[simp]
theorem svcStart_fr_Mode (s : HVACState) : (svcStart s).Mode = s.Mode :=
  (svcStart_frame s).2.2.2.2.2.2.2.2.2.2.2.2.2.1

@[simp]
theorem svcStart_fr_heatMode (s : HVACState) : (svcStart s).heatMode = s.heatMode :=
  (svcStart_frame s).2.2.2.2.2.2.2.2.2.2.2.2.2.2.1

@[simp]
theorem svcStart_fr_m_outTemp (s : HVACState) : (svcStart s).m_outTemp = s.m_outTemp :=
  (svcStart_frame s).2.2.2.2.2.2.2.2.2.2.2.2.2.2.2.1

@[simp]
theorem svcStart_fr_m_inTemp (s : HVACState) : (svcStart s).m_inTemp = s.m_inTemp :=
  (svcStart_frame s).2.2.2.2.2.2.2.2.2.2.2.2.2.2.2.2.1

@[simp]
theorem svcStart_fr_m_rh (s : HVACState) : (svcStart s).m_rh = s.m_rh :=
  (svcStart_frame s).2.2.2.2.2.2.2.2.2.2.2.2.2.2.2.2.2.1

@[simp]
theorem svcStart_fr_m_outMin0 (s : HVACState) : (svcStart s).m_outMin0 = s.m_outMin0 :=
  (svcStart_frame s).2.2.2.2.2.2.2.2.2.2.2.2.2.2.2.2.2.2.1

@[simp]
theorem svcStart_fr_m_outMin1 (s : HVACState) : (svcStart s).m_outMin1 = s.m_outMin1 :=
  (svcStart_frame s).2.2.2.2.2.2.2.2.2.2.2.2.2.2.2.2.2.2.2.1

@[simp]
theorem svcStart_fr_m_outMax0 (s : HVACState) : (svcStart s).m_outMax0 = s.m_outMax0 :=
  (svcStart_frame s).2.2.2.2.2.2.2.2.2.2.2.2.2.2.2.2.2.2.2.2.1

@[simp]
theorem svcStart_fr_m_outMax1 (s : HVACState) : (svcStart s).m_outMax1 = s.m_outMax1 :=
  (svcStart_frame s).2.2.2.2.2.2.2.2.2.2.2.2.2.2.2.2.2.2.2.2.2.1

@[simp]
theorem svcStart_fr_m_bFanMode (s : HVACState) : (svcStart s).m_bFanMode = s.m_bFanMode :=
  (svcStart_frame s).2.2.2.2.2.2.2.2.2.2.2.2.2.2.2.2.2.2.2.2.2.2.1

@[simp]
theorem svcStart_fr_m_AutoMode (s : HVACState) : (svcStart s).m_AutoMode = s.m_AutoMode :=
  (svcStart_frame s).2.2.2.2.2.2.2.2.2.2.2.2.2.2.2.2.2.2.2.2.2.2.2.1

@[simp]
theorem svcStart_fr_m_setMode (s : HVACState) : (svcStart s).m_setMode = s.m_setMode :=
  (svcStart_frame s).2.2.2.2.2.2.2.2.2.2.2.2.2.2.2.2.2.2.2.2.2.2.2.2.1

@[simp]
theorem svcStart_fr_m_setHeat (s : HVACState) : (svcStart s).m_setHeat = s.m_setHeat :=
  (svcStart_frame s).2.2.2.2.2.2.2.2.2.2.2.2.2.2.2.2.2.2.2.2.2.2.2.2.2.1

@[simp]
theorem svcStart_fr_m_AutoHeat (s : HVACState) : (svcStart s).m_AutoHeat = s.m_AutoHeat :=
  (svcStart_frame s).2.2.2.2.2.2.2.2.2.2.2.2.2.2.2.2.2.2.2.2.2.2.2.2.2.2.1

@[simp]
theorem svcStart_fr_m_bStop (s : HVACState) : (svcStart s).m_bStop = s.m_bStop :=
  (svcStart_frame s).2.2.2.2.2.2.2.2.2.2.2.2.2.2.2.2.2.2.2.2.2.2.2.2.2.2.2.1

@[simp]
theorem svcStart_fr_m_bRecheck (s : HVACState) : (svcStart s).m_bRecheck = s.m_bRecheck :=
  (svcStart_frame s).2.2.2.2.2.2.2.2.2.2.2.2.2.2.2.2.2.2.2.2.2.2.2.2.2.2.2.2.1

@[simp]
theorem svcStart_fr_m_bEnabled (s : HVACState) : (svcStart s).m_bEnabled = s.m_bEnabled :=
  (svcStart_frame s).2.2.2.2.2.2.2.2.2.2.2.2.2.2.2.2.2.2.2.2.2.2.2.2.2.2.2.2.2.1

@[simp]
theorem svcStart_fr_m_runTotal (s : HVACState) : (svcStart s).m_runTotal = s.m_runTotal :=
  (svcStart_frame s).2.2.2.2.2.2.2.2.2.2.2.2.2.2.2.2.2.2.2.2.2.2.2.2.2.2.2.2.2.2.1

@[simp]
theorem svcStart_fr_m_fanPostTimer (s : HVACState) : (svcStart s).m_fanPostTimer = s.m_fanPostTimer :=
  (svcStart_frame s).2.2.2.2.2.2.2.2.2.2.2.2.2.2.2.2.2.2.2.2.2.2.2.2.2.2.2.2.2.2.2.1

@[simp]
theorem svcStart_fr_m_overrideTimer (s : HVACState) : (svcStart s).m_overrideTimer = s.m_overrideTimer :=
  (svcStart_frame s).2.2.2.2.2.2.2.2.2.2.2.2.2.2.2.2.2.2.2.2.2.2.2.2.2.2.2.2.2.2.2.2.1

@[simp]
theorem svcStart_fr_m_ovrTemp (s : HVACState) : (svcStart s).m_ovrTemp = s.m_ovrTemp :=
  (svcStart_frame s).2.2.2.2.2.2.2.2.2.2.2.2.2.2.2.2.2.2.2.2.2.2.2.2.2.2.2.2.2.2.2.2.2.1

@[simp]
theorem svcStart_fr_m_remoteTimer (s : HVACState) : (svcStart s).m_remoteTimer = s.m_remoteTimer :=
  (svcStart_frame s).2.2.2.2.2.2.2.2.2.2.2.2.2.2.2.2.2.2.2.2.2.2.2.2.2.2.2.2.2.2.2.2.2.2.1

@[simp]
theorem svcStart_fr_m_remoteTimeout (s : HVACState) : (svcStart s).m_remoteTimeout = s.m_remoteTimeout :=
  (svcStart_frame s).2.2.2.2.2.2.2.2.2.2.2.2.2.2.2.2.2.2.2.2.2.2.2.2.2.2.2.2.2.2.2.2.2.2.2.1

@[simp]
theorem svcStart_fr_m_furnaceFan (s : HVACState) : (svcStart s).m_furnaceFan = s.m_furnaceFan :=
  (svcStart_frame s).2.2.2.2.2.2.2.2.2.2.2.2.2.2.2.2.2.2.2.2.2.2.2.2.2.2.2.2.2.2.2.2.2.2.2.2.1

@[simp]
theorem svcStart_fr_m_notif (s : HVACState) : (svcStart s).m_notif = s.m_notif :=
  (svcStart_frame s).2.2.2.2.2.2.2.2.2.2.2.2.2.2.2.2.2.2.2.2.2.2.2.2.2.2.2.2.2.2.2.2.2.2.2.2.2.1

@[simp]
theorem svcStart_fr_m_idleTimer (s : HVACState) : (svcStart s).m_idleTimer = s.m_idleTimer :=
  (svcStart_frame s).2.2.2.2.2.2.2.2.2.2.2.2.2.2.2.2.2.2.2.2.2.2.2.2.2.2.2.2.2.2.2.2.2.2.2.2.2.2.1

@[simp]
theorem svcStart_fr_m_targetTemp (s : HVACState) : (svcStart s).m_targetTemp = s.m_targetTemp :=
  (svcStart_frame s).2.2.2.2.2.2.2.2.2.2.2.2.2.2.2.2.2.2.2.2.2.2.2.2.2.2.2.2.2.2.2.2.2.2.2.2.2.2.2.1

@[simp]
theorem svcStart_fr_nSecs (s : HVACState) : (svcStart s).nSecs = s.nSecs :=
  (svcStart_frame s).2.2.2.2.2.2.2.2.2.2.2.2.2.2.2.2.2.2.2.2.2.2.2.2.2.2.2.2.2.2.2.2.2.2.2.2.2.2.2.2

theorem svcStop_frame (s : HVACState) :
    (svcStop s).cycleMin = s.cycleMin ∧
    (svcStop s).cycleMax = s.cycleMax ∧
    (svcStop s).idleMin = s.idleMin ∧
    (svcStop s).cycleThresh = s.cycleThresh ∧
    (svcStop s).coolTemp0 = s.coolTemp0 ∧
    (svcStop s).coolTemp1 = s.coolTemp1 ∧
    (svcStop s).heatTemp0 = s.heatTemp0 ∧
    (svcStop s).heatTemp1 = s.heatTemp1 ∧
    (svcStop s).eHeatThresh = s.eHeatThresh ∧
    (svcStop s).fanPostDelay0 = s.fanPostDelay0 ∧
    (svcStop s).fanPostDelay1 = s.fanPostDelay1 ∧
    (svcStop s).overrideTime = s.overrideTime ∧
    (svcStop s).filterMinutes = s.filterMinutes ∧
    (svcStop s).Mode = s.Mode ∧
    (svcStop s).heatMode = s.heatMode ∧
    (svcStop s).m_outTemp = s.m_outTemp ∧
    (svcStop s).m_inTemp = s.m_inTemp ∧
    (svcStop s).m_rh = s.m_rh ∧
    (svcStop s).m_outMin0 = s.m_outMin0 ∧
    (svcStop s).m_outMin1 = s.m_outMin1 ∧
    (svcStop s).m_outMax0 = s.m_outMax0 ∧
    (svcStop s).m_outMax1 = s.m_outMax1 ∧
    (svcStop s).m_bFanMode = s.m_bFanMode ∧
    (svcStop s).m_AutoMode = s.m_AutoMode ∧
    (svcStop s).m_setMode = s.m_setMode ∧
    (svcStop s).m_setHeat = s.m_setHeat ∧
    (svcStop s).m_AutoHeat = s.m_AutoHeat ∧
    (svcStop s).m_bStart = s.m_bStart ∧
    (svcStop s).m_bRecheck = s.m_bRecheck ∧
    (svcStop s).m_bEnabled = s.m_bEnabled ∧
    (svcStop s).m_runTotal = s.m_runTotal ∧
    (svcStop s).m_fanOnTimer = s.m_fanOnTimer ∧
    (svcStop s).m_cycleTimer = s.m_cycleTimer ∧
    (svcStop s).m_overrideTimer = s.m_overrideTimer ∧
    (svcStop s).m_ovrTemp = s.m_ovrTemp ∧
    (svcStop s).m_remoteTimer = s.m_remoteTimer ∧
    (svcStop s).m_remoteTimeout = s.m_remoteTimeout ∧
    (svcStop s).m_notif = s.m_notif ∧
    (svcStop s).m_targetTemp = s.m_targetTemp ∧
    (svcStop s).nSecs = s.nSecs ∧
    (svcStop s).pRev = s.pRev := by
  unfold svcStop
  try dsimp only
  split_ifs <;> simp [fanPostDelayAt]

@[simp]
theorem svcStop_fr_cycleMin (s : HVACState) : (svcStop s).cycleMin = s.cycleMin :=
  (svcStop_frame s).1

@[simp]
theorem svcStop_fr_cycleMax (s : HVACState) : (svcStop s).cycleMax = s.cycleMax :=
  (svcStop_frame s).2.1

@[simp]
theorem svcStop_fr_idleMin (s : HVACState) : (svcStop s).idleMin = s.idleMin :=
  (svcStop_frame s).2.2.1

@[simp]
theorem svcStop_fr_cycleThresh (s : HVACState) : (svcStop s).cycleThresh = s.cycleThresh :=
  (svcStop_frame s).2.2.2.1

@[simp]
theorem svcStop_fr_coolTemp0 (s : HVACState) : (svcStop s).coolTemp0 = s.coolTemp0 :=
  (svcStop_frame s).2.2.2.2.1

@[simp]
theorem svcStop_fr_coolTemp1 (s : HVACState) : (svcStop s).coolTemp1 = s.coolTemp1 :=
  (svcStop_frame s).2.2.2.2.2.1

@[simp]
theorem svcStop_fr_heatTemp0 (s : HVACState) : (svcStop s).heatTemp0 = s.heatTemp0 :=
  (svcStop_frame s).2.2.2.2.2.2.1

@[simp]
theorem svcStop_fr_heatTemp1 (s : HVACState) : (svcStop s).heatTemp1 = s.heatTemp1 :=
  (svcStop_frame s).2.2.2.2.2.2.2.1

@[simp]
theorem svcStop_fr_eHeatThresh (s : HVACState) : (svcStop s).eHeatThresh = s.eHeatThresh :=
  (svcStop_frame s).2.2.2.2.2.2.2.2.1

@[simp]
theorem svcStop_fr_fanPostDelay0 (s : HVACState) : (svcStop s).fanPostDelay0 = s.fanPostDelay0 :=
  (svcStop_frame s).2.2.2.2.2.2.2.2.2.1

@[simp]
theorem svcStop_fr_fanPostDelay1 (s : HVACState) : (svcStop s).fanPostDelay1 = s.fanPostDelay1 :=
  (svcStop_frame s).2.2.2.2.2.2.2.2.2.2.1

@[simp]
theorem svcStop_fr_overrideTime (s : HVACState) : (svcStop s).overrideTime = s.overrideTime :=
  (svcStop_frame s).2.2.2.2.2.2.2.2.2.2.2.1

@[simp]
theorem svcStop_fr_filterMinutes (s : HVACState) : (svcStop s).filterMinutes = s.filterMinutes :=
  (svcStop_frame s).2.2.2.2.2.2.2.2.2.2.2.2.1

@[simp]
theorem svcStop_fr_Mode (s : HVACState) : (svcStop s).Mode = s.Mode :=
  (svcStop_frame s).2.2.2.2.2.2.2.2.2.2.2.2.2.1

@[simp]
theorem svcStop_fr_heatMode (s : HVACState) : (svcStop s).heatMode = s.heatMode :=
  (svcStop_frame s).2.2.2.2.2.2.2.2.2.2.2.2.2.2.1

@[simp]
theorem svcStop_fr_m_outTemp (s : HVACState) : (svcStop s).m_outTemp = s.m_outTemp :=
  (svcStop_frame s).2.2.2.2.2.2.2.2.2.2.2.2.2.2.2.1

@[simp]
theorem svcStop_fr_m_inTemp (s : HVACState) : (svcStop s).m_inTemp = s.m_inTemp :=
  (svcStop_frame s).2.2.2.2.2.2.2.2.2.2.2.2.2.2.2.2.1

@[simp]
theorem svcStop_fr_m_rh (s : HVACState) : (svcStop s).m_rh = s.m_rh :=
  (svcStop_frame s).2.2.2.2.2.2.2.2.2.2.2.2.2.2.2.2.2.1

@[simp]
theorem svcStop_fr_m_outMin0 (s : HVACState) : (svcStop s).m_outMin0 = s.m_outMin0 :=
  (svcStop_frame s).2.2.2.2.2.2.2.2.2.2.2.2.2.2.2.2.2.2.1

@[simp]
theorem svcStop_fr_m_outMin1 (s : HVACState) : (svcStop s).m_outMin1 = s.m_outMin1 :=
  (svcStop_frame s).2.2.2.2.2.2.2.2.2.2.2.2.2.2.2.2.2.2.2.1

@[simp]
theorem svcStop_fr_m_outMax0 (s : HVACState) : (svcStop s).m_outMax0 = s.m_outMax0 :=
  (svcStop_frame s).2.2.2.2.2.2.2.2.2.2.2.2.2.2.2.2.2.2.2.2.1

@[simp]
theorem svcStop_fr_m_outMax1 (s : HVACState) : (svcStop s).m_outMax1 = s.m_outMax1 :=
  (svcStop_frame s).2.2.2.2.2.2.2.2.2.2.2.2.2.2.2.2.2.2.2.2.2.1

@[simp]
theorem svcStop_fr_m_bFanMode (s : HVACState) : (svcStop s).m_bFanMode = s.m_bFanMode :=
  (svcStop_frame s).2.2.2.2.2.2.2.2.2.2.2.2.2.2.2.2.2.2.2.2.2.2.1

@[simp]
theorem svcStop_fr_m_AutoMode (s : HVACState) : (svcStop s).m_AutoMode = s.m_AutoMode :=
  (svcStop_frame s).2.2.2.2.2.2.2.2.2.2.2.2.2.2.2.2.2.2.2.2.2.2.2.1

@[simp]
theorem svcStop_fr_m_setMode (s : HVACState) : (svcStop s).m_setMode = s.m_setMode :=
  (svcStop_frame s).2.2.2.2.2.2.2.2.2.2.2.2.2.2.2.2.2.2.2.2.2.2.2.2.1

@[simp]
theorem svcStop_fr_m_setHeat (s : HVACState) : (svcStop s).m_setHeat = s.m_setHeat :=
  (svcStop_frame s).2.2.2.2.2.2.2.2.2.2.2.2.2.2.2.2.2.2.2.2.2.2.2.2.2.1

@[simp]
theorem svcStop_fr_m_AutoHeat (s : HVACState) : (svcStop s).m_AutoHeat = s.m_AutoHeat :=
  (svcStop_frame s).2.2.2.2.2.2.2.2.2.2.2.2.2.2.2.2.2.2.2.2.2.2.2.2.2.2.1

@[simp]
theorem svcStop_fr_m_bStart (s : HVACState) : (svcStop s).m_bStart = s.m_bStart :=
  (svcStop_frame s).2.2.2.2.2.2.2.2.2.2.2.2.2.2.2.2.2.2.2.2.2.2.2.2.2.2.2.1

@[simp]
theorem svcStop_fr_m_bRecheck (s : HVACState) : (svcStop s).m_bRecheck = s.m_bRecheck :=
  (svcStop_frame s).2.2.2.2.2.2.2.2.2.2.2.2.2.2.2.2.2.2.2.2.2.2.2.2.2.2.2.2.1

@[simp]
theorem svcStop_fr_m_bEnabled (s : HVACState) : (svcStop s).m_bEnabled = s.m_bEnabled :=
  (svcStop_frame s).2.2.2.2.2.2.2.2.2.2.2.2.2.2.2.2.2.2.2.2.2.2.2.2.2.2.2.2.2.1

@[simp]
theorem svcStop_fr_m_runTotal (s : HVACState) : (svcStop s).m_runTotal = s.m_runTotal :=
  (svcStop_frame s).2.2.2.2.2.2.2.2.2.2.2.2.2.2.2.2.2.2.2.2.2.2.2.2.2.2.2.2.2.2.1

@[simp]
theorem svcStop_fr_m_fanOnTimer (s : HVACState) : (svcStop s).m_fanOnTimer = s.m_fanOnTimer :=
  (svcStop_frame s).2.2.2.2.2.2.2.2.2.2.2.2.2.2.2.2.2.2.2.2.2.2.2.2.2.2.2.2.2.2.2.1

@[simp]
theorem svcStop_fr_m_cycleTimer (s : HVACState) : (svcStop s).m_cycleTimer = s.m_cycleTimer :=
  (svcStop_frame s).2.2.2.2.2.2.2.2.2.2.2.2.2.2.2.2.2.2.2.2.2.2.2.2.2.2.2.2.2.2.2.2.1

@[simp]
theorem svcStop_fr_m_overrideTimer (s : HVACState) : (svcStop s).m_overrideTimer = s.m_overrideTimer :=
  (svcStop_frame s).2.2.2.2.2.2.2.2.2.2.2.2.2.2.2.2.2.2.2.2.2.2.2.2.2.2.2.2.2.2.2.2.2.1

@[simp]
theorem svcStop_fr_m_ovrTemp (s : HVACState) : (svcStop s).m_ovrTemp = s.m_ovrTemp :=
  (svcStop_frame s).2.2.2.2.2.2.2.2.2.2.2.2.2.2.2.2.2.2.2.2.2.2.2.2.2.2.2.2.2.2.2.2.2.2.1

@[simp]
theorem svcStop_fr_m_remoteTimer (s : HVACState) : (svcStop s).m_remoteTimer = s.m_remoteTimer :=
  (svcStop_frame s).2.2.2.2.2.2.2.2.2.2.2.2.2.2.2.2.2.2.2.2.2.2.2.2.2.2.2.2.2.2.2.2.2.2.2.1

@[simp]
theorem svcStop_fr_m_remoteTimeout (s : HVACState) : (svcStop s).m_remoteTimeout = s.m_remoteTimeout :=
  (svcStop_frame s).2.2.2.2.2.2.2.2.2.2.2.2.2.2.2.2.2.2.2.2.2.2.2.2.2.2.2.2.2.2.2.2.2.2.2.2.1

@[simp]
theorem svcStop_fr_m_notif (s : HVACState) : (svcStop s).m_notif = s.m_notif :=
  (svcStop_frame s).2.2.2.2.2.2.2.2.2.2.2.2.2.2.2.2.2.2.2.2.2.2.2.2.2.2.2.2.2.2.2.2.2.2.2.2.2.1

@[simp]
theorem svcStop_fr_m_targetTemp (s : HVACState) : (svcStop s).m_targetTemp = s.m_targetTemp :=
  (svcStop_frame s).2.2.2.2.2.2.2.2.2.2.2.2.2.2.2.2.2.2.2.2.2.2.2.2.2.2.2.2.2.2.2.2.2.2.2.2.2.2.1

@[simp]
theorem svcStop_fr_nSecs (s : HVACState) : (svcStop s).nSecs = s.nSecs :=
  (svcStop_frame s).2.2.2.2.2.2.2.2.2.2.2.2.2.2.2.2.2.2.2.2.2.2.2.2.2.2.2.2.2.2.2.2.2.2.2.2.2.2.2.1

@[simp]
theorem svcStop_fr_pRev (s : HVACState) : (svcStop s).pRev = s.pRev :=
  (svcStop_frame s).2.2.2.2.2.2.2.2.2.2.2.2.2.2.2.2.2.2.2.2.2.2.2.2.2.2.2.2.2.2.2.2.2.2.2.2.2.2.2.2

theorem tcStopCheck_frame (s : HVACState) (m : Int) :
    (tcStopCheck s m).cycleMin = s.cycleMin ∧
    (tcStopCheck s m).cycleMax = s.cycleMax ∧
    (tcStopCheck s m).idleMin = s.idleMin ∧
    (tcStopCheck s m).cycleThresh = s.cycleThresh ∧
    (tcStopCheck s m).coolTemp0 = s.coolTemp0 ∧
    (tcStopCheck s m).coolTemp1 = s.coolTemp1 ∧
    (tcStopCheck s m).heatTemp0 = s.heatTemp0 ∧
    (tcStopCheck s m).heatTemp1 = s.heatTemp1 ∧
    (tcStopCheck s m).eHeatThresh = s.eHeatThresh ∧
    (tcStopCheck s m).fanPostDelay0 = s.fanPostDelay0 ∧
    (tcStopCheck s m).fanPostDelay1 = s.fanPostDelay1 ∧
    (tcStopCheck s m).overrideTime = s.overrideTime ∧
    (tcStopCheck s m).filterMinutes = s.filterMinutes ∧
    (tcStopCheck s m).Mode = s.Mode ∧
    (tcStopCheck s m).heatMode = s.heatMode ∧
    (tcStopCheck s m).m_outTemp = s.m_outTemp ∧
    (tcStopCheck s m).m_inTemp = s.m_inTemp ∧
    (tcStopCheck s m).m_rh = s.m_rh ∧
    (tcStopCheck s m).m_bFanRunning = s.m_bFanRunning ∧
    (tcStopCheck s m).m_outMin0 = s.m_outMin0 ∧
    (tcStopCheck s m).m_outMin1 = s.m_outMin1 ∧
    (tcStopCheck s m).m_outMax0 = s.m_outMax0 ∧
    (tcStopCheck s m).m_outMax1 = s.m_outMax1 ∧
    (tcStopCheck s m).m_bFanMode = s.m_bFanMode ∧
    (tcStopCheck s m).m_AutoMode = s.m_AutoMode ∧
    (tcStopCheck s m).m_setMode = s.m_setMode ∧
    (tcStopCheck s m).m_setHeat = s.m_setHeat ∧
    (tcStopCheck s m).m_AutoHeat = s.m_AutoHeat ∧
    (tcStopCheck s m).m_bRunning = s.m_bRunning ∧
    (tcStopCheck s m).m_bStart = s.m_bStart ∧
    (tcStopCheck s m).m_bRecheck = s.m_bRecheck ∧
    (tcStopCheck s m).m_bEnabled = s.m_bEnabled ∧
    (tcStopCheck s m).m_runTotal = s.m_runTotal ∧
    (tcStopCheck s m).m_fanOnTimer = s.m_fanOnTimer ∧
    (tcStopCheck s m).m_cycleTimer = s.m_cycleTimer ∧
    (tcStopCheck s m).m_fanPostTimer = s.m_fanPostTimer ∧
    (tcStopCheck s m).m_overrideTimer = s.m_overrideTimer ∧
    (tcStopCheck s m).m_ovrTemp = s.m_ovrTemp ∧
    (tcStopCheck s m).m_remoteTimer = s.m_remoteTimer ∧
    (tcStopCheck s m).m_remoteTimeout = s.m_remoteTimeout ∧
    (tcStopCheck s m).m_furnaceFan = s.m_furnaceFan ∧
    (tcStopCheck s m).m_notif = s.m_notif ∧
    (tcStopCheck s m).m_idleTimer = s.m_idleTimer ∧
    (tcStopCheck s m).m_targetTemp = s.m_targetTemp ∧
    (tcStopCheck s m).nSecs = s.nSecs ∧
    (tcStopCheck s m).pFan = s.pFan ∧
    (tcStopCheck s m).pCool = s.pCool ∧
    (tcStopCheck s m).pRev = s.pRev ∧
    (tcStopCheck s m).pHeat = s.pHeat := by
  unfold tcStopCheck
  try dsimp only
  split_ifs <;> simp [fanPostDelayAt]

@[simp]
theorem tcStopCheck_fr_cycleMin (s : HVACState) (m : Int) : (tcStopCheck s m).cycleMin = s.cycleMin :=
  (tcStopCheck_frame s m).1

@[simp]
theorem tcStopCheck_fr_cycleMax (s : HVACState) (m : Int) : (tcStopCheck s m).cycleMax = s.cycleMax :=
  (tcStopCheck_frame s m).2.1

@[simp]
theorem tcStopCheck_fr_idleMin (s : HVACState) (m : Int) : (tcStopCheck s m).idleMin = s.idleMin :=
  (tcStopCheck_frame s m).2.2.1

@[simp]
theorem tcStopCheck_fr_cycleThresh (s : HVACState) (m : Int) : (tcStopCheck s m).cycleThresh = s.cycleThresh :=
  (tcStopCheck_frame s m).2.2.2.1

@[simp]
theorem tcStopCheck_fr_coolTemp0 (s : HVACState) (m : Int) : (tcStopCheck s m).coolTemp0 = s.coolTemp0 :=
  (tcStopCheck_frame s m).2.2.2.2.1

@[simp]
theorem tcStopCheck_fr_coolTemp1 (s : HVACState) (m : Int) : (tcStopCheck s m).coolTemp1 = s.coolTemp1 :=
  (tcStopCheck_frame s m).2.2.2.2.2.1

@[simp]
theorem tcStopCheck_fr_heatTemp0 (s : HVACState) (m : Int) : (tcStopCheck s m).heatTemp0 = s.heatTemp0 :=
  (tcStopCheck_frame s m).2.2.2.2.2.2.1

@[simp]
theorem tcStopCheck_fr_heatTemp1 (s : HVACState) (m : Int) : (tcStopCheck s m).heatTemp1 = s.heatTemp1 :=
  (tcStopCheck_frame s m).2.2.2.2.2.2.2.1

@[simp]
theorem tcStopCheck_fr_eHeatThresh (s : HVACState) (m : Int) : (tcStopCheck s m).eHeatThresh = s.eHeatThresh :=
  (tcStopCheck_frame s m).2.2.2.2.2.2.2.2.1

@[simp]
theorem tcStopCheck_fr_fanPostDelay0 (s : HVACState) (m : Int) : (tcStopCheck s m).fanPostDelay0 = s.fanPostDelay0 :=
  (tcStopCheck_frame s m).2.2.2.2.2.2.2.2.2.1

@[simp]
theorem tcStopCheck_fr_fanPostDelay1 (s : HVACState) (m : Int) : (tcStopCheck s m).fanPostDelay1 = s.fanPostDelay1 :=
  (tcStopCheck_frame s m).2.2.2.2.2.2.2.2.2.2.1

@[simp]
theorem tcStopCheck_fr_overrideTime (s : HVACState) (m : Int) : (tcStopCheck s m).overrideTime = s.overrideTime :=
  (tcStopCheck_frame s m).2.2.2.2.2.2.2.2.2.2.2.1

@[simp]
theorem tcStopCheck_fr_filterMinutes (s : HVACState) (m : Int) : (tcStopCheck s m).filterMinutes = s.filterMinutes :=
  (tcStopCheck_frame s m).2.2.2.2.2.2.2.2.2.2.2.2.1

@[simp]
theorem tcStopCheck_fr_Mode (s : HVACState) (m : Int) : (tcStopCheck s m).Mode = s.Mode :=
  (tcStopCheck_frame s m).2.2.2.2.2.2.2.2.2.2.2.2.2.1

@[simp]
theorem tcStopCheck_fr_heatMode (s : HVACState) (m : Int) : (tcStopCheck s m).heatMode = s.heatMode :=
  (tcStopCheck_frame s m).2.2.2.2.2.2.2.2.2.2.2.2.2.2.1

@[simp]
theorem tcStopCheck_fr_m_outTemp (s : HVACState) (m : Int) : (tcStopCheck s m).m_outTemp = s.m_outTemp :=
  (tcStopCheck_frame s m).2.2.2.2.2.2.2.2.2.2.2.2.2.2.2.1

@[simp]
theorem tcStopCheck_fr_m_inTemp (s : HVACState) (m : Int) : (tcStopCheck s m).m_inTemp = s.m_inTemp :=
  (tcStopCheck_frame s m).2.2.2.2.2.2.2.2.2.2.2.2.2.2.2.2.1

@[simp]
theorem tcStopCheck_fr_m_rh (s : HVACState) (m : Int) : (tcStopCheck s m).m_rh = s.m_rh :=
  (tcStopCheck_frame s m).2.2.2.2.2.2.2.2.2.2.2.2.2.2.2.2.2.1

@[simp]
theorem tcStopCheck_fr_m_bFanRunning (s : HVACState) (m : Int) : (tcStopCheck s m).m_bFanRunning = s.m_bFanRunning :=
  (tcStopCheck_frame s m).2.2.2.2.2.2.2.2.2.2.2.2.2.2.2.2.2.2.1

@[simp]
theorem tcStopCheck_fr_m_outMin0 (s : HVACState) (m : Int) : (tcStopCheck s m).m_outMin0 = s.m_outMin0 :=
  (tcStopCheck_frame s m).2.2.2.2.2.2.2.2.2.2.2.2.2.2.2.2.2.2.2.1

@[simp]
theorem tcStopCheck_fr_m_outMin1 (s : HVACState) (m : Int) : (tcStopCheck s m).m_outMin1 = s.m_outMin1 :=
  (tcStopCheck_frame s m).2.2.2.2.2.2.2.2.2.2.2.2.2.2.2.2.2.2.2.2.1

@[simp]
theorem tcStopCheck_fr_m_outMax0 (s : HVACState) (m : Int) : (tcStopCheck s m).m_outMax0 = s.m_outMax0 :=
  (tcStopCheck_frame s m).2.2.2.2.2.2.2.2.2.2.2.2.2.2.2.2.2.2.2.2.2.1

@[simp]
theorem tcStopCheck_fr_m_outMax1 (s : HVACState) (m : Int) : (tcStopCheck s m).m_outMax1 = s.m_outMax1 :=
  (tcStopCheck_frame s m).2.2.2.2.2.2.2.2.2.2.2.2.2.2.2.2.2.2.2.2.2.2.1

@[simp]
theorem tcStopCheck_fr_m_bFanMode (s : HVACState) (m : Int) : (tcStopCheck s m).m_bFanMode = s.m_bFanMode :=
  (tcStopCheck_frame s m).2.2.2.2.2.2.2.2.2.2.2.2.2.2.2.2.2.2.2.2.2.2.2.1

@[simp]
theorem tcStopCheck_fr_m_AutoMode (s : HVACState) (m : Int) : (tcStopCheck s m).m_AutoMode = s.m_AutoMode :=
  (tcStopCheck_frame s m).2.2.2.2.2.2.2.2.2.2.2.2.2.2.2.2.2.2.2.2.2.2.2.2.1

@[simp]
theorem tcStopCheck_fr_m_setMode (s : HVACState) (m : Int) : (tcStopCheck s m).m_setMode = s.m_setMode :=
  (tcStopCheck_frame s m).2.2.2.2.2.2.2.2.2.2.2.2.2.2.2.2.2.2.2.2.2.2.2.2.2.1

@[simp]
theorem tcStopCheck_fr_m_setHeat (s : HVACState) (m : Int) : (tcStopCheck s m).m_setHeat = s.m_setHeat :=
  (tcStopCheck_frame s m).2.2.2.2.2.2.2.2.2.2.2.2.2.2.2.2.2.2.2.2.2.2.2.2.2.2.1

@[simp]
theorem tcStopCheck_fr_m_AutoHeat (s : HVACState) (m : Int) : (tcStopCheck s m).m_AutoHeat = s.m_AutoHeat :=
  (tcStopCheck_frame s m).2.2.2.2.2.2.2.2.2.2.2.2.2.2.2.2.2.2.2.2.2.2.2.2.2.2.2.1

@[simp]
theorem tcStopCheck_fr_m_bRunning (s : HVACState) (m : Int) : (tcStopCheck s m).m_bRunning = s.m_bRunning :=
  (tcStopCheck_frame s m).2.2.2.2.2.2.2.2.2.2.2.2.2.2.2.2.2.2.2.2.2.2.2.2.2.2.2.2.1

@[simp]
theorem tcStopCheck_fr_m_bStart (s : HVACState) (m : Int) : (tcStopCheck s m).m_bStart = s.m_bStart :=
  (tcStopCheck_frame s m).2.2.2.2.2.2.2.2.2.2.2.2.2.2.2.2.2.2.2.2.2.2.2.2.2.2.2.2.2.1

@[simp]
theorem tcStopCheck_fr_m_bRecheck (s : HVACState) (m : Int) : (tcStopCheck s m).m_bRecheck = s.m_bRecheck :=
  (tcStopCheck_frame s m).2.2.2.2.2.2.2.2.2.2.2.2.2.2.2.2.2.2.2.2.2.2.2.2.2.2.2.2.2.2.1

@[simp]
theorem tcStopCheck_fr_m_bEnabled (s : HVACState) (m : Int) : (tcStopCheck s m).m_bEnabled = s.m_bEnabled :=
  (tcStopCheck_frame s m).2.2.2.2.2.2.2.2.2.2.2.2.2.2.2.2.2.2.2.2.2.2.2.2.2.2.2.2.2.2.2.1

@[simp]
theorem tcStopCheck_fr_m_runTotal (s : HVACState) (m : Int) : (tcStopCheck s m).m_runTotal = s.m_runTotal :=
  (tcStopCheck_frame s m).2.2.2.2.2.2.2.2.2.2.2.2.2.2.2.2.2.2.2.2.2.2.2.2.2.2.2.2.2.2.2.2.1

@[simp]
theorem tcStopCheck_fr_m_fanOnTimer (s : HVACState) (m : Int) : (tcStopCheck s m).m_fanOnTimer = s.m_fanOnTimer :=
  (tcStopCheck_frame s m).2.2.2.2.2.2.2.2.2.2.2.2.2.2.2.2.2.2.2.2.2.2.2.2.2.2.2.2.2.2.2.2.2.1

@[simp]
theorem tcStopCheck_fr_m_cycleTimer (s : HVACState) (m : Int) : (tcStopCheck s m).m_cycleTimer = s.m_cycleTimer :=
  (tcStopCheck_frame s m).2.2.2.2.2.2.2.2.2.2.2.2.2.2.2.2.2.2.2.2.2.2.2.2.2.2.2.2.2.2.2.2.2.2.1

@[simp]
theorem tcStopCheck_fr_m_fanPostTimer (s : HVACState) (m : Int) : (tcStopCheck s m).m_fanPostTimer = s.m_fanPostTimer :=
  (tcStopCheck_frame s m).2.2.2.2.2.2.2.2.2.2.2.2.2.2.2.2.2.2.2.2.2.2.2.2.2.2.2.2.2.2.2.2.2.2.2.1

@[simp]
theorem tcStopCheck_fr_m_overrideTimer (s : HVACState) (m : Int) : (tcStopCheck s m).m_overrideTimer = s.m_overrideTimer :=
  (tcStopCheck_frame s m).2.2.2.2.2.2.2.2.2.2.2.2.2.2.2.2.2.2.2.2.2.2.2.2.2.2.2.2.2.2.2.2.2.2.2.2.1

@[simp]
theorem tcStopCheck_fr_m_ovrTemp (s : HVACState) (m : Int) : (tcStopCheck s m).m_ovrTemp = s.m_ovrTemp :=
  (tcStopCheck_frame s m).2.2.2.2.2.2.2.2.2.2.2.2.2.2.2.2.2.2.2.2.2.2.2.2.2.2.2.2.2.2.2.2.2.2.2.2.2.1

@[simp]
theorem tcStopCheck_fr_m_remoteTimer (s : HVACState) (m : Int) : (tcStopCheck s m).m_remoteTimer = s.m_remoteTimer :=
  (tcStopCheck_frame s m).2.2.2.2.2.2.2.2.2.2.2.2.2.2.2.2.2.2.2.2.2.2.2.2.2.2.2.2.2.2.2.2.2.2.2.2.2.2.1

@[simp]
theorem tcStopCheck_fr_m_remoteTimeout (s : HVACState) (m : Int) : (tcStopCheck s m).m_remoteTimeout = s.m_remoteTimeout :=
  (tcStopCheck_frame s m).2.2.2.2.2.2.2.2.2.2.2.2.2.2.2.2.2.2.2.2.2.2.2.2.2.2.2.2.2.2.2.2.2.2.2.2.2.2.2.1

@[simp]
theorem tcStopCheck_fr_m_furnaceFan (s : HVACState) (m : Int) : (tcStopCheck s m).m_furnaceFan = s.m_furnaceFan :=
  (tcStopCheck_frame s m).2.2.2.2.2.2.2.2.2.2.2.2.2.2.2.2.2.2.2.2.2.2.2.2.2.2.2.2.2.2.2.2.2.2.2.2.2.2.2.2.1

@[simp]
theorem tcStopCheck_fr_m_notif (s : HVACState) (m : Int) : (tcStopCheck s m).m_notif = s.m_notif :=
  (tcStopCheck_frame s m).2.2.2.2.2.2.2.2.2.2.2.2.2.2.2.2.2.2.2.2.2.2.2.2.2.2.2.2.2.2.2.2.2.2.2.2.2.2.2.2.2.1

@[simp]
theorem tcStopCheck_fr_m_idleTimer (s : HVACState) (m : Int) : (tcStopCheck s m).m_idleTimer = s.m_idleTimer :=
  (tcStopCheck_frame s m).2.2.2.2.2.2.2.2.2.2.2.2.2.2.2.2.2.2.2.2.2.2.2.2.2.2.2.2.2.2.2.2.2.2.2.2.2.2.2.2.2.2.1

@[simp]
theorem tcStopCheck_fr_m_targetTemp (s : HVACState) (m : Int) : (tcStopCheck s m).m_targetTemp = s.m_targetTemp :=
  (tcStopCheck_frame s m).2.2.2.2.2.2.2.2.2.2.2.2.2.2.2.2.2.2.2.2.2.2.2.2.2.2.2.2.2.2.2.2.2.2.2.2.2.2.2.2.2.2.2.1

@[simp]
theorem tcStopCheck_fr_nSecs (s : HVACState) (m : Int) : (tcStopCheck s m).nSecs = s.nSecs :=
  (tcStopCheck_frame s m).2.2.2.2.2.2.2.2.2.2.2.2.2.2.2.2.2.2.2.2.2.2.2.2.2.2.2.2.2.2.2.2.2.2.2.2.2.2.2.2.2.2.2.2.1

@[simp]
theorem tcStopCheck_fr_pFan (s : HVACState) (m : Int) : (tcStopCheck s m).pFan = s.pFan :=
  (tcStopCheck_frame s m).2.2.2.2.2.2.2.2.2.2.2.2.2.2.2.2.2.2.2.2.2.2.2.2.2.2.2.2.2.2.2.2.2.2.2.2.2.2.2.2.2.2.2.2.2.1

@[simp]
theorem tcStopCheck_fr_pCool (s : HVACState) (m : Int) : (tcStopCheck s m).pCool = s.pCool :=
  (tcStopCheck_frame s m).2.2.2.2.2.2.2.2.2.2.2.2.2.2.2.2.2.2.2.2.2.2.2.2.2.2.2.2.2.2.2.2.2.2.2.2.2.2.2.2.2.2.2.2.2.2.1

@[simp]
theorem tcStopCheck_fr_pRev (s : HVACState) (m : Int) : (tcStopCheck s m).pRev = s.pRev :=
  (tcStopCheck_frame s m).2.2.2.2.2.2.2.2.2.2.2.2.2.2.2.2.2.2.2.2.2.2.2.2.2.2.2.2.2.2.2.2.2.2.2.2.2.2.2.2.2.2.2.2.2.2.2.1

@[simp]
theorem tcStopCheck_fr_pHeat (s : HVACState) (m : Int) : (tcStopCheck s m).pHeat = s.pHeat :=
  (tcStopCheck_frame s m).2.2.2.2.2.2.2.2.2.2.2.2.2.2.2.2.2.2.2.2.2.2.2.2.2.2.2.2.2.2.2.2.2.2.2.2.2.2.2.2.2.2.2.2.2.2.2.2

theorem setTempCool_frame (s : HVACState) (t : Int) (hl : Bool) :
    (setTempCool s t hl).cycleMin = s.cycleMin ∧
    (setTempCool s t hl).cycleMax = s.cycleMax ∧
    (setTempCool s t hl).idleMin = s.idleMin ∧
    (setTempCool s t hl).cycleThresh = s.cycleThresh ∧
    (setTempCool s t hl).eHeatThresh = s.eHeatThresh ∧
    (setTempCool s t hl).fanPostDelay0 = s.fanPostDelay0 ∧
    (setTempCool s t hl).fanPostDelay1 = s.fanPostDelay1 ∧
    (setTempCool s t hl).overrideTime = s.overrideTime ∧
    (setTempCool s t hl).filterMinutes = s.filterMinutes ∧
    (setTempCool s t hl).Mode = s.Mode ∧
    (setTempCool s t hl).heatMode = s.heatMode ∧
    (setTempCool s t hl).m_outTemp = s.m_outTemp ∧
    (setTempCool s t hl).m_inTemp = s.m_inTemp ∧
    (setTempCool s t hl).m_rh = s.m_rh ∧
    (setTempCool s t hl).m_bFanRunning = s.m_bFanRunning ∧
    (setTempCool s t hl).m_outMin0 = s.m_outMin0 ∧
    (setTempCool s t hl).m_outMin1 = s.m_outMin1 ∧
    (setTempCool s t hl).m_outMax0 = s.m_outMax0 ∧
    (setTempCool s t hl).m_outMax1 = s.m_outMax1 ∧
    (setTempCool s t hl).m_bFanMode = s.m_bFanMode ∧
    (setTempCool s t hl).m_AutoMode = s.m_AutoMode ∧
    (setTempCool s t hl).m_setMode = s.m_setMode ∧
    (setTempCool s t hl).m_setHeat = s.m_setHeat ∧
    (setTempCool s t hl).m_AutoHeat = s.m_AutoHeat ∧
    (setTempCool s t hl).m_bRunning = s.m_bRunning ∧
    (setTempCool s t hl).m_bStart = s.m_bStart ∧
    (setTempCool s t hl).m_bStop = s.m_bStop ∧
    (setTempCool s t hl).m_bRecheck = s.m_bRecheck ∧
    (setTempCool s t hl).m_bEnabled = s.m_bEnabled ∧
    (setTempCool s t hl).m_runTotal = s.m_runTotal ∧
    (setTempCool s t hl).m_fanOnTimer = s.m_fanOnTimer ∧
    (setTempCool s t hl).m_cycleTimer = s.m_cycleTimer ∧
    (setTempCool s t hl).m_fanPostTimer = s.m_fanPostTimer ∧
    (setTempCool s t hl).m_overrideTimer = s.m_overrideTimer ∧
    (setTempCool s t hl).m_ovrTemp = s.m_ovrTemp ∧
    (setTempCool s t hl).m_remoteTimer = s.m_remoteTimer ∧
    (setTempCool s t hl).m_remoteTimeout = s.m_remoteTimeout ∧
    (setTempCool s t hl).m_furnaceFan = s.m_furnaceFan ∧
    (setTempCool s t hl).m_notif = s.m_notif ∧
    (setTempCool s t hl).m_idleTimer = s.m_idleTimer ∧
    (setTempCool s t hl).nSecs = s.nSecs ∧
    (setTempCool s t hl).pFan = s.pFan ∧
    (setTempCool s t hl).pCool = s.pCool ∧
    (setTempCool s t hl).pHeat = s.pHeat := by
  unfold setTempCool
  try dsimp only
  split_ifs <;> simp [fanPostDelayAt]

@[simp]
theorem setTempCool_fr_cycleMin (s : HVACState) (t : Int) (hl : Bool) : (setTempCool s t hl).cycleMin = s.cycleMin :=
  (setTempCool_frame s t hl).1

@[simp]
theorem setTempCool_fr_cycleMax (s : HVACState) (t : Int) (hl : Bool) : (setTempCool s t hl).cycleMax = s.cycleMax :=
  (setTempCool_frame s t hl).2.1

@[simp]
theorem setTempCool_fr_idleMin (s : HVACState) (t : Int) (hl : Bool) : (setTempCool s t hl).idleMin = s.idleMin :=
  (setTempCool_frame s t hl).2.2.1

@[simp]
theorem setTempCool_fr_cycleThresh (s : HVACState) (t : Int) (hl : Bool) : (setTempCool s t hl).cycleThresh = s.cycleThresh :=
  (setTempCool_frame s t hl).2.2.2.1

@[simp]
theorem setTempCool_fr_eHeatThresh (s : HVACState) (t : Int) (hl : Bool) : (setTempCool s t hl).eHeatThresh = s.eHeatThresh :=
  (setTempCool_frame s t hl).2.2.2.2.1

@[simp]
theorem setTempCool_fr_fanPostDelay0 (s : HVACState) (t : Int) (hl : Bool) : (setTempCool s t hl).fanPostDelay0 = s.fanPostDelay0 :=
  (setTempCool_frame s t hl).2.2.2.2.2.1

@[simp]
theorem setTempCool_fr_fanPostDelay1 (s : HVACState) (t : Int) (hl : Bool) : (setTempCool s t hl).fanPostDelay1 = s.fanPostDelay1 :=
  (setTempCool_frame s t hl).2.2.2.2.2.2.1

@[simp]
theorem setTempCool_fr_overrideTime (s : HVACState) (t : Int) (hl : Bool) : (setTempCool s t hl).overrideTime = s.overrideTime :=
  (setTempCool_frame s t hl).2.2.2.2.2.2.2.1

@[simp]
theorem setTempCool_fr_filterMinutes (s : HVACState) (t : Int) (hl : Bool) : (setTempCool s t hl).filterMinutes = s.filterMinutes :=
  (setTempCool_frame s t hl).2.2.2.2.2.2.2.2.1

@[simp]
theorem setTempCool_fr_Mode (s : HVACState) (t : Int) (hl : Bool) : (setTempCool s t hl).Mode = s.Mode :=
  (setTempCool_frame s t hl).2.2.2.2.2.2.2.2.2.1

@[simp]
theorem setTempCool_fr_heatMode (s : HVACState) (t : Int) (hl : Bool) : (setTempCool s t hl).heatMode = s.heatMode :=
  (setTempCool_frame s t hl).2.2.2.2.2.2.2.2.2.2.1

@[simp]
theorem setTempCool_fr_m_outTemp (s : HVACState) (t : Int) (hl : Bool) : (setTempCool s t hl).m_outTemp = s.m_outTemp :=
  (setTempCool_frame s t hl).2.2.2.2.2.2.2.2.2.2.2.1

@[simp]
theorem setTempCool_fr_m_inTemp (s : HVACState) (t : Int) (hl : Bool) : (setTempCool s t hl).m_inTemp = s.m_inTemp :=
  (setTempCool_frame s t hl).2.2.2.2.2.2.2.2.2.2.2.2.1

@[simp]
theorem setTempCool_fr_m_rh (s : HVACState) (t : Int) (hl : Bool) : (setTempCool s t hl).m_rh = s.m_rh :=
  (setTempCool_frame s t hl).2.2.2.2.2.2.2.2.2.2.2.2.2.1

@[simp]
theorem setTempCool_fr_m_bFanRunning (s : HVACState) (t : Int) (hl : Bool) : (setTempCool s t hl).m_bFanRunning = s.m_bFanRunning :=
  (setTempCool_frame s t hl).2.2.2.2.2.2.2.2.2.2.2.2.2.2.1

@[simp]
theorem setTempCool_fr_m_outMin0 (s : HVACState) (t : Int) (hl : Bool) : (setTempCool s t hl).m_outMin0 = s.m_outMin0 :=
  (setTempCool_frame s t hl).2.2.2.2.2.2.2.2.2.2.2.2.2.2.2.1

@[simp]
theorem setTempCool_fr_m_outMin1 (s : HVACState) (t : Int) (hl : Bool) : (setTempCool s t hl).m_outMin1 = s.m_outMin1 :=
  (setTempCool_frame s t hl).2.2.2.2.2.2.2.2.2.2.2.2.2.2.2.2.1

@[simp]
theorem setTempCool_fr_m_outMax0 (s : HVACState) (t : Int) (hl : Bool) : (setTempCool s t hl).m_outMax0 = s.m_outMax0 :=
  (setTempCool_frame s t hl).2.2.2.2.2.2.2.2.2.2.2.2.2.2.2.2.2.1

@[simp]
theorem setTempCool_fr_m_outMax1 (s : HVACState) (t : Int) (hl : Bool) : (setTempCool s t hl).m_outMax1 = s.m_outMax1 :=
  (setTempCool_frame s t hl).2.2.2.2.2.2.2.2.2.2.2.2.2.2.2.2.2.2.1

@[simp]
theorem setTempCool_fr_m_bFanMode (s : HVACState) (t : Int) (hl : Bool) : (setTempCool s t hl).m_bFanMode = s.m_bFanMode :=
  (setTempCool_frame s t hl).2.2.2.2.2.2.2.2.2.2.2.2.2.2.2.2.2.2.2.1

@[simp]
theorem setTempCool_fr_m_AutoMode (s : HVACState) (t : Int) (hl : Bool) : (setTempCool s t hl).m_AutoMode = s.m_AutoMode :=
  (setTempCool_frame s t hl).2.2.2.2.2.2.2.2.2.2.2.2.2.2.2.2.2.2.2.2.1

@[simp]
theorem setTempCool_fr_m_setMode (s : HVACState) (t : Int) (hl : Bool) : (setTempCool s t hl).m_setMode = s.m_setMode :=
  (setTempCool_frame s t hl).2.2.2.2.2.2.2.2.2.2.2.2.2.2.2.2.2.2.2.2.2.1

@[simp]
theorem setTempCool_fr_m_setHeat (s : HVACState) (t : Int) (hl : Bool) : (setTempCool s t hl).m_setHeat = s.m_setHeat :=
  (setTempCool_frame s t hl).2.2.2.2.2.2.2.2.2.2.2.2.2.2.2.2.2.2.2.2.2.2.1

@[simp]
theorem setTempCool_fr_m_AutoHeat (s : HVACState) (t : Int) (hl : Bool) : (setTempCool s t hl).m_AutoHeat = s.m_AutoHeat :=
  (setTempCool_frame s t hl).2.2.2.2.2.2.2.2.2.2.2.2.2.2.2.2.2.2.2.2.2.2.2.1

@[simp]
theorem setTempCool_fr_m_bRunning (s : HVACState) (t : Int) (hl : Bool) : (setTempCool s t hl).m_bRunning = s.m_bRunning :=
  (setTempCool_frame s t hl).2.2.2.2.2.2.2.2.2.2.2.2.2.2.2.2.2.2.2.2.2.2.2.2.1

@[simp]
theorem setTempCool_fr_m_bStart (s : HVACState) (t : Int) (hl : Bool) : (setTempCool s t hl).m_bStart = s.m_bStart :=
  (setTempCool_frame s t hl).2.2.2.2.2.2.2.2.2.2.2.2.2.2.2.2.2.2.2.2.2.2.2.2.2.1

@[simp]
theorem setTempCool_fr_m_bStop (s : HVACState) (t : Int) (hl : Bool) : (setTempCool s t hl).m_bStop = s.m_bStop :=
  (setTempCool_frame s t hl).2.2.2.2.2.2.2.2.2.2.2.2.2.2.2.2.2.2.2.2.2.2.2.2.2.2.1

@[simp]
theorem setTempCool_fr_m_bRecheck (s : HVACState) (t : Int) (hl : Bool) : (setTempCool s t hl).m_bRecheck = s.m_bRecheck :=
  (setTempCool_frame s t hl).2.2.2.2.2.2.2.2.2.2.2.2.2.2.2.2.2.2.2.2.2.2.2.2.2.2.2.1

@[simp]
theorem setTempCool_fr_m_bEnabled (s : HVACState) (t : Int) (hl : Bool) : (setTempCool s t hl).m_bEnabled = s.m_bEnabled :=
  (setTempCool_frame s t hl).2.2.2.2.2.2.2.2.2.2.2.2.2.2.2.2.2.2.2.2.2.2.2.2.2.2.2.2.1

@[simp]
theorem setTempCool_fr_m_runTotal (s : HVACState) (t : Int) (hl : Bool) : (setTempCool s t hl).m_runTotal = s.m_runTotal :=
  (setTempCool_frame s t hl).2.2.2.2.2.2.2.2.2.2.2.2.2.2.2.2.2.2.2.2.2.2.2.2.2.2.2.2.2.1

@[simp]
theorem setTempCool_fr_m_fanOnTimer (s : HVACState) (t : Int) (hl : Bool) : (setTempCool s t hl).m_fanOnTimer = s.m_fanOnTimer :=
  (setTempCool_frame s t hl).2.2.2.2.2.2.2.2.2.2.2.2.2.2.2.2.2.2.2.2.2.2.2.2.2.2.2.2.2.2.1

@[simp]
theorem setTempCool_fr_m_cycleTimer (s : HVACState) (t : Int) (hl : Bool) : (setTempCool s t hl).m_cycleTimer = s.m_cycleTimer :=
  (setTempCool_frame s t hl).2.2.2.2.2.2.2.2.2.2.2.2.2.2.2.2.2.2.2.2.2.2.2.2.2.2.2.2.2.2.2.1

@[simp]
theorem setTempCool_fr_m_fanPostTimer (s : HVACState) (t : Int) (hl : Bool) : (setTempCool s t hl).m_fanPostTimer = s.m_fanPostTimer :=
  (setTempCool_frame s t hl).2.2.2.2.2.2.2.2.2.2.2.2.2.2.2.2.2.2.2.2.2.2.2.2.2.2.2.2.2.2.2.2.1

@[simp]
theorem setTempCool_fr_m_overrideTimer (s : HVACState) (t : Int) (hl : Bool) : (setTempCool s t hl).m_overrideTimer = s.m_overrideTimer :=
  (setTempCool_frame s t hl).2.2.2.2.2.2.2.2.2.2.2.2.2.2.2.2.2.2.2.2.2.2.2.2.2.2.2.2.2.2.2.2.2.1

@[simp]
theorem setTempCool_fr_m_ovrTemp (s : HVACState) (t : Int) (hl : Bool) : (setTempCool s t hl).m_ovrTemp = s.m_ovrTemp :=
  (setTempCool_frame s t hl).2.2.2.2.2.2.2.2.2.2.2.2.2.2.2.2.2.2.2.2.2.2.2.2.2.2.2.2.2.2.2.2.2.2.1

@[simp]
theorem setTempCool_fr_m_remoteTimer (s : HVACState) (t : Int) (hl : Bool) : (setTempCool s t hl).m_remoteTimer = s.m_remoteTimer :=
  (setTempCool_frame s t hl).2.2.2.2.2.2.2.2.2.2.2.2.2.2.2.2.2.2.2.2.2.2.2.2.2.2.2.2.2.2.2.2.2.2.2.1

@[simp]
theorem setTempCool_fr_m_remoteTimeout (s : HVACState) (t : Int) (hl : Bool) : (setTempCool s t hl).m_remoteTimeout = s.m_remoteTimeout :=
  (setTempCool_frame s t hl).2.2.2.2.2.2.2.2.2.2.2.2.2.2.2.2.2.2.2.2.2.2.2.2.2.2.2.2.2.2.2.2.2.2.2.2.1

@[simp]
theorem setTempCool_fr_m_furnaceFan (s : HVACState) (t : Int) (hl : Bool) : (setTempCool s t hl).m_furnaceFan = s.m_furnaceFan :=
  (setTempCool_frame s t hl).2.2.2.2.2.2.2.2.2.2.2.2.2.2.2.2.2.2.2.2.2.2.2.2.2.2.2.2.2.2.2.2.2.2.2.2.2.1

@[simp]
theorem setTempCool_fr_m_notif (s : HVACState) (t : Int) (hl : Bool) : (setTempCool s t hl).m_notif = s.m_notif :=
  (setTempCool_frame s t hl).2.2.2.2.2.2.2.2.2.2.2.2.2.2.2.2.2.2.2.2.2.2.2.2.2.2.2.2.2.2.2.2.2.2.2.2.2.2.1

@[simp]
theorem setTempCool_fr_m_idleTimer (s : HVACState) (t : Int) (hl : Bool) : (setTempCool s t hl).m_idleTimer = s.m_idleTimer :=
  (setTempCool_frame s t hl).2.2.2.2.2.2.2.2.2.2.2.2.2.2.2.2.2.2.2.2.2.2.2.2.2.2.2.2.2.2.2.2.2.2.2.2.2.2.2.1

@[simp]
theorem setTempCool_fr_nSecs (s : HVACState) (t : Int) (hl : Bool) : (setTempCool s t hl).nSecs = s.nSecs :=
  (setTempCool_frame s t hl).2.2.2.2.2.2.2.2.2.2.2.2.2.2.2.2.2.2.2.2.2.2.2.2.2.2.2.2.2.2.2.2.2.2.2.2.2.2.2.2.1

@[simp]
theorem setTempCool_fr_pFan (s : HVACState) (t : Int) (hl : Bool) : (setTempCool s t hl).pFan = s.pFan :=
  (setTempCool_frame s t hl).2.2.2.2.2.2.2.2.2.2.2.2.2.2.2.2.2.2.2.2.2.2.2.2.2.2.2.2.2.2.2.2.2.2.2.2.2.2.2.2.2.1

@[simp]
theorem setTempCool_fr_pCool (s : HVACState) (t : Int) (hl : Bool) : (setTempCool s t hl).pCool = s.pCool :=
  (setTempCool_frame s t hl).2.2.2.2.2.2.2.2.2.2.2.2.2.2.2.2.2.2.2.2.2.2.2.2.2.2.2.2.2.2.2.2.2.2.2.2.2.2.2.2.2.2.1

@[simp]
theorem setTempCool_fr_pHeat (s : HVACState) (t : Int) (hl : Bool) : (setTempCool s t hl).pHeat = s.pHeat :=
  (setTempCool_frame s t hl).2.2.2.2.2.2.2.2.2.2.2.2.2.2.2.2.2.2.2.2.2.2.2.2.2.2.2.2.2.2.2.2.2.2.2.2.2.2.2.2.2.2.2

theorem setTempHeat_frame (s : HVACState) (t : Int) (hl : Bool) :
    (setTempHeat s t hl).cycleMin = s.cycleMin ∧
    (setTempHeat s t hl).cycleMax = s.cycleMax ∧
    (setTempHeat s t hl).idleMin = s.idleMin ∧
    (setTempHeat s t hl).cycleThresh = s.cycleThresh ∧
    (setTempHeat s t hl).eHeatThresh = s.eHeatThresh ∧
    (setTempHeat s t hl).fanPostDelay0 = s.fanPostDelay0 ∧
    (setTempHeat s t hl).fanPostDelay1 = s.fanPostDelay1 ∧
    (setTempHeat s t hl).overrideTime = s.overrideTime ∧
    (setTempHeat s t hl).filterMinutes = s.filterMinutes ∧
    (setTempHeat s t hl).Mode = s.Mode ∧
    (setTempHeat s t hl).heatMode = s.heatMode ∧
    (setTempHeat s t hl).m_outTemp = s.m_outTemp ∧
    (setTempHeat s t hl).m_inTemp = s.m_inTemp ∧
    (setTempHeat s t hl).m_rh = s.m_rh ∧
    (setTempHeat s t hl).m_bFanRunning = s.m_bFanRunning ∧
    (setTempHeat s t hl).m_outMin0 = s.m_outMin0 ∧
    (setTempHeat s t hl).m_outMin1 = s.m_outMin1 ∧
    (setTempHeat s t hl).m_outMax0 = s.m_outMax0 ∧
    (setTempHeat s t hl).m_outMax1 = s.m_outMax1 ∧
    (setTempHeat s t hl).m_bFanMode = s.m_bFanMode ∧
    (setTempHeat s t hl).m_AutoMode = s.m_AutoMode ∧
    (setTempHeat s t hl).m_setMode = s.m_setMode ∧
    (setTempHeat s t hl).m_setHeat = s.m_setHeat ∧
    (setTempHeat s t hl).m_AutoHeat = s.m_AutoHeat ∧
    (setTempHeat s t hl).m_bRunning = s.m_bRunning ∧
    (setTempHeat s t hl).m_bStart = s.m_bStart ∧
    (setTempHeat s t hl).m_bStop = s.m_bStop ∧
    (setTempHeat s t hl).m_bRecheck = s.m_bRecheck ∧
    (setTempHeat s t hl).m_bEnabled = s.m_bEnabled ∧
    (setTempHeat s t hl).m_runTotal = s.m_runTotal ∧
    (setTempHeat s t hl).m_fanOnTimer = s.m_fanOnTimer ∧
    (setTempHeat s t hl).m_cycleTimer = s.m_cycleTimer ∧
    (setTempHeat s t hl).m_fanPostTimer = s.m_fanPostTimer ∧
    (setTempHeat s t hl).m_overrideTimer = s.m_overrideTimer ∧
    (setTempHeat s t hl).m_ovrTemp = s.m_ovrTemp ∧
    (setTempHeat s t hl).m_remoteTimer = s.m_remoteTimer ∧
    (setTempHeat s t hl).m_remoteTimeout = s.m_remoteTimeout ∧
    (setTempHeat s t hl).m_furnaceFan = s.m_furnaceFan ∧
    (setTempHeat s t hl).m_notif = s.m_notif ∧
    (setTempHeat s t hl).m_idleTimer = s.m_idleTimer ∧
    (setTempHeat s t hl).nSecs = s.nSecs ∧
    (setTempHeat s t hl).pFan = s.pFan ∧
    (setTempHeat s t hl).pCool = s.pCool ∧
    (setTempHeat s t hl).pHeat = s.pHeat := by
  unfold setTempHeat
  try dsimp only
  split_ifs <;> simp [fanPostDelayAt]

@[simp]
theorem setTempHeat_fr_cycleMin (s : HVACState) (t : Int) (hl : Bool) : (setTempHeat s t hl).cycleMin = s.cycleMin :=
  (setTempHeat_frame s t hl).1

@[simp]
theorem setTempHeat_fr_cycleMax (s : HVACState) (t : Int) (hl : Bool) : (setTempHeat s t hl).cycleMax = s.cycleMax :=
  (setTempHeat_frame s t hl).2.1

@[simp]
theorem setTempHeat_fr_idleMin (s : HVACState) (t : Int) (hl : Bool) : (setTempHeat s t hl).idleMin = s.idleMin :=
  (setTempHeat_frame s t hl).2.2.1

@[simp]
theorem setTempHeat_fr_cycleThresh (s : HVACState) (t : Int) (hl : Bool) : (setTempHeat s t hl).cycleThresh = s.cycleThresh :=
  (setTempHeat_frame s t hl).2.2.2.1

@[simp]
theorem setTempHeat_fr_eHeatThresh (s : HVACState) (t : Int) (hl : Bool) : (setTempHeat s t hl).eHeatThresh = s.eHeatThresh :=
  (setTempHeat_frame s t hl).2.2.2.2.1

@[simp]
theorem setTempHeat_fr_fanPostDelay0 (s : HVACState) (t : Int) (hl : Bool) : (setTempHeat s t hl).fanPostDelay0 = s.fanPostDelay0 :=
  (setTempHeat_frame s t hl).2.2.2.2.2.1

@[simp]
theorem setTempHeat_fr_fanPostDelay1 (s : HVACState) (t : Int) (hl : Bool) : (setTempHeat s t hl).fanPostDelay1 = s.fanPostDelay1 :=
  (setTempHeat_frame s t hl).2.2.2.2.2.2.1

@[simp]
theorem setTempHeat_fr_overrideTime (s : HVACState) (t : Int) (hl : Bool) : (setTempHeat s t hl).overrideTime = s.overrideTime :=
  (setTempHeat_frame s t hl).2.2.2.2.2.2.2.1

@[simp]
theorem setTempHeat_fr_filterMinutes (s : HVACState) (t : Int) (hl : Bool) : (setTempHeat s t hl).filterMinutes = s.filterMinutes :=
  (setTempHeat_frame s t hl).2.2.2.2.2.2.2.2.1

@[simp]
theorem setTempHeat_fr_Mode (s : HVACState) (t : Int) (hl : Bool) : (setTempHeat s t hl).Mode = s.Mode :=
  (setTempHeat_frame s t hl).2.2.2.2.2.2.2.2.2.1

@[simp]
theorem setTempHeat_fr_heatMode (s : HVACState) (t : Int) (hl : Bool) : (setTempHeat s t hl).heatMode = s.heatMode :=
  (setTempHeat_frame s t hl).2.2.2.2.2.2.2.2.2.2.1

@[simp]
theorem setTempHeat_fr_m_outTemp (s : HVACState) (t : Int) (hl : Bool) : (setTempHeat s t hl).m_outTemp = s.m_outTemp :=
  (setTempHeat_frame s t hl).2.2.2.2.2.2.2.2.2.2.2.1

@[simp]
theorem setTempHeat_fr_m_inTemp (s : HVACState) (t : Int) (hl : Bool) : (setTempHeat s t hl).m_inTemp = s.m_inTemp :=
  (setTempHeat_frame s t hl).2.2.2.2.2.2.2.2.2.2.2.2.1

@[simp]
theorem setTempHeat_fr_m_rh (s : HVACState) (t : Int) (hl : Bool) : (setTempHeat s t hl).m_rh = s.m_rh :=
  (setTempHeat_frame s t hl).2.2.2.2.2.2.2.2.2.2.2.2.2.1

@[simp]
theorem setTempHeat_fr_m_bFanRunning (s : HVACState) (t : Int) (hl : Bool) : (setTempHeat s t hl).m_bFanRunning = s.m_bFanRunning :=
  (setTempHeat_frame s t hl).2.2.2.2.2.2.2.2.2.2.2.2.2.2.1

@[simp]
theorem setTempHeat_fr_m_outMin0 (s : HVACState) (t : Int) (hl : Bool) : (setTempHeat s t hl).m_outMin0 = s.m_outMin0 :=
  (setTempHeat_frame s t hl).2.2.2.2.2.2.2.2.2.2.2.2.2.2.2.1

@[simp]
theorem setTempHeat_fr_m_outMin1 (s : HVACState) (t : Int) (hl : Bool) : (setTempHeat s t hl).m_outMin1 = s.m_outMin1 :=
  (setTempHeat_frame s t hl).2.2.2.2.2.2.2.2.2.2.2.2.2.2.2.2.1

@[simp]
theorem setTempHeat_fr_m_outMax0 (s : HVACState) (t : Int) (hl : Bool) : (setTempHeat s t hl).m_outMax0 = s.m_outMax0 :=
  (setTempHeat_frame s t hl).2.2.2.2.2.2.2.2.2.2.2.2.2.2.2.2.2.1

@[simp]
theorem setTempHeat_fr_m_outMax1 (s : HVACState) (t : Int) (hl : Bool) : (setTempHeat s t hl).m_outMax1 = s.m_outMax1 :=
  (setTempHeat_frame s t hl).2.2.2.2.2.2.2.2.2.2.2.2.2.2.2.2.2.2.1

@[simp]
theorem setTempHeat_fr_m_bFanMode (s : HVACState) (t : Int) (hl : Bool) : (setTempHeat s t hl).m_bFanMode = s.m_bFanMode :=
  (setTempHeat_frame s t hl).2.2.2.2.2.2.2.2.2.2.2.2.2.2.2.2.2.2.2.1

@[simp]
theorem setTempHeat_fr_m_AutoMode (s : HVACState) (t : Int) (hl : Bool) : (setTempHeat s t hl).m_AutoMode = s.m_AutoMode :=
  (setTempHeat_frame s t hl).2.2.2.2.2.2.2.2.2.2.2.2.2.2.2.2.2.2.2.2.1

@[simp]
theorem setTempHeat_fr_m_setMode (s : HVACState) (t : Int) (hl : Bool) : (setTempHeat s t hl).m_setMode = s.m_setMode :=
  (setTempHeat_frame s t hl).2.2.2.2.2.2.2.2.2.2.2.2.2.2.2.2.2.2.2.2.2.1

@[simp]
theorem setTempHeat_fr_m_setHeat (s : HVACState) (t : Int) (hl : Bool) : (setTempHeat s t hl).m_setHeat = s.m_setHeat :=
  (setTempHeat_frame s t hl).2.2.2.2.2.2.2.2.2.2.2.2.2.2.2.2.2.2.2.2.2.2.1

@[simp]
theorem setTempHeat_fr_m_AutoHeat (s : HVACState) (t : Int) (hl : Bool) : (setTempHeat s t hl).m_AutoHeat = s.m_AutoHeat :=
  (setTempHeat_frame s t hl).2.2.2.2.2.2.2.2.2.2.2.2.2.2.2.2.2.2.2.2.2.2.2.1

@[simp]
theorem setTempHeat_fr_m_bRunning (s : HVACState) (t : Int) (hl : Bool) : (setTempHeat s t hl).m_bRunning = s.m_bRunning :=
  (setTempHeat_frame s t hl).2.2.2.2.2.2.2.2.2.2.2.2.2.2.2.2.2.2.2.2.2.2.2.2.1

@[simp]
theorem setTempHeat_fr_m_bStart (s : HVACState) (t : Int) (hl : Bool) : (setTempHeat s t hl).m_bStart = s.m_bStart :=
  (setTempHeat_frame s t hl).2.2.2.2.2.2.2.2.2.2.2.2.2.2.2.2.2.2.2.2.2.2.2.2.2.1

@[simp]
theorem setTempHeat_fr_m_bStop (s : HVACState) (t : Int) (hl : Bool) : (setTempHeat s t hl).m_bStop = s.m_bStop :=
  (setTempHeat_frame s t hl).2.2.2.2.2.2.2.2.2.2.2.2.2.2.2.2.2.2.2.2.2.2.2.2.2.2.1

@[simp]
theorem setTempHeat_fr_m_bRecheck (s : HVACState) (t : Int) (hl : Bool) : (setTempHeat s t hl).m_bRecheck = s.m_bRecheck :=
  (setTempHeat_frame s t hl).2.2.2.2.2.2.2.2.2.2.2.2.2.2.2.2.2.2.2.2.2.2.2.2.2.2.2.1

@[simp]
theorem setTempHeat_fr_m_bEnabled (s : HVACState) (t : Int) (hl : Bool) : (setTempHeat s t hl).m_bEnabled = s.m_bEnabled :=
  (setTempHeat_frame s t hl).2.2.2.2.2.2.2.2.2.2.2.2.2.2.2.2.2.2.2.2.2.2.2.2.2.2.2.2.1

@[simp]
theorem setTempHeat_fr_m_runTotal (s : HVACState) (t : Int) (hl : Bool) : (setTempHeat s t hl).m_runTotal = s.m_runTotal :=
  (setTempHeat_frame s t hl).2.2.2.2.2.2.2.2.2.2.2.2.2.2.2.2.2.2.2.2.2.2.2.2.2.2.2.2.2.1

@[simp]
theorem setTempHeat_fr_m_fanOnTimer (s : HVACState) (t : Int) (hl : Bool) : (setTempHeat s t hl).m_fanOnTimer = s.m_fanOnTimer :=
  (setTempHeat_frame s t hl).2.2.2.2.2.2.2.2.2.2.2.2.2.2.2.2.2.2.2.2.2.2.2.2.2.2.2.2.2.2.1

@[simp]
theorem setTempHeat_fr_m_cycleTimer (s : HVACState) (t : Int) (hl : Bool) : (setTempHeat s t hl).m_cycleTimer = s.m_cycleTimer :=
  (setTempHeat_frame s t hl).2.2.2.2.2.2.2.2.2.2.2.2.2.2.2.2.2.2.2.2.2.2.2.2.2.2.2.2.2.2.2.1

@[simp]
theorem setTempHeat_fr_m_fanPostTimer (s : HVACState) (t : Int) (hl : Bool) : (setTempHeat s t hl).m_fanPostTimer = s.m_fanPostTimer :=
  (setTempHeat_frame s t hl).2.2.2.2.2.2.2.2.2.2.2.2.2.2.2.2.2.2.2.2.2.2.2.2.2.2.2.2.2.2.2.2.1

@[simp]
theorem setTempHeat_fr_m_overrideTimer (s : HVACState) (t : Int) (hl : Bool) : (setTempHeat s t hl).m_overrideTimer = s.m_overrideTimer :=
  (setTempHeat_frame s t hl).2.2.2.2.2.2.2.2.2.2.2.2.2.2.2.2.2.2.2.2.2.2.2.2.2.2.2.2.2.2.2.2.2.1

@[simp]
theorem setTempHeat_fr_m_ovrTemp (s : HVACState) (t : Int) (hl : Bool) : (setTempHeat s t hl).m_ovrTemp = s.m_ovrTemp :=
  (setTempHeat_frame s t hl).2.2.2.2.2.2.2.2.2.2.2.2.2.2.2.2.2.2.2.2.2.2.2.2.2.2.2.2.2.2.2.2.2.2.1

@[simp]
theorem setTempHeat_fr_m_remoteTimer (s : HVACState) (t : Int) (hl : Bool) : (setTempHeat s t hl).m_remoteTimer = s.m_remoteTimer :=
  (setTempHeat_frame s t hl).2.2.2.2.2.2.2.2.2.2.2.2.2.2.2.2.2.2.2.2.2.2.2.2.2.2.2.2.2.2.2.2.2.2.2.1

@[simp]
theorem setTempHeat_fr_m_remoteTimeout (s : HVACState) (t : Int) (hl : Bool) : (setTempHeat s t hl).m_remoteTimeout = s.m_remoteTimeout :=
  (setTempHeat_frame s t hl).2.2.2.2.2.2.2.2.2.2.2.2.2.2.2.2.2.2.2.2.2.2.2.2.2.2.2.2.2.2.2.2.2.2.2.2.1

@[simp]
theorem setTempHeat_fr_m_furnaceFan (s : HVACState) (t : Int) (hl : Bool) : (setTempHeat s t hl).m_furnaceFan = s.m_furnaceFan :=
  (setTempHeat_frame s t hl).2.2.2.2.2.2.2.2.2.2.2.2.2.2.2.2.2.2.2.2.2.2.2.2.2.2.2.2.2.2.2.2.2.2.2.2.2.1

@[simp]
theorem setTempHeat_fr_m_notif (s : HVACState) (t : Int) (hl : Bool) : (setTempHeat s t hl).m_notif = s.m_notif :=
  (setTempHeat_frame s t hl).2.2.2.2.2.2.2.2.2.2.2.2.2.2.2.2.2.2.2.2.2.2.2.2.2.2.2.2.2.2.2.2.2.2.2.2.2.2.1

@[simp]
theorem setTempHeat_fr_m_idleTimer (s : HVACState) (t : Int) (hl : Bool) : (setTempHeat s t hl).m_idleTimer = s.m_idleTimer :=
  (setTempHeat_frame s t hl).2.2.2.2.2.2.2.2.2.2.2.2.2.2.2.2.2.2.2.2.2.2.2.2.2.2.2.2.2.2.2.2.2.2.2.2.2.2.2.1

@[simp]
theorem setTempHeat_fr_nSecs (s : HVACState) (t : Int) (hl : Bool) : (setTempHeat s t hl).nSecs = s.nSecs :=
  (setTempHeat_frame s t hl).2.2.2.2.2.2.2.2.2.2.2.2.2.2.2.2.2.2.2.2.2.2.2.2.2.2.2.2.2.2.2.2.2.2.2.2.2.2.2.2.1

@[simp]
theorem setTempHeat_fr_pFan (s : HVACState) (t : Int) (hl : Bool) : (setTempHeat s t hl).pFan = s.pFan :=
  (setTempHeat_frame s t hl).2.2.2.2.2.2.2.2.2.2.2.2.2.2.2.2.2.2.2.2.2.2.2.2.2.2.2.2.2.2.2.2.2.2.2.2.2.2.2.2.2.1

@[simp]
theorem setTempHeat_fr_pCool (s : HVACState) (t : Int) (hl : Bool) : (setTempHeat s t hl).pCool = s.pCool :=
  (setTempHeat_frame s t hl).2.2.2.2.2.2.2.2.2.2.2.2.2.2.2.2.2.2.2.2.2.2.2.2.2.2.2.2.2.2.2.2.2.2.2.2.2.2.2.2.2.2.1

@[simp]
theorem setTempHeat_fr_pHeat (s : HVACState) (t : Int) (hl : Bool) : (setTempHeat s t hl).pHeat = s.pHeat :=
  (setTempHeat_frame s t hl).2.2.2.2.2.2.2.2.2.2.2.2.2.2.2.2.2.2.2.2.2.2.2.2.2.2.2.2.2.2.2.2.2.2.2.2.2.2.2.2.2.2.2

theorem setTemp_frame (s : HVACState) (m t : Int) (hl : Bool) :
    (setTemp s m t hl).cycleMin = s.cycleMin ∧
    (setTemp s m t hl).cycleMax = s.cycleMax ∧
    (setTemp s m t hl).idleMin = s.idleMin ∧
    (setTemp s m t hl).cycleThresh = s.cycleThresh ∧
    (setTemp s m t hl).eHeatThresh = s.eHeatThresh ∧
    (setTemp s m t hl).fanPostDelay0 = s.fanPostDelay0 ∧
    (setTemp s m t hl).fanPostDelay1 = s.fanPostDelay1 ∧
    (setTemp s m t hl).overrideTime = s.overrideTime ∧
    (setTemp s m t hl).filterMinutes = s.filterMinutes ∧
    (setTemp s m t hl).Mode = s.Mode ∧
    (setTemp s m t hl).heatMode = s.heatMode ∧
    (setTemp s m t hl).m_outTemp = s.m_outTemp ∧
    (setTemp s m t hl).m_inTemp = s.m_inTemp ∧
    (setTemp s m t hl).m_rh = s.m_rh ∧
    (setTemp s m t hl).m_bFanRunning = s.m_bFanRunning ∧
    (setTemp s m t hl).m_outMin0 = s.m_outMin0 ∧
    (setTemp s m t hl).m_outMin1 = s.m_outMin1 ∧
    (setTemp s m t hl).m_outMax0 = s.m_outMax0 ∧
    (setTemp s m t hl).m_outMax1 = s.m_outMax1 ∧
    (setTemp s m t hl).m_bFanMode = s.m_bFanMode ∧
    (setTemp s m t hl).m_AutoMode = s.m_AutoMode ∧
    (setTemp s m t hl).m_setMode = s.m_setMode ∧
    (setTemp s m t hl).m_setHeat = s.m_setHeat ∧
    (setTemp s m t hl).m_AutoHeat = s.m_AutoHeat ∧
    (setTemp s m t hl).m_bRunning = s.m_bRunning ∧
    (setTemp s m t hl).m_bStart = s.m_bStart ∧
    (setTemp s m t hl).m_bStop = s.m_bStop ∧
    (setTemp s m t hl).m_bRecheck = s.m_bRecheck ∧
    (setTemp s m t hl).m_bEnabled = s.m_bEnabled ∧
    (setTemp s m t hl).m_runTotal = s.m_runTotal ∧
    (setTemp s m t hl).m_fanOnTimer = s.m_fanOnTimer ∧
    (setTemp s m t hl).m_cycleTimer = s.m_cycleTimer ∧
    (setTemp s m t hl).m_fanPostTimer = s.m_fanPostTimer ∧
    (setTemp s m t hl).m_overrideTimer = s.m_overrideTimer ∧
    (setTemp s m t hl).m_ovrTemp = s.m_ovrTemp ∧
    (setTemp s m t hl).m_remoteTimer = s.m_remoteTimer ∧
    (setTemp s m t hl).m_remoteTimeout = s.m_remoteTimeout ∧
    (setTemp s m t hl).m_furnaceFan = s.m_furnaceFan ∧
    (setTemp s m t hl).m_notif = s.m_notif ∧
    (setTemp s m t hl).m_idleTimer = s.m_idleTimer ∧
    (setTemp s m t hl).nSecs = s.nSecs ∧
    (setTemp s m t hl).pFan = s.pFan ∧
    (setTemp s m t hl).pCool = s.pCool ∧
    (setTemp s m t hl).pHeat = s.pHeat := by
  unfold setTemp
  try dsimp only
  split_ifs <;> simp [fanPostDelayAt]

@[simp]
theorem setTemp_fr_cycleMin (s : HVACState) (m t : Int) (hl : Bool) : (setTemp s m t hl).cycleMin = s.cycleMin :=
  (setTemp_frame s m t hl).1

@[simp]
theorem setTemp_fr_cycleMax (s : HVACState) (m t : Int) (hl : Bool) : (setTemp s m t hl).cycleMax = s.cycleMax :=
  (setTemp_frame s m t hl).2.1

@[simp]
theorem setTemp_fr_idleMin (s : HVACState) (m t : Int) (hl : Bool) : (setTemp s m t hl).idleMin = s.idleMin :=
  (setTemp_frame s m t hl).2.2.1

@[simp]
theorem setTemp_fr_cycleThresh (s : HVACState) (m t : Int) (hl : Bool) : (setTemp s m t hl).cycleThresh = s.cycleThresh :=
  (setTemp_frame s m t hl).2.2.2.1

@[simp]
theorem setTemp_fr_eHeatThresh (s : HVACState) (m t : Int) (hl : Bool) : (setTemp s m t hl).eHeatThresh = s.eHeatThresh :=
  (setTemp_frame s m t hl).2.2.2.2.1

@[simp]
theorem setTemp_fr_fanPostDelay0 (s : HVACState) (m t : Int) (hl : Bool) : (setTemp s m t hl).fanPostDelay0 = s.fanPostDelay0 :=
  (setTemp_frame s m t hl).2.2.2.2.2.1

@[simp]
theorem setTemp_fr_fanPostDelay1 (s : HVACState) (m t : Int) (hl : Bool) : (setTemp s m t hl).fanPostDelay1 = s.fanPostDelay1 :=
  (setTemp_frame s m t hl).2.2.2.2.2.2.1

@[simp]
theorem setTemp_fr_overrideTime (s : HVACState) (m t : Int) (hl : Bool) : (setTemp s m t hl).overrideTime = s.overrideTime :=
  (setTemp_frame s m t hl).2.2.2.2.2.2.2.1

@[simp]
theorem setTemp_fr_filterMinutes (s : HVACState) (m t : Int) (hl : Bool) : (setTemp s m t hl).filterMinutes = s.filterMinutes :=
  (setTemp_frame s m t hl).2.2.2.2.2.2.2.2.1

@[simp]
theorem setTemp_fr_Mode (s : HVACState) (m t : Int) (hl : Bool) : (setTemp s m t hl).Mode = s.Mode :=
  (setTemp_frame s m t hl).2.2.2.2.2.2.2.2.2.1

@[simp]
theorem setTemp_fr_heatMode (s : HVACState) (m t : Int) (hl : Bool) : (setTemp s m t hl).heatMode = s.heatMode :=
  (setTemp_frame s m t hl).2.2.2.2.2.2.2.2.2.2.1

@[simp]
theorem setTemp_fr_m_outTemp (s : HVACState) (m t : Int) (hl : Bool) : (setTemp s m t hl).m_outTemp = s.m_outTemp :=
  (setTemp_frame s m t hl).2.2.2.2.2.2.2.2.2.2.2.1

@[simp]
theorem setTemp_fr_m_inTemp (s : HVACState) (m t : Int) (hl : Bool) : (setTemp s m t hl).m_inTemp = s.m_inTemp :=
  (setTemp_frame s m t hl).2.2.2.2.2.2.2.2.2.2.2.2.1

@[simp]
theorem setTemp_fr_m_rh (s : HVACState) (m t : Int) (hl : Bool) : (setTemp s m t hl).m_rh = s.m_rh :=
  (setTemp_frame s m t hl).2.2.2.2.2.2.2.2.2.2.2.2.2.1

@[simp]
theorem setTemp_fr_m_bFanRunning (s : HVACState) (m t : Int) (hl : Bool) : (setTemp s m t hl).m_bFanRunning = s.m_bFanRunning :=
  (setTemp_frame s m t hl).2.2.2.2.2.2.2.2.2.2.2.2.2.2.1

@[simp]
theorem setTemp_fr_m_outMin0 (s : HVACState) (m t : Int) (hl : Bool) : (setTemp s m t hl).m_outMin0 = s.m_outMin0 :=
  (setTemp_frame s m t hl).2.2.2.2.2.2.2.2.2.2.2.2.2.2.2.1

@[simp]
theorem setTemp_fr_m_outMin1 (s : HVACState) (m t : Int) (hl : Bool) : (setTemp s m t hl).m_outMin1 = s.m_outMin1 :=
  (setTemp_frame s m t hl).2.2.2.2.2.2.2.2.2.2.2.2.2.2.2.2.1

@[simp]
theorem setTemp_fr_m_outMax0 (s : HVACState) (m t : Int) (hl : Bool) : (setTemp s m t hl).m_outMax0 = s.m_outMax0 :=
  (setTemp_frame s m t hl).2.2.2.2.2.2.2.2.2.2.2.2.2.2.2.2.2.1

@[simp]
theorem setTemp_fr_m_outMax1 (s : HVACState) (m t : Int) (hl : Bool) : (setTemp s m t hl).m_outMax1 = s.m_outMax1 :=
  (setTemp_frame s m t hl).2.2.2.2.2.2.2.2.2.2.2.2.2.2.2.2.2.2.1

@[simp]
theorem setTemp_fr_m_bFanMode (s : HVACState) (m t : Int) (hl : Bool) : (setTemp s m t hl).m_bFanMode = s.m_bFanMode :=
  (setTemp_frame s m t hl).2.2.2.2.2.2.2.2.2.2.2.2.2.2.2.2.2.2.2.1

@[simp]
theorem setTemp_fr_m_AutoMode (s : HVACState) (m t : Int) (hl : Bool) : (setTemp s m t hl).m_AutoMode = s.m_AutoMode :=
  (setTemp_frame s m t hl).2.2.2.2.2.2.2.2.2.2.2.2.2.2.2.2.2.2.2.2.1

@[simp]
theorem setTemp_fr_m_setMode (s : HVACState) (m t : Int) (hl : Bool) : (setTemp s m t hl).m_setMode = s.m_setMode :=
  (setTemp_frame s m t hl).2.2.2.2.2.2.2.2.2.2.2.2.2.2.2.2.2.2.2.2.2.1

@[simp]
theorem setTemp_fr_m_setHeat (s : HVACState) (m t : Int) (hl : Bool) : (setTemp s m t hl).m_setHeat = s.m_setHeat :=
  (setTemp_frame s m t hl).2.2.2.2.2.2.2.2.2.2.2.2.2.2.2.2.2.2.2.2.2.2.1

@[simp]
theorem setTemp_fr_m_AutoHeat (s : HVACState) (m t : Int) (hl : Bool) : (setTemp s m t hl).m_AutoHeat = s.m_AutoHeat :=
  (setTemp_frame s m t hl).2.2.2.2.2.2.2.2.2.2.2.2.2.2.2.2.2.2.2.2.2.2.2.1

@[simp]
theorem setTemp_fr_m_bRunning (s : HVACState) (m t : Int) (hl : Bool) : (setTemp s m t hl).m_bRunning = s.m_bRunning :=
  (setTemp_frame s m t hl).2.2.2.2.2.2.2.2.2.2.2.2.2.2.2.2.2.2.2.2.2.2.2.2.1

@[simp]
theorem setTemp_fr_m_bStart (s : HVACState) (m t : Int) (hl : Bool) : (setTemp s m t hl).m_bStart = s.m_bStart :=
  (setTemp_frame s m t hl).2.2.2.2.2.2.2.2.2.2.2.2.2.2.2.2.2.2.2.2.2.2.2.2.2.1

@[simp]
theorem setTemp_fr_m_bStop (s : HVACState) (m t : Int) (hl : Bool) : (setTemp s m t hl).m_bStop = s.m_bStop :=
  (setTemp_frame s m t hl).2.2.2.2.2.2.2.2.2.2.2.2.2.2.2.2.2.2.2.2.2.2.2.2.2.2.1

@[simp]
theorem setTemp_fr_m_bRecheck (s : HVACState) (m t : Int) (hl : Bool) : (setTemp s m t hl).m_bRecheck = s.m_bRecheck :=
  (setTemp_frame s m t hl).2.2.2.2.2.2.2.2.2.2.2.2.2.2.2.2.2.2.2.2.2.2.2.2.2.2.2.1

@[simp]
theorem setTemp_fr_m_bEnabled (s : HVACState) (m t : Int) (hl : Bool) : (setTemp s m t hl).m_bEnabled = s.m_bEnabled :=
  (setTemp_frame s m t hl).2.2.2.2.2.2.2.2.2.2.2.2.2.2.2.2.2.2.2.2.2.2.2.2.2.2.2.2.1

@[simp]
theorem setTemp_fr_m_runTotal (s : HVACState) (m t : Int) (hl : Bool) : (setTemp s m t hl).m_runTotal = s.m_runTotal :=
  (setTemp_frame s m t hl).2.2.2.2.2.2.2.2.2.2.2.2.2.2.2.2.2.2.2.2.2.2.2.2.2.2.2.2.2.1

@[simp]
theorem setTemp_fr_m_fanOnTimer (s : HVACState) (m t : Int) (hl : Bool) : (setTemp s m t hl).m_fanOnTimer = s.m_fanOnTimer :=
  (setTemp_frame s m t hl).2.2.2.2.2.2.2.2.2.2.2.2.2.2.2.2.2.2.2.2.2.2.2.2.2.2.2.2.2.2.1

@[simp]
theorem setTemp_fr_m_cycleTimer (s : HVACState) (m t : Int) (hl : Bool) : (setTemp s m t hl).m_cycleTimer = s.m_cycleTimer :=
  (setTemp_frame s m t hl).2.2.2.2.2.2.2.2.2.2.2.2.2.2.2.2.2.2.2.2.2.2.2.2.2.2.2.2.2.2.2.1

@[simp]
theorem setTemp_fr_m_fanPostTimer (s : HVACState) (m t : Int) (hl : Bool) : (setTemp s m t hl).m_fanPostTimer = s.m_fanPostTimer :=
  (setTemp_frame s m t hl).2.2.2.2.2.2.2.2.2.2.2.2.2.2.2.2.2.2.2.2.2.2.2.2.2.2.2.2.2.2.2.2.1

@[simp]
theorem setTemp_fr_m_overrideTimer (s : HVACState) (m t : Int) (hl : Bool) : (setTemp s m t hl).m_overrideTimer = s.m_overrideTimer :=
  (setTemp_frame s m t hl).2.2.2.2.2.2.2.2.2.2.2.2.2.2.2.2.2.2.2.2.2.2.2.2.2.2.2.2.2.2.2.2.2.1

@[simp]
theorem setTemp_fr_m_ovrTemp (s : HVACState) (m t : Int) (hl : Bool) : (setTemp s m t hl).m_ovrTemp = s.m_ovrTemp :=
  (setTemp_frame s m t hl).2.2.2.2.2.2.2.2.2.2.2.2.2.2.2.2.2.2.2.2.2.2.2.2.2.2.2.2.2.2.2.2.2.2.1

@[simp]
theorem setTemp_fr_m_remoteTimer (s : HVACState) (m t : Int) (hl : Bool) : (setTemp s m t hl).m_remoteTimer = s.m_remoteTimer :=
  (setTemp_frame s m t hl).2.2.2.2.2.2.2.2.2.2.2.2.2.2.2.2.2.2.2.2.2.2.2.2.2.2.2.2.2.2.2.2.2.2.2.1

@[simp]
theorem setTemp_fr_m_remoteTimeout (s : HVACState) (m t : Int) (hl : Bool) : (setTemp s m t hl).m_remoteTimeout = s.m_remoteTimeout :=
  (setTemp_frame s m t hl).2.2.2.2.2.2.2.2.2.2.2.2.2.2.2.2.2.2.2.2.2.2.2.2.2.2.2.2.2.2.2.2.2.2.2.2.1

@[simp]
theorem setTemp_fr_m_furnaceFan (s : HVACState) (m t : Int) (hl : Bool) : (setTemp s m t hl).m_furnaceFan = s.m_furnaceFan :=
  (setTemp_frame s m t hl).2.2.2.2.2.2.2.2.2.2.2.2.2.2.2.2.2.2.2.2.2.2.2.2.2.2.2.2.2.2.2.2.2.2.2.2.2.1

@[simp]
theorem setTemp_fr_m_notif (s : HVACState) (m t : Int) (hl : Bool) : (setTemp s m t hl).m_notif = s.m_notif :=
  (setTemp_frame s m t hl).2.2.2.2.2.2.2.2.2.2.2.2.2.2.2.2.2.2.2.2.2.2.2.2.2.2.2.2.2.2.2.2.2.2.2.2.2.2.1

@[simp]
theorem setTemp_fr_m_idleTimer (s : HVACState) (m t : Int) (hl : Bool) : (setTemp s m t hl).m_idleTimer = s.m_idleTimer :=
  (setTemp_frame s m t hl).2.2.2.2.2.2.2.2.2.2.2.2.2.2.2.2.2.2.2.2.2.2.2.2.2.2.2.2.2.2.2.2.2.2.2.2.2.2.2.1

@[simp]
theorem setTemp_fr_nSecs (s : HVACState) (m t : Int) (hl : Bool) : (setTemp s m t hl).nSecs = s.nSecs :=
  (setTemp_frame s m t hl).2.2.2.2.2.2.2.2.2.2.2.2.2.2.2.2.2.2.2.2.2.2.2.2.2.2.2.2.2.2.2.2.2.2.2.2.2.2.2.2.1

@[simp]
theorem setTemp_fr_pFan (s : HVACState) (m t : Int) (hl : Bool) : (setTemp s m t hl).pFan = s.pFan :=
  (setTemp_frame s m t hl).2.2.2.2.2.2.2.2.2.2.2.2.2.2.2.2.2.2.2.2.2.2.2.2.2.2.2.2.2.2.2.2.2.2.2.2.2.2.2.2.2.1

@[simp]
theorem setTemp_fr_pCool (s : HVACState) (m t : Int) (hl : Bool) : (setTemp s m t hl).pCool = s.pCool :=
  (setTemp_frame s m t hl).2.2.2.2.2.2.2.2.2.2.2.2.2.2.2.2.2.2.2.2.2.2.2.2.2.2.2.2.2.2.2.2.2.2.2.2.2.2.2.2.2.2.1

@[simp]
theorem setTemp_fr_pHeat (s : HVACState) (m t : Int) (hl : Bool) : (setTemp s m t hl).pHeat = s.pHeat :=
  (setTemp_frame s m t hl).2.2.2.2.2.2.2.2.2.2.2.2.2.2.2.2.2.2.2.2.2.2.2.2.2.2.2.2.2.2.2.2.2.2.2.2.2.2.2.2.2.2.2

@[simp]
theorem tempCheck_fr_cycleMin (s : HVACState) (b : Bool) : (tempCheck s b).cycleMin = s.cycleMin := by
  unfold tempCheck
  try dsimp only
  split_ifs <;> simp only [tcStopCheck_fr_cycleMin, preCalcCycle_fr_cycleMin] <;> rfl

@[simp]
theorem tempCheck_fr_cycleMax (s : HVACState) (b : Bool) : (tempCheck s b).cycleMax = s.cycleMax := by
  unfold tempCheck
  try dsimp only
  split_ifs <;> simp only [tcStopCheck_fr_cycleMax, preCalcCycle_fr_cycleMax] <;> rfl

@[simp]
theorem tempCheck_fr_idleMin (s : HVACState) (b : Bool) : (tempCheck s b).idleMin = s.idleMin := by
  unfold tempCheck
  try dsimp only
  split_ifs <;> simp only [tcStopCheck_fr_idleMin, preCalcCycle_fr_idleMin] <;> rfl

@[simp]
theorem tempCheck_fr_cycleThresh (s : HVACState) (b : Bool) : (tempCheck s b).cycleThresh = s.cycleThresh := by
  unfold tempCheck
  try dsimp only
  split_ifs <;> simp only [tcStopCheck_fr_cycleThresh, preCalcCycle_fr_cycleThresh] <;> rfl

@[simp]
theorem tempCheck_fr_coolTemp0 (s : HVACState) (b : Bool) : (tempCheck s b).coolTemp0 = s.coolTemp0 := by
  unfold tempCheck
  try dsimp only
  split_ifs <;> simp only [tcStopCheck_fr_coolTemp0, preCalcCycle_fr_coolTemp0] <;> rfl

@[simp]
theorem tempCheck_fr_coolTemp1 (s : HVACState) (b : Bool) : (tempCheck s b).coolTemp1 = s.coolTemp1 := by
  unfold tempCheck
  try dsimp only
  split_ifs <;> simp only [tcStopCheck_fr_coolTemp1, preCalcCycle_fr_coolTemp1] <;> rfl

@[simp]
theorem tempCheck_fr_heatTemp0 (s : HVACState) (b : Bool) : (tempCheck s b).heatTemp0 = s.heatTemp0 := by
  unfold tempCheck
  try dsimp only
  split_ifs <;> simp only [tcStopCheck_fr_heatTemp0, preCalcCycle_fr_heatTemp0] <;> rfl

@[simp]
theorem tempCheck_fr_heatTemp1 (s : HVACState) (b : Bool) : (tempCheck s b).heatTemp1 = s.heatTemp1 := by
  unfold tempCheck
  try dsimp only
  split_ifs <;> simp only [tcStopCheck_fr_heatTemp1, preCalcCycle_fr_heatTemp1] <;> rfl

@[simp]
theorem tempCheck_fr_eHeatThresh (s : HVACState) (b : Bool) : (tempCheck s b).eHeatThresh = s.eHeatThresh := by
  unfold tempCheck
  try dsimp only
  split_ifs <;> simp only [tcStopCheck_fr_eHeatThresh, preCalcCycle_fr_eHeatThresh] <;> rfl

@[simp]
theorem tempCheck_fr_fanPostDelay0 (s : HVACState) (b : Bool) : (tempCheck s b).fanPostDelay0 = s.fanPostDelay0 := by
  unfold tempCheck
  try dsimp only
  split_ifs <;> simp only [tcStopCheck_fr_fanPostDelay0, preCalcCycle_fr_fanPostDelay0] <;> rfl

@[simp]
theorem tempCheck_fr_fanPostDelay1 (s : HVACState) (b : Bool) : (tempCheck s b).fanPostDelay1 = s.fanPostDelay1 := by
  unfold tempCheck
  try dsimp only
  split_ifs <;> simp only [tcStopCheck_fr_fanPostDelay1, preCalcCycle_fr_fanPostDelay1] <;> rfl

@[simp]
theorem tempCheck_fr_overrideTime (s : HVACState) (b : Bool) : (tempCheck s b).overrideTime = s.overrideTime := by
  unfold tempCheck
  try dsimp only
  split_ifs <;> simp only [tcStopCheck_fr_overrideTime, preCalcCycle_fr_overrideTime] <;> rfl

@[simp]
theorem tempCheck_fr_filterMinutes (s : HVACState) (b : Bool) : (tempCheck s b).filterMinutes = s.filterMinutes := by
  unfold tempCheck
  try dsimp only
  split_ifs <;> simp only [tcStopCheck_fr_filterMinutes, preCalcCycle_fr_filterMinutes] <;> rfl

@[simp]
theorem tempCheck_fr_Mode (s : HVACState) (b : Bool) : (tempCheck s b).Mode = s.Mode := by
  unfold tempCheck
  try dsimp only
  split_ifs <;> simp only [tcStopCheck_fr_Mode, preCalcCycle_fr_Mode] <;> rfl

@[simp]
theorem tempCheck_fr_heatMode (s : HVACState) (b : Bool) : (tempCheck s b).heatMode = s.heatMode := by
  unfold tempCheck
  try dsimp only
  split_ifs <;> simp only [tcStopCheck_fr_heatMode, preCalcCycle_fr_heatMode] <;> rfl

@[simp]
theorem tempCheck_fr_m_outTemp (s : HVACState) (b : Bool) : (tempCheck s b).m_outTemp = s.m_outTemp := by
  unfold tempCheck
  try dsimp only
  split_ifs <;> simp only [tcStopCheck_fr_m_outTemp, preCalcCycle_fr_m_outTemp] <;> rfl

@[simp]
theorem tempCheck_fr_m_inTemp (s : HVACState) (b : Bool) : (tempCheck s b).m_inTemp = s.m_inTemp := by
  unfold tempCheck
  try dsimp only
  split_ifs <;> simp only [tcStopCheck_fr_m_inTemp, preCalcCycle_fr_m_inTemp] <;> rfl

@[simp]
theorem tempCheck_fr_m_rh (s : HVACState) (b : Bool) : (tempCheck s b).m_rh = s.m_rh := by
  unfold tempCheck
  try dsimp only
  split_ifs <;> simp only [tcStopCheck_fr_m_rh, preCalcCycle_fr_m_rh] <;> rfl

@[simp]
theorem tempCheck_fr_m_bFanRunning (s : HVACState) (b : Bool) : (tempCheck s b).m_bFanRunning = s.m_bFanRunning := by
  unfold tempCheck
  try dsimp only
  split_ifs <;> simp only [tcStopCheck_fr_m_bFanRunning, preCalcCycle_fr_m_bFanRunning] <;> rfl

@[simp]
theorem tempCheck_fr_m_outMin0 (s : HVACState) (b : Bool) : (tempCheck s b).m_outMin0 = s.m_outMin0 := by
  unfold tempCheck
  try dsimp only
  split_ifs <;> simp only [tcStopCheck_fr_m_outMin0, preCalcCycle_fr_m_outMin0] <;> rfl

@[simp]
theorem tempCheck_fr_m_outMin1 (s : HVACState) (b : Bool) : (tempCheck s b).m_outMin1 = s.m_outMin1 := by
  unfold tempCheck
  try dsimp only
  split_ifs <;> simp only [tcStopCheck_fr_m_outMin1, preCalcCycle_fr_m_outMin1] <;> rfl

@[simp]
theorem tempCheck_fr_m_outMax0 (s : HVACState) (b : Bool) : (tempCheck s b).m_outMax0 = s.m_outMax0 := by
  unfold tempCheck
  try dsimp only
  split_ifs <;> simp only [tcStopCheck_fr_m_outMax0, preCalcCycle_fr_m_outMax0] <;> rfl

@[simp]
theorem tempCheck_fr_m_outMax1 (s : HVACState) (b : Bool) : (tempCheck s b).m_outMax1 = s.m_outMax1 := by
  unfold tempCheck
  try dsimp only
  split_ifs <;> simp only [tcStopCheck_fr_m_outMax1, preCalcCycle_fr_m_outMax1] <;> rfl

@[simp]
theorem tempCheck_fr_m_bFanMode (s : HVACState) (b : Bool) : (tempCheck s b).m_bFanMode = s.m_bFanMode := by
  unfold tempCheck
  try dsimp only
  split_ifs <;> simp only [tcStopCheck_fr_m_bFanMode, preCalcCycle_fr_m_bFanMode] <;> rfl

@[simp]
theorem tempCheck_fr_m_setMode (s : HVACState) (b : Bool) : (tempCheck s b).m_setMode = s.m_setMode := by
  unfold tempCheck
  try dsimp only
  split_ifs <;> simp only [tcStopCheck_fr_m_setMode, preCalcCycle_fr_m_setMode] <;> rfl

@[simp]
theorem tempCheck_fr_m_setHeat (s : HVACState) (b : Bool) : (tempCheck s b).m_setHeat = s.m_setHeat := by
  unfold tempCheck
  try dsimp only
  split_ifs <;> simp only [tcStopCheck_fr_m_setHeat, preCalcCycle_fr_m_setHeat] <;> rfl

@[simp]
theorem tempCheck_fr_m_bRunning (s : HVACState) (b : Bool) : (tempCheck s b).m_bRunning = s.m_bRunning := by
  unfold tempCheck
  try dsimp only
  split_ifs <;> simp only [tcStopCheck_fr_m_bRunning, preCalcCycle_fr_m_bRunning] <;> rfl

@[simp]
theorem tempCheck_fr_m_bEnabled (s : HVACState) (b : Bool) : (tempCheck s b).m_bEnabled = s.m_bEnabled := by
  unfold tempCheck
  try dsimp only
  split_ifs <;> simp only [tcStopCheck_fr_m_bEnabled, preCalcCycle_fr_m_bEnabled] <;> rfl

@[simp]
theorem tempCheck_fr_m_runTotal (s : HVACState) (b : Bool) : (tempCheck s b).m_runTotal = s.m_runTotal := by
  unfold tempCheck
  try dsimp only
  split_ifs <;> simp only [tcStopCheck_fr_m_runTotal, preCalcCycle_fr_m_runTotal] <;> rfl

@[simp]
theorem tempCheck_fr_m_fanOnTimer (s : HVACState) (b : Bool) : (tempCheck s b).m_fanOnTimer = s.m_fanOnTimer := by
  unfold tempCheck
  try dsimp only
  split_ifs <;> simp only [tcStopCheck_fr_m_fanOnTimer, preCalcCycle_fr_m_fanOnTimer] <;> rfl

@[simp]
theorem tempCheck_fr_m_cycleTimer (s : HVACState) (b : Bool) : (tempCheck s b).m_cycleTimer = s.m_cycleTimer := by
  unfold tempCheck
  try dsimp only
  split_ifs <;> simp only [tcStopCheck_fr_m_cycleTimer, preCalcCycle_fr_m_cycleTimer] <;> rfl

@[simp]
theorem tempCheck_fr_m_fanPostTimer (s : HVACState) (b : Bool) : (tempCheck s b).m_fanPostTimer = s.m_fanPostTimer := by
  unfold tempCheck
  try dsimp only
  split_ifs <;> simp only [tcStopCheck_fr_m_fanPostTimer, preCalcCycle_fr_m_fanPostTimer] <;> rfl

@[simp]
theorem tempCheck_fr_m_overrideTimer (s : HVACState) (b : Bool) : (tempCheck s b).m_overrideTimer = s.m_overrideTimer := by
  unfold tempCheck
  try dsimp only
  split_ifs <;> simp only [tcStopCheck_fr_m_overrideTimer, preCalcCycle_fr_m_overrideTimer] <;> rfl

@[simp]
theorem tempCheck_fr_m_ovrTemp (s : HVACState) (b : Bool) : (tempCheck s b).m_ovrTemp = s.m_ovrTemp := by
  unfold tempCheck
  try dsimp only
  split_ifs <;> simp only [tcStopCheck_fr_m_ovrTemp, preCalcCycle_fr_m_ovrTemp] <;> rfl

@[simp]
theorem tempCheck_fr_m_remoteTimer (s : HVACState) (b : Bool) : (tempCheck s b).m_remoteTimer = s.m_remoteTimer := by
  unfold tempCheck
  try dsimp only
  split_ifs <;> simp only [tcStopCheck_fr_m_remoteTimer, preCalcCycle_fr_m_remoteTimer] <;> rfl

@[simp]
theorem tempCheck_fr_m_remoteTimeout (s : HVACState) (b : Bool) : (tempCheck s b).m_remoteTimeout = s.m_remoteTimeout := by
  unfold tempCheck
  try dsimp only
  split_ifs <;> simp only [tcStopCheck_fr_m_remoteTimeout, preCalcCycle_fr_m_remoteTimeout] <;> rfl

@[simp]
theorem tempCheck_fr_m_furnaceFan (s : HVACState) (b : Bool) : (tempCheck s b).m_furnaceFan = s.m_furnaceFan := by
  unfold tempCheck
  try dsimp only
  split_ifs <;> simp only [tcStopCheck_fr_m_furnaceFan, preCalcCycle_fr_m_furnaceFan] <;> rfl

@[simp]
theorem tempCheck_fr_m_notif (s : HVACState) (b : Bool) : (tempCheck s b).m_notif = s.m_notif := by
  unfold tempCheck
  try dsimp only
  split_ifs <;> simp only [tcStopCheck_fr_m_notif, preCalcCycle_fr_m_notif] <;> rfl

@[simp]
theorem tempCheck_fr_m_idleTimer (s : HVACState) (b : Bool) : (tempCheck s b).m_idleTimer = s.m_idleTimer := by
  unfold tempCheck
  try dsimp only
  split_ifs <;> simp only [tcStopCheck_fr_m_idleTimer, preCalcCycle_fr_m_idleTimer] <;> rfl

@[simp]
theorem tempCheck_fr_nSecs (s : HVACState) (b : Bool) : (tempCheck s b).nSecs = s.nSecs := by
  unfold tempCheck
  try dsimp only
  split_ifs <;> simp only [tcStopCheck_fr_nSecs, preCalcCycle_fr_nSecs] <;> rfl

@[simp]
theorem tempCheck_fr_pFan (s : HVACState) (b : Bool) : (tempCheck s b).pFan = s.pFan := by
  unfold tempCheck
  try dsimp only
  split_ifs <;> simp only [tcStopCheck_fr_pFan, preCalcCycle_fr_pFan] <;> rfl

@[simp]
theorem tempCheck_fr_pCool (s : HVACState) (b : Bool) : (tempCheck s b).pCool = s.pCool := by
  unfold tempCheck
  try dsimp only
  split_ifs <;> simp only [tcStopCheck_fr_pCool, preCalcCycle_fr_pCool] <;> rfl

@[simp]
theorem tempCheck_fr_pHeat (s : HVACState) (b : Bool) : (tempCheck s b).pHeat = s.pHeat := by
  unfold tempCheck
  try dsimp only
  split_ifs <;> simp only [tcStopCheck_fr_pHeat, preCalcCycle_fr_pHeat] <;> rfl


theorem preCalcCycle_cool (s : HVACState) :
    (preCalcCycle s Mode_Cool).1 = calcTargetTemp s Mode_Cool := by
  unfold preCalcCycle
  norm_num [Mode_Cool]

theorem preCalcCycle_heat (s : HVACState) :
    (preCalcCycle s Mode_Heat).1 = calcTargetTemp s Mode_Heat := by
  unfold preCalcCycle
  norm_num [Mode_Cool, Mode_Heat]

theorem tempCheck_run_recheck (s : HVACState)
    (h1 : s.m_inTemp ≠ 0) (h2 : s.m_bEnabled = true) (h3 : ¬ s.Mode = Mode_Off)
    (h4 : s.m_bRunning = true) (h5 : ¬ s.m_cycleTimer < s.cycleMin) :
    tempCheck s true =
      tcStopCheck (preCalcCycle { s with m_bRecheck := false } s.Mode).1
        (if s.Mode = Mode_Auto then s.m_AutoMode else s.Mode) := by
  unfold tempCheck
  rw [if_neg (by simp [h1, h2]), if_neg h3, if_pos h4, if_neg h5]
  dsimp only
  rw [if_pos (show (true = true) ∨ s.m_bRecheck = true from Or.inl rfl)]

theorem svcStart_id_running (s : HVACState) (h : s.m_bRunning = true) :
    svcStart s = s := by
  unfold svcStart
  rw [if_neg (by simp [h])]

theorem svcStart_id_no_start (s : HVACState) (h : s.m_bStart = false) :
    svcStart s = s := by
  unfold svcStart
  rw [if_neg (by simp [h])]

theorem svcStop_id_no_stop (s : HVACState) (h : s.m_bStop = false) :
    svcStop s = s := by
  unfold svcStop
  rw [if_neg (by simp [h])]

theorem svcStop_id_not_running (s : HVACState) (h : s.m_bRunning = false) :
    svcStop s = s := by
  unfold svcStop
  rw [if_neg (by simp [h])]

theorem svcStart_starts (s : HVACState) (h1 : s.m_bStart = true) (h2 : s.m_bRunning = false) :
    (svcStart s).m_bRunning = true ∧ (svcStart s).m_cycleTimer = 0 ∧
    (svcStart s).m_bStart = false := by
  unfold svcStart
  rw [if_pos (by simp [h1, h2])]
  dsimp only
  split_ifs <;> simp

theorem svcStop_stops (s : HVACState) (h1 : s.m_bStop = true) (h2 : s.m_bRunning = true) :
    (svcStop s).m_bRunning = false ∧ (svcStop s).m_bStop = false ∧
    (svcStop s).m_idleTimer = 0 := by
  unfold svcStop
  rw [if_pos (by simp [h1, h2])]
  dsimp only
  split_ifs <;> simp

theorem svcModeChange_id (s : HVACState) (h1 : s.m_setMode = s.Mode)
    (h2 : s.m_setHeat = s.heatMode) : svcModeChange s = s := by
  unfold svcModeChange
  rw [if_neg (by simp [h1, h2])]

theorem svcModeChange_bStop_not_running (s : HVACState) (h : s.m_bRunning = false) :
    (svcModeChange s).m_bStop = s.m_bStop := by
  unfold svcModeChange
  try dsimp only
  split_ifs <;> simp_all

theorem tempCheck_bStop_raise (s : HVACState) (b : Bool)
    (h0 : s.m_bStop = false) (h1 : (tempCheck s b).m_bStop = true) :
    s.m_bRunning = true ∧ s.cycleMin ≤ s.m_cycleTimer := by
  unfold tempCheck at h1
  split_ifs at h1
  all_goals try simp [h0] at h1
  all_goals exact ⟨by simp_all, by omega⟩

theorem tempCheck_bStart_raise (s : HVACState) (b : Bool)
    (h0 : s.m_bStart = false) (h1 : (tempCheck s b).m_bStart = true) :
    s.m_bRunning = false ∧ s.idleMin ≤ s.m_idleTimer := by
  unfold tempCheck at h1
  split_ifs at h1
  all_goals try simp [h0] at h1
  all_goals exact ⟨by simp_all, by omega⟩

theorem tempCheck_bStop_not_running (s : HVACState) (b : Bool)
    (h : s.m_bRunning = false) : (tempCheck s b).m_bStop = s.m_bStop := by
  unfold tempCheck
  split_ifs <;> simp_all

theorem tempCheck_bStart_running (s : HVACState) (b : Bool)
    (h : s.m_bRunning = true) : (tempCheck s b).m_bStart = s.m_bStart := by
  unfold tempCheck
  split_ifs <;> simp_all

theorem setTempCool_reject (s : HVACState) (T : Int) (hl : Bool)
    (h : T < 650 ∨ T > 880) : setTempCool s T hl = s := by
  unfold setTempCool
  rw [if_pos h]

theorem setTempHeat_reject (s : HVACState) (T : Int) (hl : Bool)
    (h : T < 630 ∨ T > 860) : setTempHeat s T hl = s := by
  unfold setTempHeat
  rw [if_pos h]

/-- C9 (amended): an out-of-range temperature given to setTemp is rejected
outright: the call returns with the whole state unchanged.  Nothing is
clamped to the nearest bound. -/
theorem C9_out_of_range_rejected (s : HVACState) (T : Int) (hl : Bool) :
    ((T < 650 ∨ T > 880) → setTemp s Mode_Cool T hl = s) ∧
    ((T < 630 ∨ T > 860) → setTemp s Mode_Heat T hl = s) := by
  constructor <;> intro h <;> unfold setTemp <;> dsimp only <;>
    norm_num [Mode_Cool, Mode_Heat, Mode_Auto]
  · exact setTempCool_reject s T hl h
  · exact setTempHeat_reject s T hl h

theorem svcModeChange_bStop_true (s : HVACState) (h : s.m_bStop = true) :
    (svcModeChange s).m_bStop = true := by
  unfold svcModeChange
  try dsimp only
  split_ifs <;> simp_all

/-- Shape of a service tick that starts a cycle: the post state came out of
the start branch, so the cycle timer is 0, the start signal was pending, and
the idle timer was just incremented. -/
theorem service_start_shape (s : HVACState) (b : Bool)
    (h1 : s.m_bRunning = false) (h3 : (service s b).m_bRunning = true) :
    (service s b).m_cycleTimer = 0 ∧ s.m_bStart = true ∧
    (service s b).m_idleTimer = s.m_idleTimer + 1 ∧
    (service s b).idleMin = s.idleMin := by
  unfold service at h3 ⊢
  dsimp only at h3 ⊢
  rw [if_neg (show ¬ (svcTimers s).m_bRunning = true by simp [h1])] at h3 ⊢
  unfold serviceRest at h3 ⊢
  set T : HVACState := { svcTimers s with m_idleTimer := (svcTimers s).m_idleTimer + 1 } with hT
  set M : HVACState := svcModeChange T with hM
  have hMrun : M.m_bRunning = false := by simp [hM, hT, h1]
  have hMstart : M.m_bStart = s.m_bStart := by simp [hM, hT]
  have hMstop : M.m_bStop = s.m_bStop := by
    rw [hM, svcModeChange_bStop_not_running T (by simp [hT, h1])]
    simp [hT]
  rcases Bool.eq_false_or_eq_true s.m_bStart with hs | hs
  · have hv := svcStart_starts M (by rw [hMstart, hs]) hMrun
    rcases Bool.eq_false_or_eq_true (svcStart M).m_bStop with hvs | hvs
    · have hw := svcStop_stops (svcStart M) hvs hv.1
      rw [tempCheck_fr_m_bRunning, hw.1] at h3
      exact absurd h3 (by simp)
    · rw [svcStop_id_no_stop _ hvs] at h3 ⊢
      refine ⟨?_, hs, ?_, ?_⟩
      · rw [tempCheck_fr_m_cycleTimer]
        exact hv.2.1
      · rw [tempCheck_fr_m_idleTimer, svcStart_fr_m_idleTimer]
        simp [hM, hT]
      · rw [tempCheck_fr_idleMin, svcStart_fr_idleMin]
        simp [hM, hT]
  · rw [svcStart_id_no_start M (by rw [hMstart, hs])] at h3
    rw [svcStop_id_not_running M hMrun] at h3
    rw [tempCheck_fr_m_bRunning, hMrun] at h3
    exact absurd h3 (by simp)

/-- C3 (amended): a start request is only raised by the temperature check
when idleTimer is at or past idleMin, and at the tick that performs the
start, idleTimer is at or past idleMin provided the request-time guard still
holds for the current idleMin (only raising idleMin between request and
start can break it). -/
theorem C3_idleMin_guard :
    (∀ (s : HVACState) (b : Bool), s.m_bStart = false →
      (tempCheck s b).m_bStart = true → s.m_bRunning = false ∧ s.idleMin ≤ s.m_idleTimer) ∧
    (∀ (s : HVACState) (b : Bool), s.m_bRunning = false →
      (s.m_bStart = true → s.idleMin ≤ s.m_idleTimer) →
      (service s b).m_bRunning = true →
      (service s b).idleMin ≤ (service s b).m_idleTimer) := by
  constructor
  · exact fun s b h0 h1 => tempCheck_bStart_raise s b h0 h1
  · intro s b h1 h2 h3
    obtain ⟨hc0, hstart, hidle, hmin⟩ := service_start_shape s b h1 h3
    rw [hidle, hmin]
    exact Nat.le_succ_of_le (h2 hstart)

/-- C2 (amended): a stop request still pending at the end of a service tick
was raised by the temperature check, so the cycle timer had reached cycleMin
at that instant; stops forced by cycleMax and stops caused by a pending mode
or heat-mode change are executed inside the same tick and guarantee only the
20 second lockout, not cycleMin. -/
theorem C2_cycleMin_stop (s : HVACState) (b : Bool)
    (h1 : s.m_bRunning = true) (h2 : s.m_bStop = false)
    (h3 : (service s b).m_bStop = true) :
    s.cycleMin ≤ s.m_cycleTimer + 1 ∧
    (service s b).m_cycleTimer = s.m_cycleTimer + 1 := by
  unfold service at h3 ⊢
  dsimp only at h3 ⊢
  rw [if_pos (show (svcTimers s).m_bRunning = true by simp [h1])] at h3 ⊢
  by_cases hc : (svcTimers s).m_cycleTimer + 1 < 20
  · rw [if_pos hc] at h3
    simp [h2] at h3
  · rw [if_neg hc] at h3 ⊢
    unfold serviceRest at h3 ⊢
    set T2 : HVACState :=
      { svcTimers s with
          m_runTotal := (svcTimers s).m_runTotal + 1,
          m_cycleTimer := (svcTimers s).m_cycleTimer + 1 } with hT2
    by_cases hmax : T2.m_cycleTimer ≥ T2.cycleMax
    · rw [if_pos hmax] at h3 ⊢
      set T3 : HVACState := { T2 with m_bStop := true, m_notif := Note.Note_CycleLimit } with hT3
      set M : HVACState := svcModeChange T3 with hM
      have hMrun : M.m_bRunning = true := by simp [hM, hT3, hT2, h1]
      have hMstop : M.m_bStop = true := by
        rw [hM]
        exact svcModeChange_bStop_true T3 (by simp [hT3])
      rw [svcStart_id_running M hMrun] at h3
      have hw := svcStop_stops M hMstop hMrun
      rw [tempCheck_bStop_not_running _ _ hw.1, hw.2.1] at h3
      exact absurd h3 (by simp)
    · rw [if_neg hmax] at h3 ⊢
      set M : HVACState := svcModeChange T2 with hM
      have hMrun : M.m_bRunning = true := by simp [hM, hT2, h1]
      have hMcyc : M.m_cycleTimer = s.m_cycleTimer + 1 := by simp [hM, hT2]
      have hMmin : M.cycleMin = s.cycleMin := by simp [hM, hT2]
      rw [svcStart_id_running M hMrun] at h3 ⊢
      rcases Bool.eq_false_or_eq_true M.m_bStop with hMs | hMs
      · have hw := svcStop_stops M hMs hMrun
        rw [tempCheck_bStop_not_running _ _ hw.1, hw.2.1] at h3
        exact absurd h3 (by simp)
      · rw [svcStop_id_no_stop M hMs] at h3 ⊢
        have := tempCheck_bStop_raise M b hMs h3
        constructor
        · rw [hMmin, hMcyc] at this
          exact this.2
        · rw [tempCheck_fr_m_cycleTimer, hMcyc]

theorem applySensor_keeps (s : HVACState) (e : SensorEv) :
    ((applySensor s e).m_bRunning = s.m_bRunning) ∧
    ((applySensor s e).m_cycleTimer = s.m_cycleTimer) ∧
    ((applySensor s e).m_bStop = s.m_bStop) ∧
    ((applySensor s e).m_bStart = s.m_bStart) := by
  cases e <;> unfold applySensor updateIndoorTemp updateOutdoorTemp updatePeaks <;>
    try dsimp only
  all_goals try split_ifs
  all_goals simp

theorem sensorFold_frame (l : List SensorEv) (s : HVACState) :
    ((l.foldl applySensor s).m_bRunning = s.m_bRunning) ∧
    ((l.foldl applySensor s).m_cycleTimer = s.m_cycleTimer) ∧
    ((l.foldl applySensor s).m_bStop = s.m_bStop) ∧
    ((l.foldl applySensor s).m_bStart = s.m_bStart) := by
  induction l generalizing s with
  | nil => simp
  | cons e t ih =>
    simp only [List.foldl_cons]
    obtain ⟨a, b, c, d⟩ := ih (applySensor s e)
    obtain ⟨a2, b2, c2, d2⟩ := applySensor_keeps s e
    exact ⟨by rw [a, a2], by rw [b, b2], by rw [c, c2], by rw [d, d2]⟩

/-- One environment step inside the 20 second lockout: the tick returns at
the cycle timer guard, so nothing below it runs. -/
theorem envStep_lockout (st : HVACState) (i : Bool × List SensorEv)
    (h1 : st.m_bRunning = true) (h2 : st.m_cycleTimer + 1 < 20) :
    (envStep st i).m_bRunning = true ∧
    (envStep st i).m_cycleTimer = st.m_cycleTimer + 1 ∧
    (envStep st i).m_bStop = st.m_bStop ∧
    (envStep st i).m_bStart = st.m_bStart := by
  unfold envStep
  obtain ⟨a, b, c, d⟩ := sensorFold_frame i.2 st
  set x : HVACState := i.2.foldl applySensor st with hx
  unfold service
  dsimp only
  rw [if_pos (show (svcTimers x).m_bRunning = true by simp [a, h1])]
  rw [if_pos (show (svcTimers x).m_cycleTimer + 1 < 20 by simp [b]; omega)]
  refine ⟨by simp [a, h1], by simp [b], by simp [c], by simp [d]⟩

/-- C4: a start that a tick performs keeps running through the entire
20 second lockout: for the following 19 ticks, under every temperature
trajectory delivered in between, the system is still running, the cycle
timer counts the ticks, and the pending start/stop signals are not
re-evaluated (the service tick returns at the cycle timer guard).  A cycle
therefore never self-terminates while cycleTimer is below 20. -/
theorem C4_start_lockout (s : HVACState) (b0 : Bool) (ins : Nat → Bool × List SensorEv)
    (h1 : s.m_bRunning = false) (h3 : (service s b0).m_bRunning = true) :
    ∀ k, k ≤ 19 →
      (envRun (service s b0) ins k).m_bRunning = true ∧
      (envRun (service s b0) ins k).m_cycleTimer = k ∧
      (envRun (service s b0) ins k).m_bStop = (service s b0).m_bStop ∧
      (envRun (service s b0) ins k).m_bStart = (service s b0).m_bStart := by
  have hc0 := (service_start_shape s b0 h1 h3).1
  intro k
  induction k with
  | zero => exact fun _ => ⟨h3, hc0, rfl, rfl⟩
  | succ n ih =>
    intro hn
    obtain ⟨a, b, c, d⟩ := ih (by omega)
    have hstep := envStep_lockout (envRun (service s b0) ins n) (ins n) a (by omega)
    rw [b] at hstep
    exact ⟨hstep.1, by rw [show envRun (service s b0) ins (n + 1) = envStep (envRun (service s b0) ins n) (ins n) from rfl]; exact hstep.2.1,
           by rw [show envRun (service s b0) ins (n + 1) = envStep (envRun (service s b0) ins n) (ins n) from rfl, hstep.2.2.1, c],
           by rw [show envRun (service s b0) ins (n + 1) = envStep (envRun (service s b0) ins n) (ins n) from rfl, hstep.2.2.2, d]⟩

theorem svcOverride_id (s : HVACState) (h : s.m_overrideTimer = 0) :
    svcOverride s = s := by
  unfold svcOverride
  rw [if_neg (by simp [h])]

theorem coolTarget_congr (s1 s2 : HVACState)
    (h1 : s1.m_outTemp = s2.m_outTemp) (h2 : s1.m_outMin0 = s2.m_outMin0)
    (h3 : s1.m_outMin1 = s2.m_outMin1) (h4 : s1.m_outMax0 = s2.m_outMax0)
    (h5 : s1.m_outMax1 = s2.m_outMax1) (h6 : s1.coolTemp0 = s2.coolTemp0)
    (h7 : s1.coolTemp1 = s2.coolTemp1) :
    coolTarget s1 = coolTarget s2 := by
  unfold coolTarget
  rw [h1, h2, h3, h4, h5, h6, h7]

theorem calcTargetTemp_cool_target (s : HVACState) :
    (calcTargetTemp s Mode_Cool).m_targetTemp =
      toInt16 (coolTarget (calcRevSync s Mode_Cool) + s.m_ovrTemp) := by
  unfold calcTargetTemp
  dsimp only
  rw [if_pos rfl]
  simp

theorem tcStopCheck_id_cool (s : HVACState)
    (h : ¬ (s.m_inTemp ≤ s.m_targetTemp - s.cycleThresh)) :
    tcStopCheck s Mode_Cool = s := by
  unfold tcStopCheck
  rw [if_pos rfl, if_neg h]

/-- The fields a cycleMax run preserves tick over tick, relative to the
start state s, at tick k. -/
structure CMaxInv (s st : HVACState) (k : Nat) : Prop where
  run : st.m_bRunning = true
  ct : st.m_cycleTimer = k
  stop : st.m_bStop = false
  start : st.m_bStart = false
  rchk : st.m_bRecheck = false
  ovt : st.m_overrideTimer = 0
  mode : st.Mode = Mode_Cool
  pend1 : st.m_setMode = st.Mode
  pend2 : st.m_setHeat = st.heatMode
  cmax : st.cycleMax = s.cycleMax
  thr : st.cycleThresh = s.cycleThresh
  c0 : st.coolTemp0 = s.coolTemp0
  c1 : st.coolTemp1 = s.coolTemp1
  tin : st.m_inTemp = s.m_inTemp
  tout : st.m_outTemp = s.m_outTemp
  omin0 : st.m_outMin0 = s.m_outMin0
  omin1 : st.m_outMin1 = s.m_outMin1
  omax0 : st.m_outMax0 = s.m_outMax0
  omax1 : st.m_outMax1 = s.m_outMax1
  ovr : st.m_ovrTemp = s.m_ovrTemp
  tgt : st.m_targetTemp = s.m_targetTemp

theorem svcTimers_cmax_inv (s st : HVACState) (k : Nat) (inv : CMaxInv s st k) :
    CMaxInv s (svcTimers st) k := by
  obtain ⟨run, ct, stop, start, rchk, ovt, mode, pend1, pend2, cmax, thr, c0, c1,
    tin, tout, omin0, omin1, omax0, omax1, ovr, tgt⟩ := inv
  have hmid : (svcRemote (svcFanPost (svcCounters st))).m_overrideTimer = 0 := by simp [ovt]
  constructor <;>
    first
    | (unfold svcTimers
       rw [svcOverride_id _ hmid]
       simp_all)

theorem tempCheck_cmax_inv (s st : HVACState) (b : Bool) (k : Nat)
    (hfix : (calcTargetTemp s Mode_Cool).m_targetTemp = s.m_targetTemp)
    (hth : s.m_targetTemp - s.cycleThresh < s.m_inTemp)
    (inv : CMaxInv s st k) :
    CMaxInv s (tempCheck st b) k := by
  have hsfix : toInt16 (coolTarget s + s.m_ovrTemp) = s.m_targetTemp := by
    rw [← hfix, calcTargetTemp_cool_target]
    rw [coolTarget_congr (calcRevSync s Mode_Cool) s (by simp) (by simp) (by simp)
      (by simp) (by simp) (by simp) (by simp)]
  unfold tempCheck
  by_cases g1 : st.m_inTemp = 0 ∨ st.m_bEnabled = false
  · rw [if_pos g1]
    exact inv
  · rw [if_neg g1, if_neg (by rw [inv.mode]; decide), if_pos inv.run]
    by_cases g4 : st.m_cycleTimer < st.cycleMin
    · rw [if_pos g4]
      exact inv
    · rw [if_neg g4]
      dsimp only
      rw [show (if st.Mode = Mode_Auto then st.m_AutoMode else st.Mode) = Mode_Cool from by
            rw [if_neg (by rw [inv.mode]; decide), inv.mode]]
      by_cases g6 : b = true ∨ st.m_bRecheck = true
      · rw [if_pos g6]
        rw [show (preCalcCycle { st with m_bRecheck := false } st.Mode)
              = preCalcCycle { st with m_bRecheck := false } Mode_Cool from by rw [inv.mode]]
        rw [preCalcCycle_cool]
        set q : HVACState := calcTargetTemp { st with m_bRecheck := false } Mode_Cool with hq
        have hqt : q.m_targetTemp = s.m_targetTemp := by
          rw [hq, calcTargetTemp_cool_target]
          rw [coolTarget_congr (calcRevSync { st with m_bRecheck := false } Mode_Cool) s
            (by simp [inv.tout]) (by simp [inv.omin0]) (by simp [inv.omin1])
            (by simp [inv.omax0]) (by simp [inv.omax1]) (by simp [inv.c0]) (by simp [inv.c1])]
          simp only [HVACState.m_ovrTemp] at *
          rw [show ({ st with m_bRecheck := false } : HVACState).m_ovrTemp = s.m_ovrTemp from by
                simp [inv.ovr]]
          exact hsfix
        rw [tcStopCheck_id_cool q (by
          rw [hqt, show q.m_inTemp = s.m_inTemp from by simp [hq, inv.tin],
              show q.cycleThresh = s.cycleThresh from by simp [hq, inv.thr]]
          omega)]
        exact {
          run := by simp [hq, inv.run]
          ct := by simp [hq, inv.ct]
          stop := by simp [hq, inv.stop]
          start := by simp [hq, inv.start]
          rchk := by simp [hq]
          ovt := by simp [hq, inv.ovt]
          mode := by simp [hq, inv.mode]
          pend1 := by simp [hq, inv.pend1]
          pend2 := by simp [hq, inv.pend2]
          cmax := by simp [hq, inv.cmax]
          thr := by simp [hq, inv.thr]
          c0 := by simp [hq, inv.c0]
          c1 := by simp [hq, inv.c1]
          tin := by simp [hq, inv.tin]
          tout := by simp [hq, inv.tout]
          omin0 := by simp [hq, inv.omin0]
          omin1 := by simp [hq, inv.omin1]
          omax0 := by simp [hq, inv.omax0]
          omax1 := by simp [hq, inv.omax1]
          ovr := by simp [hq, inv.ovr]
          tgt := hqt }
      · rw [if_neg g6]
        rw [tcStopCheck_id_cool st (by
          rw [inv.tin, inv.tgt, inv.thr]
          omega)]
        exact inv

theorem cmax_step (s st : HVACState) (b : Bool) (k : Nat)
    (hfix : (calcTargetTemp s Mode_Cool).m_targetTemp = s.m_targetTemp)
    (hth : s.m_targetTemp - s.cycleThresh < s.m_inTemp)
    (hmax : s.cycleMax = 900)
    (inv : CMaxInv s st k) (hk : k + 1 ≤ 899) :
    CMaxInv s (service st b) (k + 1) := by
  have tinv := svcTimers_cmax_inv s st k inv
  unfold service
  dsimp only
  rw [if_pos tinv.run]
  set T2 : HVACState :=
    { svcTimers st with
        m_runTotal := (svcTimers st).m_runTotal + 1,
        m_cycleTimer := (svcTimers st).m_cycleTimer + 1 } with hT2
  have t2inv : CMaxInv s T2 (k + 1) := {
      run := by simp [hT2, inv.run]
      ct := by simp [hT2, inv.ct]
      stop := by simp [hT2, inv.stop]
      start := by simp [hT2, inv.start]
      rchk := by simp [hT2, inv.rchk]
      ovt := by simp only [hT2]; exact tinv.ovt
      mode := by simp [hT2, inv.mode]
      pend1 := by simp [hT2, inv.pend1]
      pend2 := by simp [hT2, inv.pend2]
      cmax := by simp [hT2, inv.cmax]
      thr := by simp [hT2, inv.thr]
      c0 := by simp [hT2, inv.c0]
      c1 := by simp [hT2, inv.c1]
      tin := by simp [hT2, inv.tin]
      tout := by simp [hT2, inv.tout]
      omin0 := by simp [hT2, inv.omin0]
      omin1 := by simp [hT2, inv.omin1]
      omax0 := by simp [hT2, inv.omax0]
      omax1 := by simp [hT2, inv.omax1]
      ovr := by simp only [hT2]; exact tinv.ovr
      tgt := by simp only [hT2]; exact tinv.tgt }
  have hT2ct : T2.m_cycleTimer = k + 1 := t2inv.ct
  by_cases h20 : T2.m_cycleTimer < 20
  · rw [if_pos h20]
    exact t2inv
  · rw [if_neg h20]
    rw [if_neg (show ¬ T2.m_cycleTimer ≥ T2.cycleMax by
          rw [hT2ct, t2inv.cmax, hmax]; omega)]
    unfold serviceRest
    rw [svcModeChange_id T2 t2inv.pend1 t2inv.pend2,
        svcStart_id_no_start T2 t2inv.start,
        svcStop_id_no_stop T2 t2inv.stop]
    exact tempCheck_cmax_inv s T2 b (k + 1) hfix hth t2inv

theorem cmax_final (s st : HVACState) (b : Bool)
    (hmax : s.cycleMax = 900)
    (inv : CMaxInv s st 899) :
    (service st b).m_bRunning = false ∧ (service st b).m_cycleTimer = 900 ∧
    (service st b).m_notif = Note.Note_CycleLimit ∧ (service st b).m_idleTimer = 0 := by
  have tinv := svcTimers_cmax_inv s st 899 inv
  unfold service
  dsimp only
  rw [if_pos tinv.run]
  set T2 : HVACState :=
    { svcTimers st with
        m_runTotal := (svcTimers st).m_runTotal + 1,
        m_cycleTimer := (svcTimers st).m_cycleTimer + 1 } with hT2
  have hT2ct : T2.m_cycleTimer = 900 := by simp [hT2, inv.ct]
  rw [if_neg (show ¬ T2.m_cycleTimer < 20 by omega)]
  rw [if_pos (show T2.m_cycleTimer ≥ T2.cycleMax by
        rw [hT2ct, show T2.cycleMax = s.cycleMax by simp [hT2, inv.cmax], hmax])]

  unfold serviceRest
  set T3 : HVACState := { T2 with m_bStop := true, m_notif := Note.Note_CycleLimit } with hT3
  rw [svcModeChange_id T3 (by simp [hT3, hT2, inv.pend1]) (by simp [hT3, hT2, inv.pend2])]
  rw [svcStart_id_no_start T3 (by simp [hT3, hT2, inv.start])]
  have hw := svcStop_stops T3 (by simp [hT3, hT2]) (by simp [hT3, hT2, inv.run])
  refine ⟨?_, ?_, ?_, ?_⟩
  · rw [tempCheck_fr_m_bRunning, hw.1]
  · rw [tempCheck_fr_m_cycleTimer, svcStop_fr_m_cycleTimer]
    rw [show T3.m_cycleTimer = T2.m_cycleTimer from by simp [hT3], hT2ct]
  · rw [tempCheck_fr_m_notif, svcStop_fr_m_notif]
    try simp [hT3]
  · rw [tempCheck_fr_m_idleTimer, hw.2.2]

/-- C5: with cycleMax = 900, a freshly started cool cycle whose temperature
stop threshold is never met runs for exactly 900 ticks: it is still running
with cycleTimer = k after every k of the first 899 ticks, and the tick that
takes cycleTimer to 900 stops it and raises the CycleLimit notification at
that same tick. -/
theorem C5_cycleMax_stop (s : HVACState) (ins : Nat → Bool)
    (hrun : s.m_bRunning = true) (hct : s.m_cycleTimer = 0)
    (hstop : s.m_bStop = false) (hstart : s.m_bStart = false)
    (hrec : s.m_bRecheck = false) (hovt : s.m_overrideTimer = 0)
    (hmode : s.Mode = Mode_Cool) (hsm : s.m_setMode = s.Mode)
    (hsh : s.m_setHeat = s.heatMode) (hmax : s.cycleMax = 900)
    (hfix : (calcTargetTemp s Mode_Cool).m_targetTemp = s.m_targetTemp)
    (hth : s.m_targetTemp - s.cycleThresh < s.m_inTemp) :
    (∀ k, k ≤ 899 →
      (ticksRun s ins k).m_bRunning = true ∧ (ticksRun s ins k).m_cycleTimer = k) ∧
    (ticksRun s ins 900).m_bRunning = false ∧
    (ticksRun s ins 900).m_cycleTimer = 900 ∧
    (ticksRun s ins 900).m_notif = Note.Note_CycleLimit := by
  have base : CMaxInv s s 0 :=
    { run := hrun, ct := hct, stop := hstop, start := hstart, rchk := hrec,
      ovt := hovt, mode := hmode, pend1 := hsm.trans rfl, pend2 := hsh,
      cmax := rfl, thr := rfl, c0 := rfl, c1 := rfl, tin := rfl, tout := rfl,
      omin0 := rfl, omin1 := rfl, omax0 := rfl, omax1 := rfl, ovr := rfl, tgt := rfl }
  have inv : ∀ k, k ≤ 899 → CMaxInv s (ticksRun s ins k) k := by
    intro k
    induction k with
    | zero => exact fun _ => base
    | succ n ih =>
      intro hn
      exact cmax_step s (ticksRun s ins n) (ins n) n hfix hth hmax (ih (by omega)) hn
  have hfin := cmax_final s (ticksRun s ins 899) (ins 899) hmax (inv 899 (by omega))
  have h900 : ticksRun s ins 900 = service (ticksRun s ins 899) (ins 899) := rfl
  exact ⟨fun k hk => ⟨(inv k hk).run, (inv k hk).ct⟩,
    by rw [h900]; exact hfin.1, by rw [h900]; exact hfin.2.1,
    by rw [h900]; exact hfin.2.2.1⟩

/-- The pin safety invariant: cool and heat outputs are never both high, and
while not running both are low. -/
def InvCH (s : HVACState) : Prop :=
  ¬ (s.pCool = true ∧ s.pHeat = true) ∧
  (s.m_bRunning = false → s.pCool = false ∧ s.pHeat = false)

theorem invCH_of_agree (a b : HVACState) (h1 : a.pCool = b.pCool)
    (h2 : a.pHeat = b.pHeat) (h3 : a.m_bRunning = b.m_bRunning)
    (h : InvCH b) : InvCH a := by
  unfold InvCH at *
  rw [h1, h2, h3]
  exact h

theorem svcStart_invCH (s : HVACState) (h : InvCH s) : InvCH (svcStart s) := by
  obtain ⟨h1, h2⟩ := h
  unfold svcStart
  try dsimp only
  split_ifs with g1 g2 g3 g4 g5 g6
  all_goals unfold InvCH
  all_goals try exact ⟨h1, fun hr => h2 hr⟩
  all_goals simp_all

theorem svcStop_invCH (s : HVACState) (h : InvCH s) : InvCH (svcStop s) := by
  obtain ⟨h1, h2⟩ := h
  unfold svcStop
  try dsimp only
  split_ifs
  all_goals unfold InvCH
  all_goals try exact ⟨h1, fun hr => h2 hr⟩
  all_goals simp_all

theorem service_invCH (s : HVACState) (b : Bool) (h : InvCH s) : InvCH (service s b) := by
  have ht : InvCH (svcTimers s) := invCH_of_agree _ s (by simp) (by simp) (by simp) h
  unfold service
  dsimp only
  by_cases hr : (svcTimers s).m_bRunning = true
  · rw [if_pos hr]
    set T2 : HVACState :=
      { svcTimers s with
          m_runTotal := (svcTimers s).m_runTotal + 1,
          m_cycleTimer := (svcTimers s).m_cycleTimer + 1 } with hT2
    have ht2 : InvCH T2 := invCH_of_agree _ (svcTimers s) (by simp [hT2]) (by simp [hT2]) (by simp [hT2]) ht
    by_cases h20 : T2.m_cycleTimer < 20
    · rw [if_pos h20]
      exact ht2
    · rw [if_neg h20]
      unfold serviceRest
      set T3 : HVACState := if T2.m_cycleTimer ≥ T2.cycleMax then
          { T2 with m_bStop := true, m_notif := Note.Note_CycleLimit } else T2 with hT3
      have ht3 : InvCH T3 := by
        rw [hT3]
        split_ifs
        · exact invCH_of_agree _ T2 (by simp) (by simp) (by simp) ht2
        · exact ht2
      have hM : InvCH (svcModeChange T3) :=
        invCH_of_agree _ T3 (by simp) (by simp) (by simp) ht3
      have hv : InvCH (svcStart (svcModeChange T3)) := svcStart_invCH _ hM
      have hw : InvCH (svcStop (svcStart (svcModeChange T3))) := svcStop_invCH _ hv
      exact invCH_of_agree _ _ (by simp) (by simp) (by simp) hw
  · rw [if_neg hr]
    unfold serviceRest
    set T1 : HVACState := { svcTimers s with m_idleTimer := (svcTimers s).m_idleTimer + 1 } with hT1
    have ht1 : InvCH T1 := invCH_of_agree _ (svcTimers s) (by simp [hT1]) (by simp [hT1]) (by simp [hT1]) ht
    have hM : InvCH (svcModeChange T1) :=
      invCH_of_agree _ T1 (by simp) (by simp) (by simp) ht1
    have hv : InvCH (svcStart (svcModeChange T1)) := svcStart_invCH _ hM
    have hw : InvCH (svcStop (svcStart (svcModeChange T1))) := svcStop_invCH _ hv
    exact invCH_of_agree _ _ (by simp) (by simp) (by simp) hw

theorem applyEv_invCH (s : HVACState) (e : Ev) (h : InvCH s) : InvCH (applyEv s e) := by
  cases e with
  | tick b => exact service_invCH s b h
  | evDisable =>
    unfold applyEv disable
    constructor
    · simp
    · intro
      constructor <;> simp
  | evSetFan b =>
    refine invCH_of_agree _ s ?_ ?_ ?_ h <;>
      (unfold applyEv setFan; try dsimp only; split_ifs <;> simp)
  | evSetTemp m t hl => exact invCH_of_agree _ s (by simp [applyEv]) (by simp [applyEv]) (by simp [applyEv]) h
  | varSetTemp m t hl => exact invCH_of_agree _ s (by simp [applyEv]) (by simp [applyEv]) (by simp [applyEv]) h
  | evUpdIndoor t rh =>
    refine invCH_of_agree _ s ?_ ?_ ?_ h <;>
      (unfold applyEv updateIndoorTemp; try dsimp only; split_ifs <;> simp)
  | evUpdPeaks mn mx =>
    refine invCH_of_agree _ s ?_ ?_ ?_ h <;>
      (unfold applyEv updatePeaks; try dsimp only; split_ifs <;> simp)
  | evSetMode m =>
    refine invCH_of_agree _ s ?_ ?_ ?_ h <;>
      (unfold applyEv setMode; try dsimp only; split_ifs <;> simp)
  | varOverride v =>
    refine invCH_of_agree _ s ?_ ?_ ?_ h <;>
      (unfold applyEv; try dsimp only; split_ifs <;> simp)
  | varRemoteTemp v =>
    refine invCH_of_agree _ s ?_ ?_ ?_ h <;>
      (unfold applyEv; try dsimp only; split_ifs <;> simp)
  | varFanPostDelay v =>
    refine invCH_of_agree _ s ?_ ?_ ?_ h <;>
      (unfold applyEv; try dsimp only; split_ifs <;> simp)
  | evResetFilter =>
    refine invCH_of_agree _ s ?_ ?_ ?_ h <;>
      (unfold applyEv resetFilter; try dsimp only; split_ifs <;> simp)
  | _ =>
    refine invCH_of_agree _ s ?_ ?_ ?_ h <;> (unfold applyEv; try dsimp only; try split_ifs <;> simp) <;> simp [setHeatMode, enable, updateOutdoorTemp, resetTotal]

theorem reach_invCH (s : HVACState) (h : Reach s) : InvCH s := by
  induction h with
  | init mode heatM oMin0 oMin1 tgt =>
    constructor
    · simp [initState]
    · intro
      constructor <;> simp [initState]
  | step s e hs ih => exact applyEv_invCH s e ih

/-- C6: while running, past cycleMin, at a re-check boundary, the stop
decision uses exactly these boundaries: a cooling cycle requests stop if and
only if indoor temperature is at or below the recomputed target minus
cycleThresh (inclusive), and a heating cycle requests stop if and only if
indoor temperature is strictly above the recomputed target plus cycleThresh
(exclusive). -/
theorem C6_stop_boundaries (s : HVACState)
    (hrun : s.m_bRunning = true) (hen : s.m_bEnabled = true)
    (hT : s.m_inTemp ≠ 0) (hcy : ¬ (s.m_cycleTimer < s.cycleMin))
    (hstop : s.m_bStop = false) :
    (s.Mode = Mode_Cool →
      ((tempCheck s true).m_bStop = true ↔
        s.m_inTemp ≤ (calcTargetTemp { s with m_bRecheck := false } Mode_Cool).m_targetTemp - s.cycleThresh)) ∧
    (s.Mode = Mode_Heat →
      ((tempCheck s true).m_bStop = true ↔
        s.m_inTemp > (calcTargetTemp { s with m_bRecheck := false } Mode_Heat).m_targetTemp + s.cycleThresh)) := by
  constructor <;> intro hm <;>
    rw [tempCheck_run_recheck s hT hen (by rw [hm]; decide) hrun hcy,
        if_neg (by rw [hm]; decide)]
  · rw [show preCalcCycle { s with m_bRecheck := false } s.Mode
          = preCalcCycle { s with m_bRecheck := false } Mode_Cool from by rw [hm]]
    rw [preCalcCycle_cool]
    unfold tcStopCheck
    rw [if_pos hm]
    have h1 : (calcTargetTemp { s with m_bRecheck := false } Mode_Cool).m_inTemp = s.m_inTemp := by simp
    have h2 : (calcTargetTemp { s with m_bRecheck := false } Mode_Cool).cycleThresh = s.cycleThresh := by simp
    have h3 : (calcTargetTemp { s with m_bRecheck := false } Mode_Cool).m_bStop = s.m_bStop := by simp
    split_ifs with hc
    · simp only [h1, h2] at hc
      simp only [hc, iff_true]
    · simp only [h1, h2] at hc
      exact iff_of_false (by simp [h3, hstop]) hc
  · rw [show preCalcCycle { s with m_bRecheck := false } s.Mode
          = preCalcCycle { s with m_bRecheck := false } Mode_Heat from by rw [hm]]
    rw [preCalcCycle_heat]
    unfold tcStopCheck
    rw [if_neg (by rw [hm]; decide), if_pos hm]
    have h1 : (calcTargetTemp { s with m_bRecheck := false } Mode_Heat).m_inTemp = s.m_inTemp := by simp
    have h2 : (calcTargetTemp { s with m_bRecheck := false } Mode_Heat).cycleThresh = s.cycleThresh := by simp
    have h3 : (calcTargetTemp { s with m_bRecheck := false } Mode_Heat).m_bStop = s.m_bStop := by simp
    split_ifs with hc
    · simp only [h1, h2] at hc
      simp only [hc, iff_true]
    · simp only [h1, h2] at hc
      exact iff_of_false (by simp [h3, hstop]) hc

theorem reach_runTrace (s : HVACState) (es : List Ev) (h : Reach s) :
    Reach (runTrace s es) := by
  induction es generalizing s with
  | nil => exact h
  | cons e t ih => exact ih (applyEv s e) (Reach.step s e h)

/-- The constructor state with all EEPROM resident unknowns chosen zero and
the cached target zero. -/
def init0 : HVACState := initState 0 0 0 0 0

/-- Events preparing a cool start: remote temperature 80.0 (valid indoor
sample), idleMin lowered to 60, enable, request Cool, one tick (which
commits the mode and raises the start request). -/
def evsA : List Ev :=
  [Ev.varRemoteTemp 800, Ev.varIdleMin 60, Ev.evEnable, Ev.evSetMode 1, Ev.tick false]

/-- Reachable idle state with a pending start request. -/
def preStart : HVACState := runTrace init0 evsA

/-- Reachable state for the C1 counterexample: after the start was requested
under Cool, the user switches the mode to Off; the next tick commits Off and
then dispatches the pending start with no case for Off. -/
def cex1State : HVACState := runTrace init0 (evsA ++ [Ev.evSetMode 0, Ev.tick false])

/-- C1 counterexample: a reachable state that is running with neither the
cool output nor the heat output asserted, refuting that running implies
exactly one output is asserted. -/
theorem C1_counterexample :
    Reach cex1State ∧ cex1State.m_bRunning = true ∧
    cex1State.pCool = false ∧ cex1State.pHeat = false :=
  ⟨reach_runTrace init0 _ (Reach.init 0 0 0 0 0), by decide, by decide, by decide⟩

/-- C1 (amended): in every reachable state the cool output and the heat
output are never asserted simultaneously; running does not guarantee that
one of them is asserted. -/
theorem C1_never_both (s : HVACState) (h : Reach s) :
    ¬ (s.pCool = true ∧ s.pHeat = true) :=
  (reach_invCH s h).1

/-- Witness for C1_never_both at the constructor state. -/
theorem C1_never_both_witness :
    ¬ (init0.pCool = true ∧ init0.pHeat = true) :=
  C1_never_both init0 (Reach.init 0 0 0 0 0)

/-- Reachable running state 20 ticks into a cool cycle, with a mode change
to Heat just requested. -/
def cex2Pre : HVACState :=
  runTrace init0 (evsA ++ [Ev.tick false] ++ List.replicate 20 (Ev.tick false) ++ [Ev.evSetMode 2])

/-- C2 counterexample: the next tick stops the cycle because of the pending
mode change at cycleTimer 21, below cycleMin 60, with no CycleLimit raised
and cycleTimer far from cycleMax: a stop not forced by cycleMax that
violates cycleTimer at or past cycleMin. -/
theorem C2_counterexample :
    Reach cex2Pre ∧ cex2Pre.m_bRunning = true ∧ cex2Pre.m_cycleTimer = 20 ∧
    (applyEv cex2Pre (Ev.tick false)).m_bRunning = false ∧
    (applyEv cex2Pre (Ev.tick false)).m_cycleTimer = 21 ∧
    (applyEv cex2Pre (Ev.tick false)).m_cycleTimer < (applyEv cex2Pre (Ev.tick false)).cycleMin ∧
    (applyEv cex2Pre (Ev.tick false)).m_cycleTimer < (applyEv cex2Pre (Ev.tick false)).cycleMax ∧
    (applyEv cex2Pre (Ev.tick false)).m_notif ≠ Note.Note_CycleLimit :=
  ⟨reach_runTrace init0 _ (Reach.init 0 0 0 0 0), by decide, by decide, by decide,
   by decide, by decide, by decide, by decide⟩

/-- Reachable idle state with a start pending, then idleMin raised to 1800
before the start tick. -/
def cex3Pre : HVACState := runTrace init0 (evsA ++ [Ev.varIdleMin 1800])

/-- C3 counterexample: the next tick starts the cycle with idleTimer 182,
far below the current idleMin 1800: at the instant of the start, idleTimer
at or past idleMin fails. -/
theorem C3_counterexample :
    Reach cex3Pre ∧ cex3Pre.m_bRunning = false ∧
    (applyEv cex3Pre (Ev.tick false)).m_bRunning = true ∧
    (applyEv cex3Pre (Ev.tick false)).m_idleTimer = 182 ∧
    (applyEv cex3Pre (Ev.tick false)).idleMin = 1800 ∧
    (applyEv cex3Pre (Ev.tick false)).m_idleTimer < (applyEv cex3Pre (Ev.tick false)).idleMin :=
  ⟨reach_runTrace init0 _ (Reach.init 0 0 0 0 0), by decide, by decide, by decide,
   by decide, by decide⟩

/-- Idle state at the temperature threshold used to exercise the C3 request
guard. -/
def witIdle : HVACState :=
  { initState 1 0 0 0 790 with
      m_setMode := 1, m_bEnabled := true, m_inTemp := 800, m_idleTimer := 400,
      m_bRecheck := true }

/-- Witness for C3_idleMin_guard: the request guard at witIdle and the start
instant bound at the reachable pre-start state. -/
theorem C3_idleMin_guard_witness :
    (witIdle.m_bRunning = false ∧ witIdle.idleMin ≤ witIdle.m_idleTimer) ∧
    (service preStart false).idleMin ≤ (service preStart false).m_idleTimer :=
  ⟨C3_idleMin_guard.1 witIdle false (by decide) (by decide),
   C3_idleMin_guard.2 preStart false (by decide) (by decide) (by decide)⟩

/-- A running cool cycle immediately after a start, with the constructor
configuration, indoor temperature 80.0 and the cached target 79.0. -/
def witRun : HVACState :=
  { initState 1 0 0 0 790 with
      m_setMode := 1, m_bEnabled := true, m_bRunning := true, m_inTemp := 800,
      m_idleTimer := 301, pCool := true, pFan := true, m_bFanRunning := true,
      pRev := false }

/-- The same cycle 100 ticks in, past cycleMin. -/
def wit6 : HVACState := { witRun with m_cycleTimer := 100 }

/-- The same cycle 100 ticks in with the indoor temperature fallen to 70.0,
below target minus threshold, so the next check requests a stop. -/
def witC2 : HVACState := { witRun with m_cycleTimer := 100, m_inTemp := 700 }

/-- Witness for C2_cycleMin_stop: a tick of witC2 leaves a pending stop, and
the theorem yields the cycleMin bound. -/
theorem C2_cycleMin_stop_witness :
    witC2.cycleMin ≤ witC2.m_cycleTimer + 1 ∧
    (service witC2 true).m_cycleTimer = witC2.m_cycleTimer + 1 :=
  C2_cycleMin_stop witC2 true rfl rfl (by decide)

/-- Constant environment input stream: no sensor updates, second() nonzero. -/
def c4ins : Nat → Bool × List SensorEv := fun _ => (false, [])

/-- Witness for C4_start_lockout at the reachable pre-start state: 19 ticks
after the start the cycle is still running with cycleTimer 19. -/
theorem C4_start_lockout_witness :
    (envRun (service preStart false) c4ins 19).m_bRunning = true ∧
    (envRun (service preStart false) c4ins 19).m_cycleTimer = 19 := by
  have h := C4_start_lockout preStart false c4ins (by decide) (by decide)
  exact ⟨(h 19 (by decide)).1, (h 19 (by decide)).2.1⟩

/-- Constant second() stream for the C5 witness. -/
def c5ins : Nat → Bool := fun _ => false

/-- Witness for C5_cycleMax_stop at witRun: still running after 899 ticks,
stopped with the CycleLimit notification at tick 900. -/
theorem C5_cycleMax_stop_witness :
    (ticksRun witRun c5ins 899).m_bRunning = true ∧
    (ticksRun witRun c5ins 900).m_bRunning = false ∧
    (ticksRun witRun c5ins 900).m_notif = Note.Note_CycleLimit := by
  have h := C5_cycleMax_stop witRun c5ins rfl rfl rfl rfl rfl rfl rfl rfl rfl rfl
    (by decide) (by decide)
  exact ⟨(h.1 899 (by decide)).1, h.2.1, h.2.2.2⟩

/-- Witness for C6_stop_boundaries at wit6 (a cool cycle past cycleMin at a
re-check boundary). -/
theorem C6_stop_boundaries_witness :
    (tempCheck wit6 true).m_bStop = true ↔
      wit6.m_inTemp ≤
        (calcTargetTemp { wit6 with m_bRecheck := false } Mode_Cool).m_targetTemp -
          wit6.cycleThresh :=
  (C6_stop_boundaries wit6 rfl rfl (by decide) (by decide) rfl).1 rfl

/-- Auto mode, heat mode Auto, indoor 70.0, outdoor 30.0: cold outdoors. -/
def c7cold : HVACState :=
  { initState 3 2 0 0 0 with m_inTemp := 700, m_outTemp := 300, m_bEnabled := true }

/-- Auto mode, heat mode Auto, indoor 70.0, outdoor 110.0: hot outdoors. -/
def c7warm : HVACState :=
  { initState 3 2 0 0 0 with m_inTemp := 700, m_outTemp := 1100, m_bEnabled := true }

/-- C7: the heat source auto selection is inverted in the code.  With heat
mode Auto and auto mode resolving to Heat: at outdoor 30.0 and indoor 70.0
(outdoor below indoor minus the threshold, where the claim requires Gas) the
code selects the heat pump, and at outdoor 110.0 (far above, where the claim
requires the heat pump) the code selects Gas.  The code compares
m_inTemp < m_outTemp - eHeatThresh * 10, contradicting its own comment
about using gas when heat pump efficiency is too low. -/
theorem C7_auto_heat_source_bug :
    ((preCalcCycle c7cold Mode_Auto).1).m_AutoMode = Mode_Heat ∧
    ((preCalcCycle c7cold Mode_Auto).1).m_AutoHeat = Heat_HP ∧
    c7cold.m_outTemp < c7cold.m_inTemp - c7cold.eHeatThresh * 10 ∧
    ((preCalcCycle c7warm Mode_Auto).1).m_AutoMode = Mode_Heat ∧
    ((preCalcCycle c7warm Mode_Auto).1).m_AutoHeat = Heat_NG ∧
    ¬ (c7warm.m_outTemp < c7warm.m_inTemp - c7warm.eHeatThresh * 10) ∧
    Heat_HP ≠ Heat_NG :=
  ⟨by decide, by decide, by decide, by decide, by decide, by decide, by decide⟩

/-- Reachable state after updatePeaks(50, 50) and an outdoor sample 60.0:
the outdoor band is zero wide. -/
def c8state : HVACState := runTrace init0 [Ev.evUpdPeaks 50 50, Ev.evUpdOutdoor 600]

/-- C8: after a single updatePeaks(50, 50) the outdoor band has zero width
and the interpolation divisor of calcTargetTemp is 0: the C code divides by
zero (undefined behavior on the target), with no fallback to the nearest
boundary setpoint.  The model uses the Int.tdiv convention x / 0 = 0, under
which the result collapses to the low cool setpoint 790 even though
outdoorTemp 600 is above the band low. -/
theorem C8_zero_band_div_zero :
    Reach c8state ∧ targetDivisor c8state = 0 ∧
    (calcTargetTemp c8state Mode_Cool).m_targetTemp = 790 :=
  ⟨reach_runTrace init0 _ (Reach.init 0 0 0 0 0), by decide, by decide⟩

/-- C9 counterexample: setTemp with 90.0 for the cool high setpoint (above
the 88.0 bound) leaves the state entirely unchanged; the setpoint is not
updated to the bound 880 as the claim requires. -/
theorem C9_counterexample :
    setTemp init0 Mode_Cool 900 true = init0 ∧ init0.coolTemp1 = 820 ∧
    (setTemp init0 Mode_Cool 900 true).coolTemp1 ≠ 880 :=
  ⟨by decide, by decide, by decide⟩

/-- Witness for C9_out_of_range_rejected: a too high cool value and a too
low heat value are both rejected with the state unchanged. -/
theorem C9_out_of_range_rejected_witness :
    setTemp init0 Mode_Cool 900 true = init0 ∧
    setTemp init0 Mode_Heat 100 false = init0 :=
  ⟨(C9_out_of_range_rejected init0 900 true).1 (Or.inr (by decide)),
   (C9_out_of_range_rejected init0 100 false).2 (Or.inl (by decide))⟩

/-- C10: updateIndoorTemp stores the given indoor temperature exactly when
the remote heartbeat timer is zero (otherwise the stored indoor temperature
is unchanged and the local update is dropped), and stores the humidity
unconditionally. -/
theorem C10_updateIndoorTemp (s : HVACState) (t rh : Int) :
    ((updateIndoorTemp s t rh).m_inTemp =
      if s.m_remoteTimer = 0 then t else s.m_inTemp) ∧
    (updateIndoorTemp s t rh).m_rh = rh := by
  unfold updateIndoorTemp
  split_ifs <;> simp_all
